import Mathlib

/-!
# FluxGarage RoboEyes: the eye animator

A shallow embedding of `FluxGarage_RoboEyes.cpp` / `FluxGarage_Roboeyes.hpp`.

Conventions of the embedding.

* The class `roboEyes` is a record; every member function is a function on that record.
  The two globals `BGCOLOR` and `MAINCOLOR` are fields of the record as well.
* `int` is modelled by `Int`. Signed overflow is undefined behaviour in C++ and is outside
  the model. `/` on `int` is `Int.tdiv` (truncation toward zero).
* `byte` fields hold the value reduced modulo `2^8` (`toByte`), `unsigned long` fields the
  value reduced modulo `2^32` (`toULong`); both conversions are explicit at every store
  of a computed value.
* `millis()` is the argument `now` of a tick, an `unsigned long` value: the clock does not
  advance inside one tick.
* `random(howbig)` is an oracle `Rng`: the first argument names the call site, the second
  is `howbig`.
* The display is a log: every call on `display` appends one `DrawCall`, whose arguments are
  the values of the argument expressions, before any conversion to the parameter types of
  the graphics library.
* The three sweat droplets keep their `float` y position in `ℚ` (the source only ever adds
  `0.5` to it, so the values are exact); the `float` width and height of a droplet, and the
  `int` x derived from the width, are floating-point quantities outside the model, and a
  droplet's draw call is logged without its arguments.
-/

/-- One call on the display collaborator. -/
inductive DrawCall where
  | clearDisplay
  | fillRoundRect (x y w h r color : Int)
  | fillTriangle (x0 y0 x1 y1 x2 y2 color : Int)
  | sweatDrop (n : Nat)
  | display
  deriving DecidableEq, Repr

/-- The oracle for `random(howbig)`: call site, then `howbig`. -/
abbrev Rng := Nat → Int → Int

/-- Conversion of an `int` value to `byte`. -/
def toByte (x : Int) : Int := x % 256

/-- Conversion of an integer value to `unsigned long`. -/
def toULong (x : Int) : Int := x % 4294967296

-- mood types
def DEFAULT : Nat := 0
def TIRED : Nat := 1
def ANGRY : Nat := 2
def HAPPY : Nat := 3
def DASAI_MOSHI : Nat := 4

-- predefined positions
def N : Nat := 1
def NE : Nat := 2
def E : Nat := 3
def SE : Nat := 4
def S : Nat := 5
def SW : Nat := 6
def W : Nat := 7
def NW : Nat := 8

/-- The data members of class `roboEyes`, with the two colour globals. -/
structure roboEyes where
  BGCOLOR : Int
  MAINCOLOR : Int
  screenWidth : Int
  screenHeight : Int
  frameInterval : Int
  fpsTimer : Int
  tired : Bool
  angry : Bool
  happy : Bool
  curious : Bool
  cyclops : Bool
  eyeL_open : Bool
  eyeR_open : Bool
  eyeLwidthDefault : Int
  eyeLheightDefault : Int
  eyeLwidthCurrent : Int
  eyeLheightCurrent : Int
  eyeLwidthNext : Int
  eyeLheightNext : Int
  eyeLheightOffset : Int
  eyeLborderRadiusDefault : Int
  eyeLborderRadiusCurrent : Int
  eyeLborderRadiusNext : Int
  eyeRwidthDefault : Int
  eyeRheightDefault : Int
  eyeRwidthCurrent : Int
  eyeRheightCurrent : Int
  eyeRwidthNext : Int
  eyeRheightNext : Int
  eyeRheightOffset : Int
  eyeRborderRadiusDefault : Int
  eyeRborderRadiusCurrent : Int
  eyeRborderRadiusNext : Int
  eyeLxDefault : Int
  eyeLyDefault : Int
  eyeLx : Int
  eyeLy : Int
  eyeLxNext : Int
  eyeLyNext : Int
  eyeRxDefault : Int
  eyeRyDefault : Int
  eyeRx : Int
  eyeRy : Int
  eyeRxNext : Int
  eyeRyNext : Int
  eyelidsHeightMax : Int
  eyelidsTiredHeight : Int
  eyelidsTiredHeightNext : Int
  eyelidsAngryHeight : Int
  eyelidsAngryHeightNext : Int
  eyelidsHappyBottomOffsetMax : Int
  eyelidsHappyBottomOffset : Int
  eyelidsHappyBottomOffsetNext : Int
  spaceBetweenDefault : Int
  spaceBetweenCurrent : Int
  spaceBetweenNext : Int
  hFlicker : Bool
  hFlickerAlternate : Bool
  hFlickerAmplitude : Int
  vFlicker : Bool
  vFlickerAlternate : Bool
  vFlickerAmplitude : Int
  autoblinker : Bool
  blinkInterval : Int
  blinkIntervalVariation : Int
  blinktimer : Int
  idle : Bool
  idleInterval : Int
  idleIntervalVariation : Int
  idleAnimationTimer : Int
  confused : Bool
  confusedAnimationTimer : Int
  confusedAnimationDuration : Int
  confusedToggle : Bool
  laugh : Bool
  laughAnimationTimer : Int
  laughAnimationDuration : Int
  laughToggle : Bool
  sweat : Bool
  sweatBorderradius : Int
  sweat1XPosInitial : Int
  sweat1YPos : ℚ
  sweat1YPosMax : Int
  sweat2XPosInitial : Int
  sweat2YPos : ℚ
  sweat2YPosMax : Int
  sweat3XPosInitial : Int
  sweat3YPos : ℚ
  sweat3YPosMax : Int

namespace roboEyes

/-- An object whose storage is all zero, as static storage is before construction. -/
def zeroed : roboEyes where
  BGCOLOR := 0
  MAINCOLOR := 0
  screenWidth := 0
  screenHeight := 0
  frameInterval := 0
  fpsTimer := 0
  tired := false
  angry := false
  happy := false
  curious := false
  cyclops := false
  eyeL_open := false
  eyeR_open := false
  eyeLwidthDefault := 0
  eyeLheightDefault := 0
  eyeLwidthCurrent := 0
  eyeLheightCurrent := 0
  eyeLwidthNext := 0
  eyeLheightNext := 0
  eyeLheightOffset := 0
  eyeLborderRadiusDefault := 0
  eyeLborderRadiusCurrent := 0
  eyeLborderRadiusNext := 0
  eyeRwidthDefault := 0
  eyeRheightDefault := 0
  eyeRwidthCurrent := 0
  eyeRheightCurrent := 0
  eyeRwidthNext := 0
  eyeRheightNext := 0
  eyeRheightOffset := 0
  eyeRborderRadiusDefault := 0
  eyeRborderRadiusCurrent := 0
  eyeRborderRadiusNext := 0
  eyeLxDefault := 0
  eyeLyDefault := 0
  eyeLx := 0
  eyeLy := 0
  eyeLxNext := 0
  eyeLyNext := 0
  eyeRxDefault := 0
  eyeRyDefault := 0
  eyeRx := 0
  eyeRy := 0
  eyeRxNext := 0
  eyeRyNext := 0
  eyelidsHeightMax := 0
  eyelidsTiredHeight := 0
  eyelidsTiredHeightNext := 0
  eyelidsAngryHeight := 0
  eyelidsAngryHeightNext := 0
  eyelidsHappyBottomOffsetMax := 0
  eyelidsHappyBottomOffset := 0
  eyelidsHappyBottomOffsetNext := 0
  spaceBetweenDefault := 0
  spaceBetweenCurrent := 0
  spaceBetweenNext := 0
  hFlicker := false
  hFlickerAlternate := false
  hFlickerAmplitude := 0
  vFlicker := false
  vFlickerAlternate := false
  vFlickerAmplitude := 0
  autoblinker := false
  blinkInterval := 0
  blinkIntervalVariation := 0
  blinktimer := 0
  idle := false
  idleInterval := 0
  idleIntervalVariation := 0
  idleAnimationTimer := 0
  confused := false
  confusedAnimationTimer := 0
  confusedAnimationDuration := 0
  confusedToggle := false
  laugh := false
  laughAnimationTimer := 0
  laughAnimationDuration := 0
  laughToggle := false
  sweat := false
  sweatBorderradius := 0
  sweat1XPosInitial := 0
  sweat1YPos := 0
  sweat1YPosMax := 0
  sweat2XPosInitial := 0
  sweat2YPos := 0
  sweat2YPosMax := 0
  sweat3XPosInitial := 0
  sweat3YPos := 0
  sweat3YPosMax := 0

/-- A freshly constructed animator: every member with an initialiser in the class body gets
it, the members without one (the twelve eye coordinates and the droplets' `YPosMax`) keep
whatever the storage `u` held. `BGCOLOR` and `MAINCOLOR` get their global initialisers. -/
def fresh (u : roboEyes) : roboEyes :=
  { u with
    BGCOLOR := 0
    MAINCOLOR := 1
    screenWidth := 128
    screenHeight := 64
    frameInterval := 20
    fpsTimer := 0
    tired := false
    angry := false
    happy := false
    curious := false
    cyclops := false
    eyeL_open := false
    eyeR_open := false
    eyeLwidthDefault := 36
    eyeLheightDefault := 36
    eyeLwidthCurrent := 36
    eyeLheightCurrent := 1
    eyeLwidthNext := 36
    eyeLheightNext := 36
    eyeLheightOffset := 0
    eyeLborderRadiusDefault := 8
    eyeLborderRadiusCurrent := 8
    eyeLborderRadiusNext := 8
    eyeRwidthDefault := 36
    eyeRheightDefault := 36
    eyeRwidthCurrent := 36
    eyeRheightCurrent := 1
    eyeRwidthNext := 36
    eyeRheightNext := 36
    eyeRheightOffset := 0
    eyeRborderRadiusDefault := 8
    eyeRborderRadiusCurrent := 8
    eyeRborderRadiusNext := 8
    eyelidsHeightMax := toByte (Int.tdiv 36 2)
    eyelidsTiredHeight := 0
    eyelidsTiredHeightNext := 0
    eyelidsAngryHeight := 0
    eyelidsAngryHeightNext := 0
    eyelidsHappyBottomOffsetMax := toByte (Int.tdiv 36 2 + 3)
    eyelidsHappyBottomOffset := 0
    eyelidsHappyBottomOffsetNext := 0
    spaceBetweenDefault := 10
    spaceBetweenCurrent := 10
    spaceBetweenNext := 10
    hFlicker := false
    hFlickerAlternate := false
    hFlickerAmplitude := 2
    vFlicker := false
    vFlickerAlternate := false
    vFlickerAmplitude := 10
    autoblinker := false
    blinkInterval := 1
    blinkIntervalVariation := 4
    blinktimer := 0
    idle := false
    idleInterval := 1
    idleIntervalVariation := 3
    idleAnimationTimer := 0
    confused := false
    confusedAnimationTimer := 0
    confusedAnimationDuration := 500
    confusedToggle := true
    laugh := false
    laughAnimationTimer := 0
    laughAnimationDuration := 500
    laughToggle := true
    sweat := false
    sweatBorderradius := 3
    sweat1XPosInitial := 2
    sweat1YPos := 2
    sweat2XPosInitial := 2
    sweat2YPos := 2
    sweat3XPosInitial := 2
    sweat3YPos := 2 }

/-- Member function `setFramerate(byte fps)`. Division by `fps = 0` is undefined in the source; the model
returns Lean's `1000 / 0 = 0` there, and every statement about the interval excludes it. -/
def setFramerate (s : roboEyes) (fps : Fin 256) : roboEyes :=
  { s with frameInterval := Int.tdiv 1000 (fps.val : Int) }

/-- Member function `begin(int width, int height, byte frameRate)`: the new state and the two display calls. -/
def begin (s : roboEyes) (width height : Int) (frameRate : Fin 256) :
    roboEyes × List DrawCall :=
  let s := { s with screenWidth := width }
  let s := { s with screenHeight := height }
  let s := { s with eyeLxDefault := Int.tdiv (s.screenWidth - (s.eyeLwidthDefault + s.spaceBetweenDefault + s.eyeRwidthDefault)) 2 }
  let s := { s with eyeLyDefault := Int.tdiv (s.screenHeight - s.eyeLheightDefault) 2 }
  let s := { s with eyeRxDefault := s.eyeLxDefault + s.eyeLwidthCurrent + s.spaceBetweenDefault }
  let s := { s with eyeRyDefault := s.eyeLyDefault }
  let s := { s with eyeLx := s.eyeLxDefault }
  let s := { s with eyeLy := s.eyeLyDefault }
  let s := { s with eyeLxNext := s.eyeLx }
  let s := { s with eyeLyNext := s.eyeLy }
  let s := { s with eyeRx := s.eyeRxDefault }
  let s := { s with eyeRy := s.eyeRyDefault }
  let s := { s with eyeRxNext := s.eyeRx }
  let s := { s with eyeRyNext := s.eyeRy }
  let s := { s with eyeLheightCurrent := 1 }
  let s := { s with eyeRheightCurrent := 1 }
  (setFramerate s frameRate, [DrawCall.clearDisplay, DrawCall.display])

/-- Member function `setDisplayColors(uint8_t background, uint8_t main)`. -/
def setDisplayColors (s : roboEyes) (background main : Fin 256) : roboEyes :=
  { s with BGCOLOR := (background.val : Int), MAINCOLOR := (main.val : Int) }

/-- Member function `setWidth(byte leftEye, byte rightEye)`. -/
def setWidth (s : roboEyes) (leftEye rightEye : Fin 256) : roboEyes :=
  let s := { s with eyeLwidthNext := (leftEye.val : Int) }
  let s := { s with eyeRwidthNext := (rightEye.val : Int) }
  let s := { s with eyeLwidthDefault := (leftEye.val : Int) }
  { s with eyeRwidthDefault := (rightEye.val : Int) }

/-- Member function `setHeight(byte leftEye, byte rightEye)`. -/
def setHeight (s : roboEyes) (leftEye rightEye : Fin 256) : roboEyes :=
  let s := { s with eyeLheightNext := (leftEye.val : Int) }
  let s := { s with eyeRheightNext := (rightEye.val : Int) }
  let s := { s with eyeLheightDefault := (leftEye.val : Int) }
  { s with eyeRheightDefault := (rightEye.val : Int) }

/-- Member function `setBorderradius(byte leftEye, byte rightEye)`. -/
def setBorderradius (s : roboEyes) (leftEye rightEye : Fin 256) : roboEyes :=
  let s := { s with eyeLborderRadiusNext := (leftEye.val : Int) }
  let s := { s with eyeRborderRadiusNext := (rightEye.val : Int) }
  let s := { s with eyeLborderRadiusDefault := (leftEye.val : Int) }
  { s with eyeRborderRadiusDefault := (rightEye.val : Int) }

/-- Member function `setSpacebetween(int space)`. -/
def setSpacebetween (s : roboEyes) (space : Int) : roboEyes :=
  let s := { s with spaceBetweenNext := space }
  { s with spaceBetweenDefault := space }

/-- Member function `setMood(unsigned char mood)`: the `switch` with its `default` branch. -/
def setMood (s : roboEyes) (mood : Fin 256) : roboEyes :=
  if mood.val = TIRED then
    { s with tired := true, angry := false, happy := false }
  else if mood.val = ANGRY then
    { s with tired := false, angry := true, happy := false }
  else if mood.val = HAPPY then
    { s with tired := false, angry := false, happy := true }
  else
    { s with tired := false, angry := false, happy := false }

/-- Member function `getScreenConstraint_X()`: the max x position for the left eye. -/
def getScreenConstraint_X (s : roboEyes) : Int :=
  s.screenWidth - s.eyeLwidthCurrent - s.spaceBetweenCurrent - s.eyeRwidthCurrent

/-- Member function `getScreenConstraint_Y()`: the max y position for the left eye. -/
def getScreenConstraint_Y (s : roboEyes) : Int :=
  s.screenHeight - s.eyeLheightDefault

/-- Member function `setPosition(unsigned char position)`: the `switch` with its `default` branch. -/
def setPosition (s : roboEyes) (position : Fin 256) : roboEyes :=
  if position.val = N then
    { s with eyeLxNext := Int.tdiv (getScreenConstraint_X s) 2, eyeLyNext := 0 }
  else if position.val = NE then
    { s with eyeLxNext := getScreenConstraint_X s, eyeLyNext := 0 }
  else if position.val = E then
    { s with eyeLxNext := getScreenConstraint_X s, eyeLyNext := Int.tdiv (getScreenConstraint_Y s) 2 }
  else if position.val = SE then
    { s with eyeLxNext := getScreenConstraint_X s, eyeLyNext := getScreenConstraint_Y s }
  else if position.val = S then
    { s with eyeLxNext := Int.tdiv (getScreenConstraint_X s) 2, eyeLyNext := getScreenConstraint_Y s }
  else if position.val = SW then
    { s with eyeLxNext := 0, eyeLyNext := getScreenConstraint_Y s }
  else if position.val = W then
    { s with eyeLxNext := 0, eyeLyNext := Int.tdiv (getScreenConstraint_Y s) 2 }
  else if position.val = NW then
    { s with eyeLxNext := 0, eyeLyNext := 0 }
  else
    { s with eyeLxNext := Int.tdiv (getScreenConstraint_X s) 2,
             eyeLyNext := Int.tdiv (getScreenConstraint_Y s) 2 }

/-- Member function `setAutoblinker(bool active, int interval, int variation)`. -/
def setAutoblinker (s : roboEyes) (active : Bool) (interval variation : Int) : roboEyes :=
  { s with autoblinker := active, blinkInterval := interval, blinkIntervalVariation := variation }

/-- Member function `setAutoblinker(bool active)`, the one-argument overload. -/
def setAutoblinker1 (s : roboEyes) (active : Bool) : roboEyes :=
  { s with autoblinker := active }

/-- Member function `setIdleMode(bool active, int interval, int variation)`. -/
def setIdleMode (s : roboEyes) (active : Bool) (interval variation : Int) : roboEyes :=
  { s with idle := active, idleInterval := interval, idleIntervalVariation := variation }

/-- Member function `setIdleMode(bool active)`, the one-argument overload. -/
def setIdleMode1 (s : roboEyes) (active : Bool) : roboEyes :=
  { s with idle := active }

/-- Member function `setCuriosity(bool curiousBit)`. -/
def setCuriosity (s : roboEyes) (curiousBit : Bool) : roboEyes :=
  { s with curious := curiousBit }

/-- Member function `setCyclops(bool cyclopsBit)`. -/
def setCyclops (s : roboEyes) (cyclopsBit : Bool) : roboEyes :=
  { s with cyclops := cyclopsBit }

/-- Member function `setHFlicker(bool flickerBit, byte Amplitude)`. -/
def setHFlicker (s : roboEyes) (flickerBit : Bool) (Amplitude : Fin 256) : roboEyes :=
  { s with hFlicker := flickerBit, hFlickerAmplitude := (Amplitude.val : Int) }

/-- Member function `setHFlicker(bool flickerBit)`, the one-argument overload. -/
def setHFlicker1 (s : roboEyes) (flickerBit : Bool) : roboEyes :=
  { s with hFlicker := flickerBit }

/-- Member function `setVFlicker(bool flickerBit, byte Amplitude)`. -/
def setVFlicker (s : roboEyes) (flickerBit : Bool) (Amplitude : Fin 256) : roboEyes :=
  { s with vFlicker := flickerBit, vFlickerAmplitude := (Amplitude.val : Int) }

/-- Member function `setVFlicker(bool flickerBit)`, the one-argument overload. -/
def setVFlicker1 (s : roboEyes) (flickerBit : Bool) : roboEyes :=
  { s with vFlicker := flickerBit }

/-- Member function `setSweat(bool sweatBit)`. -/
def setSweat (s : roboEyes) (sweatBit : Bool) : roboEyes :=
  { s with sweat := sweatBit }

/-- Member function `close()`: close both eyes. -/
def close (s : roboEyes) : roboEyes :=
  { s with eyeLheightNext := 1, eyeRheightNext := 1, eyeL_open := false, eyeR_open := false }

end roboEyes

/-- Member function `open()`: open both eyes. -/
def roboEyes.open (s : roboEyes) : roboEyes :=
  { s with eyeL_open := true, eyeR_open := true }

namespace roboEyes

/-- Member function `blink()`: trigger the eyeblink animation. -/
def blink (s : roboEyes) : roboEyes :=
  roboEyes.open (roboEyes.close s)

/-- Member function `close(bool left, bool right)`. -/
def close2 (s : roboEyes) (left right : Bool) : roboEyes :=
  let s := if left then { s with eyeLheightNext := 1, eyeL_open := false } else s
  if right then { s with eyeRheightNext := 1, eyeR_open := false } else s

/-- Member function `open(bool left, bool right)`. -/
def open2 (s : roboEyes) (left right : Bool) : roboEyes :=
  let s := if left then { s with eyeL_open := true } else s
  if right then { s with eyeR_open := true } else s

/-- Member function `blink(bool left, bool right)`. -/
def blink2 (s : roboEyes) (left right : Bool) : roboEyes :=
  open2 (close2 s left right) left right

/-- Member function `anim_confused()`. -/
def anim_confused (s : roboEyes) : roboEyes :=
  { s with confused := true }

/-- Member function `anim_laugh()`. -/
def anim_laugh (s : roboEyes) : roboEyes :=
  { s with laugh := true }

/-! ### `drawEyes`, statement group by statement group, in source order -/

/-- Vertical size offset for larger eyes when looking left or right (curious gaze). -/
def curiosityStep (s : roboEyes) : roboEyes :=
  if s.curious then
    let s :=
      if s.eyeLxNext ≤ 10 then { s with eyeLheightOffset := 8 }
      else if s.eyeLxNext ≥ getScreenConstraint_X s - 10 ∧ s.cyclops = true then
        { s with eyeLheightOffset := 8 }
      else { s with eyeLheightOffset := 0 }
    if s.eyeRxNext ≥ s.screenWidth - s.eyeRwidthCurrent - 10 then { s with eyeRheightOffset := 8 }
    else { s with eyeRheightOffset := 0 }
  else
    { s with eyeLheightOffset := 0, eyeRheightOffset := 0 }

/-- Left and right eye height, with the vertical centring of the eye. -/
def heightStep (s : roboEyes) : roboEyes :=
  let s := { s with eyeLheightCurrent := Int.tdiv (s.eyeLheightCurrent + s.eyeLheightNext + s.eyeLheightOffset) 2 }
  let s := { s with eyeLy := s.eyeLy + Int.tdiv (s.eyeLheightDefault - s.eyeLheightCurrent) 2 }
  let s := { s with eyeLy := s.eyeLy - Int.tdiv s.eyeLheightOffset 2 }
  let s := { s with eyeRheightCurrent := Int.tdiv (s.eyeRheightCurrent + s.eyeRheightNext + s.eyeRheightOffset) 2 }
  let s := { s with eyeRy := s.eyeRy + Int.tdiv (s.eyeRheightDefault - s.eyeRheightCurrent) 2 }
  { s with eyeRy := s.eyeRy - Int.tdiv s.eyeRheightOffset 2 }

/-- Open eyes again after closing them. -/
def reopenStep (s : roboEyes) : roboEyes :=
  let s :=
    if s.eyeL_open then
      if s.eyeLheightCurrent ≤ 1 + s.eyeLheightOffset then { s with eyeLheightNext := s.eyeLheightDefault }
      else s
    else s
  if s.eyeR_open then
    if s.eyeRheightCurrent ≤ 1 + s.eyeRheightOffset then { s with eyeRheightNext := s.eyeRheightDefault }
    else s
  else s

/-- Widths, space between the eyes, coordinates and border radii. -/
def tweenStep (s : roboEyes) : roboEyes :=
  let s := { s with eyeLwidthCurrent := Int.tdiv (s.eyeLwidthCurrent + s.eyeLwidthNext) 2 }
  let s := { s with eyeRwidthCurrent := Int.tdiv (s.eyeRwidthCurrent + s.eyeRwidthNext) 2 }
  let s := { s with spaceBetweenCurrent := Int.tdiv (s.spaceBetweenCurrent + s.spaceBetweenNext) 2 }
  let s := { s with eyeLx := Int.tdiv (s.eyeLx + s.eyeLxNext) 2 }
  let s := { s with eyeLy := Int.tdiv (s.eyeLy + s.eyeLyNext) 2 }
  let s := { s with eyeRxNext := s.eyeLxNext + s.eyeLwidthCurrent + s.spaceBetweenCurrent }
  let s := { s with eyeRyNext := s.eyeLyNext }
  let s := { s with eyeRx := Int.tdiv (s.eyeRx + s.eyeRxNext) 2 }
  let s := { s with eyeRy := Int.tdiv (s.eyeRy + s.eyeRyNext) 2 }
  let s := { s with eyeLborderRadiusCurrent := toByte (Int.tdiv (s.eyeLborderRadiusCurrent + s.eyeLborderRadiusNext) 2) }
  { s with eyeRborderRadiusCurrent := toByte (Int.tdiv (s.eyeRborderRadiusCurrent + s.eyeRborderRadiusNext) 2) }

/-- The pre-calculations of `drawEyes`: everything before the macro animations. -/
def interpolate (s : roboEyes) : roboEyes :=
  tweenStep (reopenStep (heightStep (curiosityStep s)))

/-- The auto blinker; `random(blinkIntervalVariation)` is call site 0. -/
def autoblinkStep (s : roboEyes) (now : Int) (rnd : Rng) : roboEyes :=
  if s.autoblinker then
    if now ≥ s.blinktimer then
      let s := blink s
      { s with blinktimer := toULong (now + s.blinkInterval * 1000 + rnd 0 s.blinkIntervalVariation * 1000) }
    else s
  else s

/-- Laughing: eyes shaking up and down for `laughAnimationDuration`. -/
def laughStep (s : roboEyes) (now : Int) : roboEyes :=
  if s.laugh then
    if s.laughToggle then
      let s := setVFlicker s true 5
      let s := { s with laughAnimationTimer := now }
      { s with laughToggle := false }
    else if now ≥ toULong (s.laughAnimationTimer + s.laughAnimationDuration) then
      let s := setVFlicker s false 0
      let s := { s with laughToggle := true }
      { s with laugh := false }
    else s
  else s

/-- Confused: eyes shaking left and right for `confusedAnimationDuration`. -/
def confusedStep (s : roboEyes) (now : Int) : roboEyes :=
  if s.confused then
    if s.confusedToggle then
      let s := setHFlicker s true 20
      let s := { s with confusedAnimationTimer := now }
      { s with confusedToggle := false }
    else if now ≥ toULong (s.confusedAnimationTimer + s.confusedAnimationDuration) then
      let s := setHFlicker s false 0
      let s := { s with confusedToggle := true }
      { s with confused := false }
    else s
  else s

/-- Idle: eyes moving to random positions on screen; call sites 1, 2 and 3 of `random`. -/
def idleStep (s : roboEyes) (now : Int) (rnd : Rng) : roboEyes :=
  if s.idle then
    if now ≥ s.idleAnimationTimer then
      let s := { s with eyeLxNext := rnd 1 (getScreenConstraint_X s) }
      let s := { s with eyeLyNext := rnd 2 (getScreenConstraint_Y s) }
      { s with idleAnimationTimer := toULong (now + s.idleInterval * 1000 + rnd 3 s.idleIntervalVariation * 1000) }
    else s
  else s

/-- Offsets for horizontal flickering. -/
def hFlickerStep (s : roboEyes) : roboEyes :=
  if s.hFlicker then
    let s :=
      if s.hFlickerAlternate then
        { s with eyeLx := s.eyeLx + s.hFlickerAmplitude, eyeRx := s.eyeRx + s.hFlickerAmplitude }
      else
        { s with eyeLx := s.eyeLx - s.hFlickerAmplitude, eyeRx := s.eyeRx - s.hFlickerAmplitude }
    { s with hFlickerAlternate := !s.hFlickerAlternate }
  else s

/-- Offsets for vertical flickering. -/
def vFlickerStep (s : roboEyes) : roboEyes :=
  if s.vFlicker then
    let s :=
      if s.vFlickerAlternate then
        { s with eyeLy := s.eyeLy + s.vFlickerAmplitude, eyeRy := s.eyeRy + s.vFlickerAmplitude }
      else
        { s with eyeLy := s.eyeLy - s.vFlickerAmplitude, eyeRy := s.eyeRy - s.vFlickerAmplitude }
    { s with vFlickerAlternate := !s.vFlickerAlternate }
  else s

/-- Cyclops mode: set the second eye's size and the space between to 0. -/
def cyclopsStep (s : roboEyes) : roboEyes :=
  if s.cyclops then
    { s with eyeRwidthCurrent := 0, eyeRheightCurrent := 0, spaceBetweenCurrent := 0 }
  else s

/-- The macro animations and the cyclops override, applied to the interpolated state. -/
def animate (s : roboEyes) (now : Int) (rnd : Rng) : roboEyes :=
  cyclopsStep (vFlickerStep (hFlickerStep (idleStep (confusedStep (laughStep
    (autoblinkStep (interpolate s) now rnd) now) now) now rnd)))

/-- Prepare mood type transitions. -/
def moodStep (s : roboEyes) : roboEyes :=
  let s :=
    if s.tired then
      { s with eyelidsTiredHeightNext := toByte (Int.tdiv s.eyeLheightCurrent 2), eyelidsAngryHeightNext := 0 }
    else { s with eyelidsTiredHeightNext := 0 }
  let s :=
    if s.angry then
      { s with eyelidsAngryHeightNext := toByte (Int.tdiv s.eyeLheightCurrent 2), eyelidsTiredHeightNext := 0 }
    else { s with eyelidsAngryHeightNext := 0 }
  if s.happy then { s with eyelidsHappyBottomOffsetNext := toByte (Int.tdiv s.eyeLheightCurrent 2) }
  else { s with eyelidsHappyBottomOffsetNext := 0 }

/-- The basic eye rectangles. -/
def eyeBodies (s : roboEyes) : List DrawCall :=
  [DrawCall.fillRoundRect s.eyeLx s.eyeLy s.eyeLwidthCurrent s.eyeLheightCurrent s.eyeLborderRadiusCurrent s.MAINCOLOR] ++
  (if !s.cyclops then
    [DrawCall.fillRoundRect s.eyeRx s.eyeRy s.eyeRwidthCurrent s.eyeRheightCurrent s.eyeRborderRadiusCurrent s.MAINCOLOR]
  else [])

/-- The tired top eyelids. -/
def tiredLids (s : roboEyes) : List DrawCall :=
  if !s.cyclops then
    [DrawCall.fillTriangle s.eyeLx (s.eyeLy - 1) (s.eyeLx + s.eyeLwidthCurrent) (s.eyeLy - 1) s.eyeLx (s.eyeLy + s.eyelidsTiredHeight - 1) s.BGCOLOR,
     DrawCall.fillTriangle s.eyeRx (s.eyeRy - 1) (s.eyeRx + s.eyeRwidthCurrent) (s.eyeRy - 1) (s.eyeRx + s.eyeRwidthCurrent) (s.eyeRy + s.eyelidsTiredHeight - 1) s.BGCOLOR]
  else
    [DrawCall.fillTriangle s.eyeLx (s.eyeLy - 1) (s.eyeLx + Int.tdiv s.eyeLwidthCurrent 2) (s.eyeLy - 1) s.eyeLx (s.eyeLy + s.eyelidsTiredHeight - 1) s.BGCOLOR,
     DrawCall.fillTriangle (s.eyeLx + Int.tdiv s.eyeLwidthCurrent 2) (s.eyeLy - 1) (s.eyeLx + s.eyeLwidthCurrent) (s.eyeLy - 1) (s.eyeLx + s.eyeLwidthCurrent) (s.eyeLy + s.eyelidsTiredHeight - 1) s.BGCOLOR]

/-- The angry top eyelids. -/
def angryLids (s : roboEyes) : List DrawCall :=
  if !s.cyclops then
    [DrawCall.fillTriangle s.eyeLx (s.eyeLy - 1) (s.eyeLx + s.eyeLwidthCurrent) (s.eyeLy - 1) (s.eyeLx + s.eyeLwidthCurrent) (s.eyeLy + s.eyelidsAngryHeight - 1) s.BGCOLOR,
     DrawCall.fillTriangle s.eyeRx (s.eyeRy - 1) (s.eyeRx + s.eyeRwidthCurrent) (s.eyeRy - 1) s.eyeRx (s.eyeRy + s.eyelidsAngryHeight - 1) s.BGCOLOR]
  else
    [DrawCall.fillTriangle s.eyeLx (s.eyeLy - 1) (s.eyeLx + Int.tdiv s.eyeLwidthCurrent 2) (s.eyeLy - 1) (s.eyeLx + Int.tdiv s.eyeLwidthCurrent 2) (s.eyeLy + s.eyelidsAngryHeight - 1) s.BGCOLOR,
     DrawCall.fillTriangle (s.eyeLx + Int.tdiv s.eyeLwidthCurrent 2) (s.eyeLy - 1) (s.eyeLx + s.eyeLwidthCurrent) (s.eyeLy - 1) (s.eyeLx + Int.tdiv s.eyeLwidthCurrent 2) (s.eyeLy + s.eyelidsAngryHeight - 1) s.BGCOLOR]

/-- The happy bottom eyelids. -/
def happyLids (s : roboEyes) : List DrawCall :=
  [DrawCall.fillRoundRect (s.eyeLx - 1) ((s.eyeLy + s.eyeLheightCurrent) - s.eyelidsHappyBottomOffset + 1) (s.eyeLwidthCurrent + 2) s.eyeLheightDefault s.eyeLborderRadiusCurrent s.BGCOLOR] ++
  (if !s.cyclops then
    [DrawCall.fillRoundRect (s.eyeRx - 1) ((s.eyeRy + s.eyeRheightCurrent) - s.eyelidsHappyBottomOffset + 1) (s.eyeRwidthCurrent + 2) s.eyeRheightDefault s.eyeRborderRadiusCurrent s.BGCOLOR]
  else [])

/-- Sweat drop 1, left corner; call sites 4 and 5 of `random`. -/
def sweat1Step (s : roboEyes) (rnd : Rng) : roboEyes :=
  if s.sweat1YPos ≤ (s.sweat1YPosMax : ℚ) then { s with sweat1YPos := s.sweat1YPos + 1 / 2 }
  else { s with sweat1XPosInitial := rnd 4 30, sweat1YPos := 2, sweat1YPosMax := rnd 5 10 + 10 }

/-- Sweat drop 2, center area; call sites 6 and 7 of `random`. -/
def sweat2Step (s : roboEyes) (rnd : Rng) : roboEyes :=
  if s.sweat2YPos ≤ (s.sweat2YPosMax : ℚ) then { s with sweat2YPos := s.sweat2YPos + 1 / 2 }
  else { s with sweat2XPosInitial := rnd 6 (s.screenWidth - 60) + 30, sweat2YPos := 2, sweat2YPosMax := rnd 7 10 + 10 }

/-- Sweat drop 3, right corner; call sites 8 and 9 of `random`. -/
def sweat3Step (s : roboEyes) (rnd : Rng) : roboEyes :=
  if s.sweat3YPos ≤ (s.sweat3YPosMax : ℚ) then { s with sweat3YPos := s.sweat3YPos + 1 / 2 }
  else { s with sweat3XPosInitial := (s.screenWidth - 30) + rnd 8 30, sweat3YPos := 2, sweat3YPosMax := rnd 9 10 + 10 }

/-- The sweat drops: state and draw calls. -/
def sweatStep (s : roboEyes) (rnd : Rng) : roboEyes × List DrawCall :=
  if s.sweat then
    let s := sweat1Step s rnd
    let d := [DrawCall.sweatDrop 1]
    let s := sweat2Step s rnd
    let d := d ++ [DrawCall.sweatDrop 2]
    let s := sweat3Step s rnd
    (s, d ++ [DrawCall.sweatDrop 3])
  else (s, [])

/-- Member function `drawEyes()` at clock value `now`: the new state and the display calls in order. -/
def drawEyes (s : roboEyes) (now : Int) (rnd : Rng) : roboEyes × List DrawCall :=
  let s := animate s now rnd
  let d := [DrawCall.clearDisplay]
  let d := d ++ eyeBodies s
  let s := moodStep s
  let s := { s with eyelidsTiredHeight := toByte (Int.tdiv (s.eyelidsTiredHeight + s.eyelidsTiredHeightNext) 2) }
  let d := d ++ tiredLids s
  let s := { s with eyelidsAngryHeight := toByte (Int.tdiv (s.eyelidsAngryHeight + s.eyelidsAngryHeightNext) 2) }
  let d := d ++ angryLids s
  let s := { s with eyelidsHappyBottomOffset := toByte (Int.tdiv (s.eyelidsHappyBottomOffset + s.eyelidsHappyBottomOffsetNext) 2) }
  let d := d ++ happyLids s
  let r := sweatStep s rnd
  (r.1, d ++ r.2 ++ [DrawCall.display])

/-- A tick that passes the frame gate: `drawEyes()`, then `fpsTimer = millis()`. -/
def tick (s : roboEyes) (now : Int) (rnd : Rng) : roboEyes × List DrawCall :=
  let r := drawEyes s now rnd
  ({ r.1 with fpsTimer := now }, r.2)

/-- Member function `update()` at clock value `now`: the frame gate in `unsigned long` arithmetic. -/
def update (s : roboEyes) (now : Int) (rnd : Rng) : roboEyes × List DrawCall :=
  if toULong (now - s.fpsTimer) ≥ toULong s.frameInterval then tick s now rnd
  else (s, [])

/-- The state after the first `n` ticks of a run in which every tick passes the gate: tick
number `i` happens at clock value `(env i).1` with the random draws `(env i).2`. -/
def run (s : roboEyes) (env : Nat → Int × Rng) : Nat → roboEyes
  | 0 => s
  | n + 1 => (tick (run s env n) (env n).1 (env n).2).1

/-! ### Vocabulary of the statements -/

/-- A value a `byte` member can hold. -/
abbrev isByte (x : Int) : Prop := 0 ≤ x ∧ x < 256

/-- A value an `unsigned long` member can hold. -/
abbrev isULong (x : Int) : Prop := 0 ≤ x ∧ x < 4294967296

/-- Modelled from the spec: the random source is a "uniform integer generator over `[0, n)`";
the library function `random` itself is not part of the repository. For `n = 0` the draw
is `0`, as it is in the Arduino core. -/
def Uniform (rnd : Rng) : Prop :=
  ∀ (i : Nat) (n : Int), (0 < n → 0 ≤ rnd i n ∧ rnd i n < n) ∧ rnd i 0 = 0

/-- The random source whose every draw is `0`. -/
def zeroRng : Rng := fun _ _ => 0

/-- The animator of `main.cpp` right after `roboeyes.begin(128, 64, 100)`. -/
def coldStart : roboEyes := (begin (fresh zeroed) 128 64 100).1

/-- One averaging step took `c` to `c'` on the way to the target `n`: equal values stay, a
target one step away on the side away from zero is not reached (the truncating division
gives `c` back), and in every other case the distance to the target shrinks. -/
def Approaches (c n c' : Int) : Prop :=
  (c = n → c' = c) ∧
  ((n = c + 1 ∧ 0 ≤ c) ∨ (n = c - 1 ∧ c ≤ 0) → c' = c) ∧
  (c ≠ n → ¬ ((n = c + 1 ∧ 0 ≤ c) ∨ (n = c - 1 ∧ c ≤ 0)) → |c' - n| < |c - n|)

/-- The value `c'` lies between `c` and `n`, ends included, so it is no farther from `n` than
`c` was and not beyond `n`. -/
def Between (c n c' : Int) : Prop :=
  min c n ≤ c' ∧ c' ≤ max c n ∧ |c' - n| ≤ |c - n|

/-- The run with a tick every 10 ms after clock value `t0`, at `t0 + 10`, `t0 + 20`, ..., all
random draws 0. -/
def pacedFrom (t0 : Int) : Nat → Int × Rng := fun i => (t0 + 10 * ((i : Int) + 1), zeroRng)

/-- A call that moves the gaze: `setPosition`, either `setIdleMode` overload, or `update()`
at some clock value with some random draws. -/
inductive GazeOp where
  | setPosition (position : Fin 256)
  | setIdleMode (active : Bool) (interval variation : Int)
  | setIdleMode1 (active : Bool)
  | update (now : Int) (rnd : Rng)

/-- The state after one gaze call. -/
def GazeOp.apply (s : roboEyes) : GazeOp → roboEyes
  | GazeOp.setPosition position => roboEyes.setPosition s position
  | GazeOp.setIdleMode active interval variation => roboEyes.setIdleMode s active interval variation
  | GazeOp.setIdleMode1 active => roboEyes.setIdleMode1 s active
  | GazeOp.update now rnd => (roboEyes.update s now rnd).1

/-- The random draws of the call, if it is an `update()`, come from a uniform source. -/
def GazeOp.Fair : GazeOp → Prop
  | GazeOp.update _ rnd => Uniform rnd
  | _ => True

/-- The state after a sequence of gaze calls, first call first. -/
def gaze (s : roboEyes) (ops : List GazeOp) : roboEyes :=
  ops.foldl GazeOp.apply s

/-- The facts a gaze call keeps on an animator started on a `W` by `H` screen with the
default eye sizes: sizes and spacing at rest, cyclops off, and the left eye's target inside
the bounds. -/
def GazeInv (W H : Int) (s : roboEyes) : Prop :=
  s.screenWidth = W ∧ s.screenHeight = H ∧ s.cyclops = false ∧ s.eyeLheightDefault = 36 ∧
  (s.eyeLwidthCurrent = 36 ∧ s.eyeLwidthNext = 36) ∧
  (s.eyeRwidthCurrent = 36 ∧ s.eyeRwidthNext = 36) ∧
  (s.spaceBetweenCurrent = 10 ∧ s.spaceBetweenNext = 10) ∧
  (0 ≤ s.eyeLxNext ∧ s.eyeLxNext ≤ W - 82) ∧ (0 ≤ s.eyeLyNext ∧ s.eyeLyNext ≤ H - 36)

/-- A short gaze session: idle mode on, a frame, a look to the north-east, another frame. -/
def demoGaze : List GazeOp :=
  [GazeOp.setIdleMode true 1 0, GazeOp.update 20 zeroRng, GazeOp.setPosition 2,
   GazeOp.update 40 zeroRng]

/-- The left eye's target fits the screen: its x is not negative and leaves room for both
current eye widths and the current spacing, its y is not negative and leaves room for the
default eye height. -/
def Fits (s : roboEyes) : Prop :=
  (0 ≤ s.eyeLxNext ∧
    s.eyeLxNext + s.eyeLwidthCurrent + s.spaceBetweenCurrent + s.eyeRwidthCurrent ≤ s.screenWidth) ∧
  (0 ≤ s.eyeLyNext ∧ s.eyeLyNext + s.eyeLheightDefault ≤ s.screenHeight)

/-- The animator of `main.cpp` after `setMood(TIRED)` and eight ticks, 10 ms apart: the
tired eyelid is down at height 16. -/
def tiredEyes : roboEyes := run (setMood coldStart 1) (pacedFrom 0) 8

/-- The animator of `main.cpp` looking east, with the right eye's target overwritten by
stray values. -/
def strayRightTarget : roboEyes :=
  { setPosition coldStart 3 with eyeRxNext := 999, eyeRyNext := -7 }

/-- The animator of `main.cpp` after twelve ticks, 10 ms apart: both eyes are open and at
rest at height 35, the left eye at y = 14. -/
def restingEyes : roboEyes := run coldStart (pacedFrom 0) 12

/-- The confused one-shot changes nothing in a tick at clock value `now`: no confused
animation is requested, or one is running (toggle disarmed) and the comparison that ends it
fails. -/
abbrev ConfusedQuiet (s : roboEyes) (now : Int) : Prop :=
  s.confused = true →
    s.confusedToggle = false ∧
    now < toULong (s.confusedAnimationTimer + s.confusedAnimationDuration)

/-- The laugh one-shot changes nothing in a tick at clock value `now`: no laugh animation is
requested, or one is running (toggle disarmed) and the comparison that ends it fails. -/
abbrev LaughQuiet (s : roboEyes) (now : Int) : Prop :=
  s.laugh = true →
    s.laughToggle = false ∧ now < toULong (s.laughAnimationTimer + s.laughAnimationDuration)

/-- The animator of `main.cpp` at rest with horizontal flicker switched on by
`setHFlicker(true, 2)`. -/
def shiveringEyes : roboEyes := setHFlicker restingEyes true 2

/-- The animator of `main.cpp` with `setSweat(true)`; the droplets' max y, which have no
initialiser, are 0 from the zeroed storage. -/
def sweatyEyes : roboEyes := setSweat coldStart true

/-- The animator of `main.cpp` after `setHeight(0, 0)` and one tick: both current heights
are 0. -/
def flatEyes : roboEyes := (tick (setHeight coldStart 0 0) 10 zeroRng).1

/-- A call of a public member function that can change the state; `update` and `drawEyes`
carry the clock value and the random draws of the call. The two getters change nothing and
are left out. -/
inductive Op where
  | begin (width height : Int) (frameRate : Fin 256)
  | update (now : Int) (rnd : Rng)
  | setFramerate (fps : Fin 256)
  | setDisplayColors (background main : Fin 256)
  | setWidth (leftEye rightEye : Fin 256)
  | setHeight (leftEye rightEye : Fin 256)
  | setBorderradius (leftEye rightEye : Fin 256)
  | setSpacebetween (space : Int)
  | setMood (mood : Fin 256)
  | setPosition (position : Fin 256)
  | setAutoblinker (active : Bool) (interval variation : Int)
  | setAutoblinker1 (active : Bool)
  | setIdleMode (active : Bool) (interval variation : Int)
  | setIdleMode1 (active : Bool)
  | setCuriosity (curiousBit : Bool)
  | setCyclops (cyclopsBit : Bool)
  | setHFlicker (flickerBit : Bool) (Amplitude : Fin 256)
  | setHFlicker1 (flickerBit : Bool)
  | setVFlicker (flickerBit : Bool) (Amplitude : Fin 256)
  | setVFlicker1 (flickerBit : Bool)
  | setSweat (sweatBit : Bool)
  | close
  | open
  | blink
  | close2 (left right : Bool)
  | open2 (left right : Bool)
  | blink2 (left right : Bool)
  | anim_confused
  | anim_laugh
  | drawEyes (now : Int) (rnd : Rng)

/-- The state after one call. -/
def Op.apply (s : roboEyes) : Op → roboEyes
  | Op.begin width height frameRate => (roboEyes.begin s width height frameRate).1
  | Op.update now rnd => (roboEyes.update s now rnd).1
  | Op.setFramerate fps => roboEyes.setFramerate s fps
  | Op.setDisplayColors background main => roboEyes.setDisplayColors s background main
  | Op.setWidth leftEye rightEye => roboEyes.setWidth s leftEye rightEye
  | Op.setHeight leftEye rightEye => roboEyes.setHeight s leftEye rightEye
  | Op.setBorderradius leftEye rightEye => roboEyes.setBorderradius s leftEye rightEye
  | Op.setSpacebetween space => roboEyes.setSpacebetween s space
  | Op.setMood mood => roboEyes.setMood s mood
  | Op.setPosition position => roboEyes.setPosition s position
  | Op.setAutoblinker active interval variation => roboEyes.setAutoblinker s active interval variation
  | Op.setAutoblinker1 active => roboEyes.setAutoblinker1 s active
  | Op.setIdleMode active interval variation => roboEyes.setIdleMode s active interval variation
  | Op.setIdleMode1 active => roboEyes.setIdleMode1 s active
  | Op.setCuriosity curiousBit => roboEyes.setCuriosity s curiousBit
  | Op.setCyclops cyclopsBit => roboEyes.setCyclops s cyclopsBit
  | Op.setHFlicker flickerBit Amplitude => roboEyes.setHFlicker s flickerBit Amplitude
  | Op.setHFlicker1 flickerBit => roboEyes.setHFlicker1 s flickerBit
  | Op.setVFlicker flickerBit Amplitude => roboEyes.setVFlicker s flickerBit Amplitude
  | Op.setVFlicker1 flickerBit => roboEyes.setVFlicker1 s flickerBit
  | Op.setSweat sweatBit => roboEyes.setSweat s sweatBit
  | Op.close => roboEyes.close s
  | Op.open => roboEyes.open s
  | Op.blink => roboEyes.blink s
  | Op.close2 left right => roboEyes.close2 s left right
  | Op.open2 left right => roboEyes.open2 s left right
  | Op.blink2 left right => roboEyes.blink2 s left right
  | Op.anim_confused => roboEyes.anim_confused s
  | Op.anim_laugh => roboEyes.anim_laugh s
  | Op.drawEyes now rnd => (roboEyes.drawEyes s now rnd).1

/-- The call is defined in the source: a frame rate passed to `begin` or `setFramerate` is
not 0 (the source divides 1000 by it). -/
def Op.Defined : Op → Prop
  | Op.begin _ _ frameRate => 0 < frameRate.val
  | Op.setFramerate fps => 0 < fps.val
  | _ => True

/-- The state after a sequence of calls, first call first. -/
def perform (s : roboEyes) (ops : List Op) : roboEyes :=
  ops.foldl Op.apply s

/-- The one-shot flags are consistent: a toggle is disarmed only while its animation is
requested. -/
def OneShotInv (s : roboEyes) : Prop :=
  (s.laugh = false → s.laughToggle = true) ∧ (s.confused = false → s.confusedToggle = true)

/-- A session on the animator of `main.cpp`: a laugh is requested, started by the frame at
clock value 20 and ended by the frame at 520; then the caller looks north-east. -/
def demoSession : List Op :=
  [Op.begin 128 64 100, Op.anim_laugh, Op.update 20 zeroRng, Op.update 520 zeroRng,
   Op.setPosition 2]

/-- Modelled from the spec: the display driver is an external collaborator that offers the
primitives fill-rounded-rect and fill-triangle. A filled rectangle at `y` with height `h`
covers the rows `y` to `y + h - 1`, a filled triangle the rows from its highest to its
lowest vertex. The other calls are not shapes placed on an eye and are given no rows. -/
def coversRow (c : DrawCall) (row : Int) : Prop :=
  match c with
  | DrawCall.fillRoundRect _ y _ h _ _ => y ≤ row ∧ row < y + h
  | DrawCall.fillTriangle _ y0 _ y1 _ y2 _ => min y0 (min y1 y2) ≤ row ∧ row ≤ max y0 (max y1 y2)
  | _ => False

/-- The random source whose every draw is the largest value of its range, `howbig - 1`, and
0 when the range is empty. -/
def lastRng : Rng := fun _ n => if 0 < n then n - 1 else 0

/-- The animator of `main.cpp` three frames after `setWidth(62, 62)`, both widths grown to
58 on their way to 62, with idle mode switched on by `setIdleMode(true, 1, 0)`. -/
def growingEyes : roboEyes := setIdleMode (run (setWidth coldStart 62 62) (pacedFrom 0) 3) true 1 0

/-- The animator of `main.cpp` in cyclops mode one frame after `setSpacebetween(-50)`, with
idle mode switched on by `setIdleMode(true, 1, 0)`. -/
def cyclopsNarrow : roboEyes :=
  setIdleMode (tick (setSpacebetween (setCyclops coldStart true) (-50)) 10 zeroRng).1 true 1 0

end roboEyes

/-! ## Arithmetic of the averaging rule -/

namespace roboEyes

theorem tdiv_two (a : Int) : Int.tdiv a 2 = if 0 ≤ a then a / 2 else -((-a) / 2) := by
  split
  · rename_i h
    exact Int.tdiv_eq_ediv h (by norm_num)
  · rename_i h
    have h1 : a = -(-a) := by omega
    rw [h1, Int.neg_tdiv, Int.tdiv_eq_ediv (by omega) (by norm_num)]
    simp

theorem avg_self (c : Int) : Int.tdiv (c + c) 2 = c := by
  rw [tdiv_two]; split <;> omega

theorem avg_ge_min (c n : Int) : min c n ≤ Int.tdiv (c + n) 2 := by
  rw [tdiv_two]; split <;> omega

theorem avg_le_max (c n : Int) : Int.tdiv (c + n) 2 ≤ max c n := by
  rw [tdiv_two]; split <;> omega

theorem avg_dist_le (c n : Int) : |Int.tdiv (c + n) 2 - n| ≤ |c - n| := by
  rw [tdiv_two]; split <;> rw [abs_le] <;> constructor <;> cases abs_cases (c - n) <;> omega

theorem toByte_of_range (x : Int) (h0 : 0 ≤ x) (h1 : x < 256) : toByte x = x := by
  unfold toByte; omega

theorem toByte_avg (c n : Int) (hc0 : 0 ≤ c) (hc1 : c < 256) (hn0 : 0 ≤ n) (hn1 : n < 256) :
    toByte (Int.tdiv (c + n) 2) = Int.tdiv (c + n) 2 := by
  apply toByte_of_range <;> rw [tdiv_two] <;> split <;> omega

/-! ## Normal forms of the statement groups of `drawEyes` -/

theorem curiosityStep_eq (s : roboEyes) : curiosityStep s =
    { s with
      eyeLheightOffset :=
        if s.curious then
          (if s.eyeLxNext ≤ 10 then 8
           else if s.eyeLxNext ≥ getScreenConstraint_X s - 10 ∧ s.cyclops = true then 8 else 0)
        else 0
      eyeRheightOffset :=
        if s.curious then (if s.eyeRxNext ≥ s.screenWidth - s.eyeRwidthCurrent - 10 then 8 else 0)
        else 0 } := by
  cases s
  simp only [curiosityStep, getScreenConstraint_X]
  split <;> [(split <;> [split; (split <;> split)]); skip] <;> simp_all

theorem reopenStep_eq (s : roboEyes) : reopenStep s =
    { s with
      eyeLheightNext :=
        if s.eyeL_open then
          (if s.eyeLheightCurrent ≤ 1 + s.eyeLheightOffset then s.eyeLheightDefault else s.eyeLheightNext)
        else s.eyeLheightNext
      eyeRheightNext :=
        if s.eyeR_open then
          (if s.eyeRheightCurrent ≤ 1 + s.eyeRheightOffset then s.eyeRheightDefault else s.eyeRheightNext)
        else s.eyeRheightNext } := by
  cases s
  simp only [reopenStep]
  split <;> [split; skip] <;> (split <;> [split; skip]) <;> simp_all

theorem autoblinkStep_eq (s : roboEyes) (now : Int) (rnd : Rng) : autoblinkStep s now rnd =
    { s with
      eyeLheightNext := if s.autoblinker then (if now ≥ s.blinktimer then 1 else s.eyeLheightNext) else s.eyeLheightNext
      eyeRheightNext := if s.autoblinker then (if now ≥ s.blinktimer then 1 else s.eyeRheightNext) else s.eyeRheightNext
      eyeL_open := if s.autoblinker then (if now ≥ s.blinktimer then true else s.eyeL_open) else s.eyeL_open
      eyeR_open := if s.autoblinker then (if now ≥ s.blinktimer then true else s.eyeR_open) else s.eyeR_open
      blinktimer :=
        if s.autoblinker then
          (if now ≥ s.blinktimer then
            toULong (now + s.blinkInterval * 1000 + rnd 0 s.blinkIntervalVariation * 1000)
           else s.blinktimer)
        else s.blinktimer } := by
  cases s
  simp only [autoblinkStep, blink, roboEyes.open, close]
  split <;> [split; skip] <;> simp_all

theorem laughStep_eq (s : roboEyes) (now : Int) : laughStep s now =
    { s with
      vFlicker :=
        if s.laugh then
          (if s.laughToggle then true
           else if now ≥ toULong (s.laughAnimationTimer + s.laughAnimationDuration) then false
           else s.vFlicker)
        else s.vFlicker
      vFlickerAmplitude :=
        if s.laugh then
          (if s.laughToggle then 5
           else if now ≥ toULong (s.laughAnimationTimer + s.laughAnimationDuration) then 0
           else s.vFlickerAmplitude)
        else s.vFlickerAmplitude
      laughAnimationTimer :=
        if s.laugh then (if s.laughToggle then now else s.laughAnimationTimer)
        else s.laughAnimationTimer
      laughToggle :=
        if s.laugh then
          (if s.laughToggle then false
           else if now ≥ toULong (s.laughAnimationTimer + s.laughAnimationDuration) then true
           else s.laughToggle)
        else s.laughToggle
      laugh :=
        if s.laugh then
          (if s.laughToggle then s.laugh
           else if now ≥ toULong (s.laughAnimationTimer + s.laughAnimationDuration) then false
           else s.laugh)
        else s.laugh } := by
  cases s
  simp only [laughStep, setVFlicker]
  split <;> [(split <;> [skip; split]); skip] <;> simp_all
  rfl

theorem confusedStep_eq (s : roboEyes) (now : Int) : confusedStep s now =
    { s with
      hFlicker :=
        if s.confused then
          (if s.confusedToggle then true
           else if now ≥ toULong (s.confusedAnimationTimer + s.confusedAnimationDuration) then false
           else s.hFlicker)
        else s.hFlicker
      hFlickerAmplitude :=
        if s.confused then
          (if s.confusedToggle then 20
           else if now ≥ toULong (s.confusedAnimationTimer + s.confusedAnimationDuration) then 0
           else s.hFlickerAmplitude)
        else s.hFlickerAmplitude
      confusedAnimationTimer :=
        if s.confused then (if s.confusedToggle then now else s.confusedAnimationTimer)
        else s.confusedAnimationTimer
      confusedToggle :=
        if s.confused then
          (if s.confusedToggle then false
           else if now ≥ toULong (s.confusedAnimationTimer + s.confusedAnimationDuration) then true
           else s.confusedToggle)
        else s.confusedToggle
      confused :=
        if s.confused then
          (if s.confusedToggle then s.confused
           else if now ≥ toULong (s.confusedAnimationTimer + s.confusedAnimationDuration) then false
           else s.confused)
        else s.confused } := by
  cases s
  simp only [confusedStep, setHFlicker]
  split <;> [(split <;> [skip; split]); skip] <;> simp_all
  rfl

theorem idleStep_eq (s : roboEyes) (now : Int) (rnd : Rng) : idleStep s now rnd =
    { s with
      eyeLxNext :=
        if s.idle then (if now ≥ s.idleAnimationTimer then rnd 1 (getScreenConstraint_X s) else s.eyeLxNext)
        else s.eyeLxNext
      eyeLyNext :=
        if s.idle then (if now ≥ s.idleAnimationTimer then rnd 2 (getScreenConstraint_Y s) else s.eyeLyNext)
        else s.eyeLyNext
      idleAnimationTimer :=
        if s.idle then
          (if now ≥ s.idleAnimationTimer then
            toULong (now + s.idleInterval * 1000 + rnd 3 s.idleIntervalVariation * 1000)
           else s.idleAnimationTimer)
        else s.idleAnimationTimer } := by
  cases s
  simp only [idleStep, getScreenConstraint_X, getScreenConstraint_Y]
  split <;> [split; skip] <;> simp_all

theorem hFlickerStep_eq (s : roboEyes) : hFlickerStep s =
    { s with
      eyeLx :=
        if s.hFlicker then
          (if s.hFlickerAlternate then s.eyeLx + s.hFlickerAmplitude else s.eyeLx - s.hFlickerAmplitude)
        else s.eyeLx
      eyeRx :=
        if s.hFlicker then
          (if s.hFlickerAlternate then s.eyeRx + s.hFlickerAmplitude else s.eyeRx - s.hFlickerAmplitude)
        else s.eyeRx
      hFlickerAlternate := if s.hFlicker then !s.hFlickerAlternate else s.hFlickerAlternate } := by
  cases s
  simp only [hFlickerStep]
  split <;> [split; skip] <;> simp_all

theorem vFlickerStep_eq (s : roboEyes) : vFlickerStep s =
    { s with
      eyeLy :=
        if s.vFlicker then
          (if s.vFlickerAlternate then s.eyeLy + s.vFlickerAmplitude else s.eyeLy - s.vFlickerAmplitude)
        else s.eyeLy
      eyeRy :=
        if s.vFlicker then
          (if s.vFlickerAlternate then s.eyeRy + s.vFlickerAmplitude else s.eyeRy - s.vFlickerAmplitude)
        else s.eyeRy
      vFlickerAlternate := if s.vFlicker then !s.vFlickerAlternate else s.vFlickerAlternate } := by
  cases s
  simp only [vFlickerStep]
  split <;> [split; skip] <;> simp_all

theorem cyclopsStep_eq (s : roboEyes) : cyclopsStep s =
    { s with
      eyeRwidthCurrent := if s.cyclops then 0 else s.eyeRwidthCurrent
      eyeRheightCurrent := if s.cyclops then 0 else s.eyeRheightCurrent
      spaceBetweenCurrent := if s.cyclops then 0 else s.spaceBetweenCurrent } := by
  cases s
  simp only [cyclopsStep]
  split <;> simp_all

theorem moodStep_eq (s : roboEyes) : moodStep s =
    { s with
      eyelidsTiredHeightNext :=
        if s.angry then 0 else if s.tired then toByte (Int.tdiv s.eyeLheightCurrent 2) else 0
      eyelidsAngryHeightNext := if s.angry then toByte (Int.tdiv s.eyeLheightCurrent 2) else 0
      eyelidsHappyBottomOffsetNext := if s.happy then toByte (Int.tdiv s.eyeLheightCurrent 2) else 0 } := by
  cases s
  simp only [moodStep]
  split <;> split <;> split <;> simp_all

theorem sweatStep_fst_eq (s : roboEyes) (rnd : Rng) : (sweatStep s rnd).1 =
    { s with
      sweat1XPosInitial :=
        if s.sweat then (if s.sweat1YPos ≤ (s.sweat1YPosMax : ℚ) then s.sweat1XPosInitial else rnd 4 30)
        else s.sweat1XPosInitial
      sweat1YPos :=
        if s.sweat then (if s.sweat1YPos ≤ (s.sweat1YPosMax : ℚ) then s.sweat1YPos + 1 / 2 else 2)
        else s.sweat1YPos
      sweat1YPosMax :=
        if s.sweat then (if s.sweat1YPos ≤ (s.sweat1YPosMax : ℚ) then s.sweat1YPosMax else rnd 5 10 + 10)
        else s.sweat1YPosMax
      sweat2XPosInitial :=
        if s.sweat then
          (if s.sweat2YPos ≤ (s.sweat2YPosMax : ℚ) then s.sweat2XPosInitial
           else rnd 6 (s.screenWidth - 60) + 30)
        else s.sweat2XPosInitial
      sweat2YPos :=
        if s.sweat then (if s.sweat2YPos ≤ (s.sweat2YPosMax : ℚ) then s.sweat2YPos + 1 / 2 else 2)
        else s.sweat2YPos
      sweat2YPosMax :=
        if s.sweat then (if s.sweat2YPos ≤ (s.sweat2YPosMax : ℚ) then s.sweat2YPosMax else rnd 7 10 + 10)
        else s.sweat2YPosMax
      sweat3XPosInitial :=
        if s.sweat then
          (if s.sweat3YPos ≤ (s.sweat3YPosMax : ℚ) then s.sweat3XPosInitial
           else (s.screenWidth - 30) + rnd 8 30)
        else s.sweat3XPosInitial
      sweat3YPos :=
        if s.sweat then (if s.sweat3YPos ≤ (s.sweat3YPosMax : ℚ) then s.sweat3YPos + 1 / 2 else 2)
        else s.sweat3YPos
      sweat3YPosMax :=
        if s.sweat then (if s.sweat3YPos ≤ (s.sweat3YPosMax : ℚ) then s.sweat3YPosMax else rnd 9 10 + 10)
        else s.sweat3YPosMax } := by
  cases s
  simp only [sweatStep, sweat1Step, sweat2Step, sweat3Step]
  split <;> [(split <;> split <;> split); skip] <;> simp_all

theorem approaches_avg (c n : Int) : Approaches c n (Int.tdiv (c + n) 2) := by
  refine ⟨?_, ?_, ?_⟩
  · intro h; subst h; exact avg_self c
  · intro h; rw [tdiv_two]; split <;> omega
  · intro h1 h2
    rw [tdiv_two]
    split <;> rw [abs_lt] <;> constructor <;> cases abs_cases (c - n) <;> omega

/-! ## The tick, field by field -/

theorem tick_eyeLwidthCurrent (s : roboEyes) (now : Int) (rnd : Rng) :
    (tick s now rnd).1.eyeLwidthCurrent = Int.tdiv (s.eyeLwidthCurrent + s.eyeLwidthNext) 2 := by
  simp only [tick, drawEyes, sweatStep_fst_eq, moodStep_eq, animate, cyclopsStep_eq, vFlickerStep_eq, hFlickerStep_eq, idleStep_eq,
    confusedStep_eq, laughStep_eq, autoblinkStep_eq, interpolate, tweenStep, reopenStep_eq,
    heightStep, curiosityStep_eq]

theorem tick_spaceBetweenCurrent (s : roboEyes) (now : Int) (rnd : Rng) :
    (tick s now rnd).1.spaceBetweenCurrent =
      if s.cyclops then 0 else Int.tdiv (s.spaceBetweenCurrent + s.spaceBetweenNext) 2 := by
  simp only [tick, drawEyes, sweatStep_fst_eq, moodStep_eq, animate, cyclopsStep_eq, vFlickerStep_eq, hFlickerStep_eq, idleStep_eq,
    confusedStep_eq, laughStep_eq, autoblinkStep_eq, interpolate, tweenStep, reopenStep_eq,
    heightStep, curiosityStep_eq]

theorem tick_eyeLborderRadiusCurrent (s : roboEyes) (now : Int) (rnd : Rng) :
    (tick s now rnd).1.eyeLborderRadiusCurrent =
      toByte (Int.tdiv (s.eyeLborderRadiusCurrent + s.eyeLborderRadiusNext) 2) := by
  simp only [tick, drawEyes, sweatStep_fst_eq, moodStep_eq, animate, cyclopsStep_eq, vFlickerStep_eq, hFlickerStep_eq, idleStep_eq,
    confusedStep_eq, laughStep_eq, autoblinkStep_eq, interpolate, tweenStep, reopenStep_eq,
    heightStep, curiosityStep_eq]

theorem tick_sizeTargets (s : roboEyes) (now : Int) (rnd : Rng) :
    (tick s now rnd).1.eyeLwidthNext = s.eyeLwidthNext ∧
    (tick s now rnd).1.spaceBetweenNext = s.spaceBetweenNext ∧
    (tick s now rnd).1.eyeLborderRadiusNext = s.eyeLborderRadiusNext := by
  simp only [tick, drawEyes, sweatStep_fst_eq, moodStep_eq, animate, cyclopsStep_eq, vFlickerStep_eq, hFlickerStep_eq, idleStep_eq,
    confusedStep_eq, laughStep_eq, autoblinkStep_eq, interpolate, tweenStep, reopenStep_eq,
    heightStep, curiosityStep_eq]
  exact ⟨trivial, trivial, trivial⟩

/-! ## C1: averaging convergence -/

/-- C1, as stated, fails: after `begin(128, 64, 100)` and `setWidth(37, 37)` the left eye's
width is 36 with target 37, cyclops is off, and a tick leaves the width at 36, so the
distance to the target is 1 before and after the tick. -/
theorem C1_strict_decrease_fails :
    (setWidth coldStart 37 37).cyclops = false ∧
    (setWidth coldStart 37 37).eyeLwidthCurrent ≠ (setWidth coldStart 37 37).eyeLwidthNext ∧
    ¬ (|(tick (setWidth coldStart 37 37) 10 zeroRng).1.eyeLwidthCurrent
          - (tick (setWidth coldStart 37 37) 10 zeroRng).1.eyeLwidthNext|
        < |(setWidth coldStart 37 37).eyeLwidthCurrent - (setWidth coldStart 37 37).eyeLwidthNext|) := by
  decide

/-- C1, amended: with cyclops off, a tick leaves the targets of the left eye's width, of the
space between the eyes and of the left border radius alone, keeps each of the three current
values where it is when it equals its target, and otherwise brings it strictly closer to
the target, except when the target is one step away on the side away from zero (35 toward
36, 0 toward -1), where the truncating division leaves the current value unchanged. -/
theorem C1_averaging_convergence (s : roboEyes) (now : Int) (rnd : Rng)
    (hcyc : s.cyclops = false)
    (hcur : isByte s.eyeLborderRadiusCurrent) (hnext : isByte s.eyeLborderRadiusNext) :
    ((tick s now rnd).1.eyeLwidthNext = s.eyeLwidthNext ∧
     (tick s now rnd).1.spaceBetweenNext = s.spaceBetweenNext ∧
     (tick s now rnd).1.eyeLborderRadiusNext = s.eyeLborderRadiusNext) ∧
    Approaches s.eyeLwidthCurrent s.eyeLwidthNext (tick s now rnd).1.eyeLwidthCurrent ∧
    Approaches s.spaceBetweenCurrent s.spaceBetweenNext (tick s now rnd).1.spaceBetweenCurrent ∧
    Approaches s.eyeLborderRadiusCurrent s.eyeLborderRadiusNext
      (tick s now rnd).1.eyeLborderRadiusCurrent := by
  refine ⟨tick_sizeTargets s now rnd, ?_, ?_, ?_⟩
  · rw [tick_eyeLwidthCurrent]; exact approaches_avg _ _
  · rw [tick_spaceBetweenCurrent, hcyc]; exact approaches_avg _ _
  · rw [tick_eyeLborderRadiusCurrent, toByte_avg _ _ hcur.1 hcur.2 hnext.1 hnext.2]
    exact approaches_avg _ _

/-- C1, amended, at the cold-start state after `setSpacebetween(-3)`: the hypotheses hold
there and the three conclusions follow. -/
theorem C1_averaging_convergence_witness :
    (setSpacebetween coldStart (-3)).cyclops = false ∧
    isByte (setSpacebetween coldStart (-3)).eyeLborderRadiusCurrent ∧
    isByte (setSpacebetween coldStart (-3)).eyeLborderRadiusNext ∧
    Approaches 10 (-3) (tick (setSpacebetween coldStart (-3)) 10 zeroRng).1.spaceBetweenCurrent :=
  ⟨by decide, by decide, by decide,
   (C1_averaging_convergence (setSpacebetween coldStart (-3)) 10 zeroRng
      (by decide) (by decide) (by decide)).2.2.1⟩

/-! ## C2: no overshoot -/

theorem between_avg (c n : Int) : Between c n (Int.tdiv (c + n) 2) :=
  ⟨avg_ge_min c n, avg_le_max c n, avg_dist_le c n⟩

theorem interpolate_eyeLx (s : roboEyes) :
    (interpolate s).eyeLx = Int.tdiv (s.eyeLx + s.eyeLxNext) 2 := by
  simp only [interpolate, tweenStep, reopenStep_eq, heightStep, curiosityStep_eq]

theorem tick_eyeLx_steady (s : roboEyes) (now : Int) (rnd : Rng)
    (hf : s.hFlicker = false) (hc : s.confused = false) :
    (tick s now rnd).1.eyeLx = Int.tdiv (s.eyeLx + s.eyeLxNext) 2 := by
  simp only [tick, drawEyes, sweatStep_fst_eq, moodStep_eq, animate, cyclopsStep_eq, vFlickerStep_eq, hFlickerStep_eq, idleStep_eq,
    confusedStep_eq, laughStep_eq, autoblinkStep_eq, interpolate, tweenStep, reopenStep_eq,
    heightStep, curiosityStep_eq]
  simp [hf, hc]

/-- C2: the averaging statements of `drawEyes` put the left eye's width, the space between
the eyes, the left border radius and the left eye's x between their old current value and
their target, ends included, so the distance to the target does not grow and the target is
not passed; and that is the value a tick leaves in the width and the border radius always,
in the spacing when cyclops is off, and in the x when no horizontal flicker displaces it. -/
theorem C2_non_overshoot (s : roboEyes) (now : Int) (rnd : Rng)
    (hcur : isByte s.eyeLborderRadiusCurrent) (hnext : isByte s.eyeLborderRadiusNext) :
    (Between s.eyeLwidthCurrent s.eyeLwidthNext (tweenStep s).eyeLwidthCurrent ∧
     Between s.spaceBetweenCurrent s.spaceBetweenNext (tweenStep s).spaceBetweenCurrent ∧
     Between s.eyeLborderRadiusCurrent s.eyeLborderRadiusNext (tweenStep s).eyeLborderRadiusCurrent ∧
     Between s.eyeLx s.eyeLxNext (tweenStep s).eyeLx) ∧
    (Between s.eyeLwidthCurrent s.eyeLwidthNext (tick s now rnd).1.eyeLwidthCurrent ∧
     Between s.eyeLborderRadiusCurrent s.eyeLborderRadiusNext (tick s now rnd).1.eyeLborderRadiusCurrent ∧
     (s.cyclops = false →
       Between s.spaceBetweenCurrent s.spaceBetweenNext (tick s now rnd).1.spaceBetweenCurrent) ∧
     (s.hFlicker = false → s.confused = false →
       Between s.eyeLx s.eyeLxNext (tick s now rnd).1.eyeLx)) := by
  have hb := toByte_avg _ _ hcur.1 hcur.2 hnext.1 hnext.2
  refine ⟨⟨?_, ?_, ?_, ?_⟩, ?_, ?_, ?_, ?_⟩
  · exact between_avg _ _
  · exact between_avg _ _
  · show Between _ _ (toByte _)
    rw [hb]; exact between_avg _ _
  · exact between_avg _ _
  · rw [tick_eyeLwidthCurrent]; exact between_avg _ _
  · rw [tick_eyeLborderRadiusCurrent, hb]; exact between_avg _ _
  · intro hcyc
    rw [tick_spaceBetweenCurrent, hcyc]; exact between_avg _ _
  · intro hf hc
    rw [tick_eyeLx_steady s now rnd hf hc]; exact between_avg _ _

/-- C2 at the cold-start state looking east: the left eye's x moves from 23 toward 46 and
stays between the two. -/
theorem C2_non_overshoot_witness :
    isByte (setPosition coldStart 3).eyeLborderRadiusCurrent ∧
    isByte (setPosition coldStart 3).eyeLborderRadiusNext ∧
    Between 23 46 (tick (setPosition coldStart 3) 10 zeroRng).1.eyeLx :=
  ⟨by decide, by decide,
   (C2_non_overshoot (setPosition coldStart 3) 10 zeroRng (by decide) (by decide)).2.2.2.2
     (by decide) (by decide)⟩

/-! ## C3: a blink closes the eye and reopens it -/

/-! The height recurrence of one eye with curiosity and the auto blinker off: `c` is the
current height and `n` the target, tick after tick. -/

theorem closing_phase (h : Int) (c n : Nat → Int)
    (hc : ∀ i, c (i + 1) = Int.tdiv (c i + n i) 2)
    (hn : ∀ i, n (i + 1) = if c (i + 1) ≤ 1 then h else n i) :
    ∀ (j i : Nat), n i = 1 → 1 ≤ c i → c i - 1 < 2 ^ (j + 1) →
      ∃ k, i < k ∧ k ≤ i + j + 1 ∧ c k = 1 ∧ n k = h ∧ ∀ t, i ≤ t → t < k → n t = 1 := by
  intro j
  induction j with
  | zero =>
    intro i hni hci hlt
    have h1 : c (i + 1) = 1 := by
      rw [hc, hni, tdiv_two]; split <;> omega
    refine ⟨i + 1, by omega, by omega, h1, ?_, ?_⟩
    · rw [hn, h1]; simp
    · intro t ht1 ht2
      have : t = i := by omega
      rw [this]; exact hni
  | succ j ih =>
    intro i hni hci hlt
    have hpow : (2 : Int) ^ (j + 1 + 1) = 2 * 2 ^ (j + 1) := by ring
    rw [hpow] at hlt
    have hstep : c (i + 1) = Int.tdiv (c i + 1) 2 := by rw [hc, hni]
    by_cases hle : c (i + 1) ≤ 1
    · have h1 : c (i + 1) = 1 := by
        rw [hstep, tdiv_two] at hle ⊢; split at hle <;> rename_i h0 <;> simp only [h0, if_true, if_false] <;> omega
      refine ⟨i + 1, by omega, by omega, h1, ?_, ?_⟩
      · rw [hn, h1]; simp
      · intro t ht1 ht2
        have : t = i := by omega
        rw [this]; exact hni
    · have hn1 : n (i + 1) = 1 := by rw [hn, if_neg hle]; exact hni
      have hb : c (i + 1) - 1 < 2 ^ (j + 1) := by
        generalize (2 : Int) ^ (j + 1) = p at hlt ⊢
        rw [hstep, tdiv_two]; split <;> omega
      obtain ⟨k, hk1, hk2, hk3, hk4, hk5⟩ := ih (i + 1) hn1 (by omega) hb
      refine ⟨k, by omega, by omega, hk3, hk4, ?_⟩
      intro t ht1 ht2
      by_cases hti : t = i
      · rw [hti]; exact hni
      · exact hk5 t (by omega) ht2

theorem opening_step (h : Int) (c n : Nat → Int)
    (hc : ∀ i, c (i + 1) = Int.tdiv (c i + n i) 2)
    (hn : ∀ i, n (i + 1) = if c (i + 1) ≤ 1 then h else n i)
    (i : Nat) (hni : n i = h) (h1 : 1 ≤ c i) (h2 : c i ≤ h - 1) :
    n (i + 1) = h ∧ 1 ≤ c (i + 1) ∧ c (i + 1) ≤ h - 1 ∧
      h - 1 - c (i + 1) = (h - 1 - c i) / 2 := by
  have hstep : c (i + 1) = Int.tdiv (c i + h) 2 := by rw [hc, hni]
  refine ⟨?_, ?_, ?_, ?_⟩
  · rw [hn]; split
    · rfl
    · exact hni
  · rw [hstep, tdiv_two]; split <;> omega
  · rw [hstep, tdiv_two]; split <;> omega
  · rw [hstep, tdiv_two]; split <;> omega

theorem opening_phase (h : Int) (c n : Nat → Int)
    (hc : ∀ i, c (i + 1) = Int.tdiv (c i + n i) 2)
    (hn : ∀ i, n (i + 1) = if c (i + 1) ≤ 1 then h else n i) :
    ∀ (j i : Nat), n i = h → 1 ≤ c i → c i ≤ h - 1 → h - 1 - c i < 2 ^ j →
      ∀ d, c (i + j + d) = h - 1 ∧ n (i + j + d) = h := by
  intro j
  induction j with
  | zero =>
    intro i hni h1 h2 hlt d
    simp only [pow_zero] at hlt
    induction d with
    | zero => exact ⟨by simp only [Nat.add_zero]; omega, by simpa using hni⟩
    | succ d ihd =>
      obtain ⟨e1, e2⟩ := ihd
      have := opening_step h c n hc hn (i + 0 + d) e2 (by omega) (by omega)
      have hidx : i + 0 + (d + 1) = i + 0 + d + 1 := by omega
      rw [hidx]
      exact ⟨by omega, this.1⟩
  | succ j ih =>
    intro i hni h1 h2 hlt d
    have hpow : (2 : Int) ^ (j + 1) = 2 * 2 ^ j := by ring
    rw [hpow] at hlt
    obtain ⟨a1, a2, a3, a4⟩ := opening_step h c n hc hn i hni h1 h2
    have hb : h - 1 - c (i + 1) < 2 ^ j := by
      generalize (2 : Int) ^ j = p at hlt ⊢
      omega
    have := ih (i + 1) a1 a2 a3 hb d
    have hidx : i + (j + 1) + d = i + 1 + j + d := by omega
    rw [hidx]; exact this

theorem blink_cycle (h : Int) (c n : Nat → Int) (j : Nat)
    (hc : ∀ i, c (i + 1) = Int.tdiv (c i + n i) 2)
    (hn : ∀ i, n (i + 1) = if c (i + 1) ≤ 1 then h else n i)
    (hh : 2 ≤ h) (hj : h ≤ 2 ^ j) (hn0 : n 0 = 1) (hc0 : 1 ≤ c 0) (hc1 : c 0 ≤ h) :
    ∃ k, 1 ≤ k ∧ k ≤ j ∧ c k = 1 ∧ (∀ t, t < k → n t = 1) ∧
      ∀ m, k + j ≤ m → c m = h - 1 ∧ n m = h := by
  obtain ⟨j', rfl⟩ : ∃ j', j = j' + 1 := by
    cases j with
    | zero => simp at hj; omega
    | succ j' => exact ⟨j', rfl⟩
  obtain ⟨k, hk1, hk2, hk3, hk4, hk5⟩ := closing_phase h c n hc hn j' 0 hn0 hc0 (by omega)
  refine ⟨k, by omega, by omega, hk3, fun t ht => hk5 t (by omega) ht, ?_⟩
  intro m hm
  have := opening_phase h c n hc hn (j' + 1) k hk4 (by omega) (by omega) (by omega) (m - (k + (j' + 1)))
  have hidx : k + (j' + 1) + (m - (k + (j' + 1))) = m := by omega
  rw [hidx] at this
  exact this

theorem tick_blinkFields (s : roboEyes) (now : Int) (rnd : Rng)
    (hcu : s.curious = false) (hab : s.autoblinker = false) :
    (tick s now rnd).1.curious = false ∧ (tick s now rnd).1.autoblinker = false ∧
    (tick s now rnd).1.eyeL_open = s.eyeL_open ∧ (tick s now rnd).1.eyeR_open = s.eyeR_open ∧
    (tick s now rnd).1.eyeLheightDefault = s.eyeLheightDefault ∧
    (tick s now rnd).1.eyeRheightDefault = s.eyeRheightDefault := by
  simp only [tick, drawEyes, sweatStep_fst_eq, moodStep_eq, animate, cyclopsStep_eq, vFlickerStep_eq, hFlickerStep_eq, idleStep_eq,
    confusedStep_eq, laughStep_eq, autoblinkStep_eq, interpolate, tweenStep, reopenStep_eq,
    heightStep, curiosityStep_eq]
  simp [hcu, hab]

theorem tick_heightL (s : roboEyes) (now : Int) (rnd : Rng)
    (hcu : s.curious = false) (hab : s.autoblinker = false) :
    (tick s now rnd).1.eyeLheightCurrent = Int.tdiv (s.eyeLheightCurrent + s.eyeLheightNext) 2 ∧
    (tick s now rnd).1.eyeLheightNext =
      if s.eyeL_open then
        (if Int.tdiv (s.eyeLheightCurrent + s.eyeLheightNext) 2 ≤ 1 then s.eyeLheightDefault
         else s.eyeLheightNext)
      else s.eyeLheightNext := by
  simp only [tick, drawEyes, sweatStep_fst_eq, moodStep_eq, animate, cyclopsStep_eq, vFlickerStep_eq, hFlickerStep_eq, idleStep_eq,
    confusedStep_eq, laughStep_eq, autoblinkStep_eq, interpolate, tweenStep, reopenStep_eq,
    heightStep, curiosityStep_eq]
  simp [hcu, hab]

theorem tick_heightR (s : roboEyes) (now : Int) (rnd : Rng)
    (hcu : s.curious = false) (hab : s.autoblinker = false) (hcy : s.cyclops = false) :
    (tick s now rnd).1.eyeRheightCurrent = Int.tdiv (s.eyeRheightCurrent + s.eyeRheightNext) 2 ∧
    (tick s now rnd).1.eyeRheightNext =
      if s.eyeR_open then
        (if Int.tdiv (s.eyeRheightCurrent + s.eyeRheightNext) 2 ≤ 1 then s.eyeRheightDefault
         else s.eyeRheightNext)
      else s.eyeRheightNext := by
  simp only [tick, drawEyes, sweatStep_fst_eq, moodStep_eq, animate, cyclopsStep_eq, vFlickerStep_eq, hFlickerStep_eq, idleStep_eq,
    confusedStep_eq, laughStep_eq, autoblinkStep_eq, interpolate, tweenStep, reopenStep_eq,
    heightStep, curiosityStep_eq]
  simp [hcu, hab, hcy]

theorem tick_cyclops (s : roboEyes) (now : Int) (rnd : Rng) :
    (tick s now rnd).1.cyclops = s.cyclops := by
  simp only [tick, drawEyes, sweatStep_fst_eq, moodStep_eq, animate, cyclopsStep_eq, vFlickerStep_eq, hFlickerStep_eq, idleStep_eq,
    confusedStep_eq, laughStep_eq, autoblinkStep_eq, interpolate, tweenStep, reopenStep_eq,
    heightStep, curiosityStep_eq]

theorem run_blinkFields (s : roboEyes) (env : Nat → Int × Rng)
    (hcu : s.curious = false) (hab : s.autoblinker = false) (i : Nat) :
    (run s env i).curious = false ∧ (run s env i).autoblinker = false ∧
    (run s env i).eyeL_open = s.eyeL_open ∧ (run s env i).eyeR_open = s.eyeR_open ∧
    (run s env i).eyeLheightDefault = s.eyeLheightDefault ∧
    (run s env i).eyeRheightDefault = s.eyeRheightDefault ∧
    (run s env i).cyclops = s.cyclops := by
  induction i with
  | zero => exact ⟨hcu, hab, rfl, rfl, rfl, rfl, rfl⟩
  | succ i ih =>
    obtain ⟨a1, a2, a3, a4, a5, a6, a7⟩ := ih
    obtain ⟨b1, b2, b3, b4, b5, b6⟩ := tick_blinkFields (run s env i) (env i).1 (env i).2 a1 a2
    refine ⟨b1, b2, ?_, ?_, ?_, ?_, ?_⟩
    · show (tick (run s env i) (env i).1 (env i).2).1.eyeL_open = _
      rw [b3, a3]
    · show (tick (run s env i) (env i).1 (env i).2).1.eyeR_open = _
      rw [b4, a4]
    · show (tick (run s env i) (env i).1 (env i).2).1.eyeLheightDefault = _
      rw [b5, a5]
    · show (tick (run s env i) (env i).1 (env i).2).1.eyeRheightDefault = _
      rw [b6, a6]
    · show (tick (run s env i) (env i).1 (env i).2).1.cyclops = _
      rw [tick_cyclops, a7]

theorem run_heightL (h : Int) (s : roboEyes) (env : Nat → Int × Rng)
    (hcu : s.curious = false) (hab : s.autoblinker = false)
    (hop : s.eyeL_open = true) (hdef : s.eyeLheightDefault = h) (i : Nat) :
    (run s env (i + 1)).eyeLheightCurrent =
        Int.tdiv ((run s env i).eyeLheightCurrent + (run s env i).eyeLheightNext) 2 ∧
    (run s env (i + 1)).eyeLheightNext =
        if (run s env (i + 1)).eyeLheightCurrent ≤ 1 then h else (run s env i).eyeLheightNext := by
  obtain ⟨a1, a2, a3, _, a5, _, _⟩ := run_blinkFields s env hcu hab i
  obtain ⟨b1, b2⟩ := tick_heightL (run s env i) (env i).1 (env i).2 a1 a2
  rw [a3, hop, a5, hdef] at b2
  refine ⟨b1, ?_⟩
  show (tick (run s env i) (env i).1 (env i).2).1.eyeLheightNext =
    if (tick (run s env i) (env i).1 (env i).2).1.eyeLheightCurrent ≤ 1 then h
    else (run s env i).eyeLheightNext
  rw [b2, b1]; rfl

theorem run_heightR (h : Int) (s : roboEyes) (env : Nat → Int × Rng)
    (hcu : s.curious = false) (hab : s.autoblinker = false) (hcy : s.cyclops = false)
    (hop : s.eyeR_open = true) (hdef : s.eyeRheightDefault = h) (i : Nat) :
    (run s env (i + 1)).eyeRheightCurrent =
        Int.tdiv ((run s env i).eyeRheightCurrent + (run s env i).eyeRheightNext) 2 ∧
    (run s env (i + 1)).eyeRheightNext =
        if (run s env (i + 1)).eyeRheightCurrent ≤ 1 then h else (run s env i).eyeRheightNext := by
  obtain ⟨a1, a2, _, a4, _, a6, a7⟩ := run_blinkFields s env hcu hab i
  obtain ⟨b1, b2⟩ := tick_heightR (run s env i) (env i).1 (env i).2 a1 a2 (by rw [a7, hcy])
  rw [a4, hop, a6, hdef] at b2
  refine ⟨b1, ?_⟩
  show (tick (run s env i) (env i).1 (env i).2).1.eyeRheightNext =
    if (tick (run s env i) (env i).1 (env i).2).1.eyeRheightCurrent ≤ 1 then h
    else (run s env i).eyeRheightNext
  rw [b2, b1]; rfl

set_option maxRecDepth 100000 in
/-- C3, as stated, fails at the spec's own example: the cold-start animator, ticked ten times,
is an open eye at rest (target 36, height 35, curiosity and auto blinker off); ten ticks
after `blink()` its height is 33, which is neither 36 nor 35, and after eleven ticks it
is 34. -/
theorem C3_ten_ticks_fall_short :
    (run coldStart (pacedFrom 0) 10).eyeLheightDefault = 36 ∧
    (run coldStart (pacedFrom 0) 10).eyeLheightNext = 36 ∧
    (run coldStart (pacedFrom 0) 10).eyeLheightCurrent = 35 ∧
    (run coldStart (pacedFrom 0) 10).curious = false ∧
    (run coldStart (pacedFrom 0) 10).autoblinker = false ∧
    (run (blink (run coldStart (pacedFrom 0) 10)) (pacedFrom 100) 10).eyeLheightCurrent = 33 ∧
    (run (blink (run coldStart (pacedFrom 0) 10)) (pacedFrom 100) 11).eyeLheightCurrent = 34 := by
  decide

/-- C3, amended: let the default height be `h >= 2` with `h <= 2 ^ j`, curiosity and the auto
blinker off, and the left eye open at rest (target `h`, height `h` or `h - 1`). After
`blink()` some tick `k` with `1 <= k <= j` leaves the height at exactly 1, the target
being 1 at every tick before it, and from tick `k + j` on the height is `h - 1` with
target `h`, for good. With cyclops off the same holds for the right eye. For the default
height 36 (`j = 6`) that is a closed eye within 6 ticks and the rest height 35 from tick 12
on, not within 10 ticks. -/
theorem C3_blink_completeness (h : Int) (j : Nat) (s : roboEyes) (env : Nat → Int × Rng)
    (hh : 2 ≤ h) (hj : h ≤ 2 ^ j) (hcu : s.curious = false) (hab : s.autoblinker = false) :
    (s.eyeLheightDefault = h → s.eyeLheightNext = h →
      (s.eyeLheightCurrent = h ∨ s.eyeLheightCurrent = h - 1) →
      ∃ k, 1 ≤ k ∧ k ≤ j ∧
        (run (blink s) env k).eyeLheightCurrent = 1 ∧
        (∀ t, t < k → (run (blink s) env t).eyeLheightNext = 1) ∧
        ∀ m, k + j ≤ m →
          (run (blink s) env m).eyeLheightCurrent = h - 1 ∧
          (run (blink s) env m).eyeLheightNext = h) ∧
    (s.cyclops = false → s.eyeRheightDefault = h → s.eyeRheightNext = h →
      (s.eyeRheightCurrent = h ∨ s.eyeRheightCurrent = h - 1) →
      ∃ k, 1 ≤ k ∧ k ≤ j ∧
        (run (blink s) env k).eyeRheightCurrent = 1 ∧
        (∀ t, t < k → (run (blink s) env t).eyeRheightNext = 1) ∧
        ∀ m, k + j ≤ m →
          (run (blink s) env m).eyeRheightCurrent = h - 1 ∧
          (run (blink s) env m).eyeRheightNext = h) := by
  constructor
  · intro hdef _ hcur
    have hrec := run_heightL h (blink s) env hcu hab rfl hdef
    exact blink_cycle h (fun i => (run (blink s) env i).eyeLheightCurrent)
      (fun i => (run (blink s) env i).eyeLheightNext) j
      (fun i => (hrec i).1) (fun i => (hrec i).2) hh hj rfl
      (by show 1 ≤ s.eyeLheightCurrent; omega) (by show s.eyeLheightCurrent ≤ h; omega)
  · intro hcy hdef _ hcur
    have hrec := run_heightR h (blink s) env hcu hab hcy rfl hdef
    exact blink_cycle h (fun i => (run (blink s) env i).eyeRheightCurrent)
      (fun i => (run (blink s) env i).eyeRheightNext) j
      (fun i => (hrec i).1) (fun i => (hrec i).2) hh hj rfl
      (by show 1 ≤ s.eyeRheightCurrent; omega) (by show s.eyeRheightCurrent ≤ h; omega)

set_option maxRecDepth 100000 in
/-- C3, amended, at the open eye at rest of the cold-start animator: default height 36 and
`j = 6`. -/
theorem C3_blink_completeness_witness :
    (2 : Int) ≤ 36 ∧ (36 : Int) ≤ 2 ^ 6 ∧
    (run coldStart (pacedFrom 0) 10).curious = false ∧
    (run coldStart (pacedFrom 0) 10).autoblinker = false ∧
    ∃ k, 1 ≤ k ∧ k ≤ 6 ∧
      (run (blink (run coldStart (pacedFrom 0) 10)) (pacedFrom 100) k).eyeLheightCurrent = 1 ∧
      (∀ t, t < k → (run (blink (run coldStart (pacedFrom 0) 10)) (pacedFrom 100) t).eyeLheightNext = 1) ∧
      ∀ m, k + 6 ≤ m →
        (run (blink (run coldStart (pacedFrom 0) 10)) (pacedFrom 100) m).eyeLheightCurrent = 36 - 1 ∧
        (run (blink (run coldStart (pacedFrom 0) 10)) (pacedFrom 100) m).eyeLheightNext = 36 :=
  ⟨by decide, by decide, by decide, by decide,
   (C3_blink_completeness 36 6 (run coldStart (pacedFrom 0) 10) (pacedFrom 100) (by decide) (by decide)
      (by decide) (by decide)).1 (by decide) (by decide) (by decide)⟩

/-! ## The frame a tick draws -/

theorem sweatStep_snd (s : roboEyes) (rnd : Rng) :
    (sweatStep s rnd).2 =
      if s.sweat then [DrawCall.sweatDrop 1, DrawCall.sweatDrop 2, DrawCall.sweatDrop 3] else [] := by
  unfold sweatStep
  split <;> rfl

/-- The display calls of a tick, read off the state the tick leaves behind. -/
theorem tick_snd (s : roboEyes) (now : Int) (rnd : Rng) :
    (tick s now rnd).2 =
      [DrawCall.clearDisplay] ++ eyeBodies (tick s now rnd).1 ++ tiredLids (tick s now rnd).1 ++
        angryLids (tick s now rnd).1 ++ happyLids (tick s now rnd).1 ++
        (if s.sweat then [DrawCall.sweatDrop 1, DrawCall.sweatDrop 2, DrawCall.sweatDrop 3] else []) ++
        [DrawCall.display] := by
  simp only [tick, drawEyes, sweatStep_snd, sweatStep_fst_eq, eyeBodies, tiredLids, angryLids,
    happyLids, moodStep_eq]
  have hs : (animate s now rnd).sweat = s.sweat := by
    simp only [animate, cyclopsStep_eq, vFlickerStep_eq, hFlickerStep_eq, idleStep_eq,
      confusedStep_eq, laughStep_eq, autoblinkStep_eq, interpolate, tweenStep, reopenStep_eq,
      heightStep, curiosityStep_eq]
  rw [hs]

/-! ## C4: the cyclops invariant -/

theorem tick_cyclopsZero (s : roboEyes) (now : Int) (rnd : Rng) (hc : s.cyclops = true) :
    (tick s now rnd).1.eyeRwidthCurrent = 0 ∧ (tick s now rnd).1.eyeRheightCurrent = 0 ∧
    (tick s now rnd).1.spaceBetweenCurrent = 0 := by
  simp only [tick, drawEyes, sweatStep_fst_eq, moodStep_eq, animate, cyclopsStep_eq, vFlickerStep_eq, hFlickerStep_eq, idleStep_eq,
    confusedStep_eq, laughStep_eq, autoblinkStep_eq, interpolate, tweenStep, reopenStep_eq,
    heightStep, curiosityStep_eq]
  simp [hc]

theorem tick_cyclopsFrame (s : roboEyes) (now : Int) (rnd : Rng) (hc : s.cyclops = true) :
    (tick s now rnd).2 =
      [DrawCall.clearDisplay,
       DrawCall.fillRoundRect (tick s now rnd).1.eyeLx (tick s now rnd).1.eyeLy
         (tick s now rnd).1.eyeLwidthCurrent (tick s now rnd).1.eyeLheightCurrent
         (tick s now rnd).1.eyeLborderRadiusCurrent (tick s now rnd).1.MAINCOLOR,
       DrawCall.fillTriangle (tick s now rnd).1.eyeLx ((tick s now rnd).1.eyeLy - 1)
         ((tick s now rnd).1.eyeLx + Int.tdiv (tick s now rnd).1.eyeLwidthCurrent 2)
         ((tick s now rnd).1.eyeLy - 1)
         (tick s now rnd).1.eyeLx
         ((tick s now rnd).1.eyeLy + (tick s now rnd).1.eyelidsTiredHeight - 1)
         (tick s now rnd).1.BGCOLOR,
       DrawCall.fillTriangle ((tick s now rnd).1.eyeLx + Int.tdiv (tick s now rnd).1.eyeLwidthCurrent 2)
         ((tick s now rnd).1.eyeLy - 1)
         ((tick s now rnd).1.eyeLx + (tick s now rnd).1.eyeLwidthCurrent)
         ((tick s now rnd).1.eyeLy - 1)
         ((tick s now rnd).1.eyeLx + (tick s now rnd).1.eyeLwidthCurrent)
         ((tick s now rnd).1.eyeLy + (tick s now rnd).1.eyelidsTiredHeight - 1)
         (tick s now rnd).1.BGCOLOR,
       DrawCall.fillTriangle (tick s now rnd).1.eyeLx ((tick s now rnd).1.eyeLy - 1)
         ((tick s now rnd).1.eyeLx + Int.tdiv (tick s now rnd).1.eyeLwidthCurrent 2)
         ((tick s now rnd).1.eyeLy - 1)
         ((tick s now rnd).1.eyeLx + Int.tdiv (tick s now rnd).1.eyeLwidthCurrent 2)
         ((tick s now rnd).1.eyeLy + (tick s now rnd).1.eyelidsAngryHeight - 1)
         (tick s now rnd).1.BGCOLOR,
       DrawCall.fillTriangle ((tick s now rnd).1.eyeLx + Int.tdiv (tick s now rnd).1.eyeLwidthCurrent 2)
         ((tick s now rnd).1.eyeLy - 1)
         ((tick s now rnd).1.eyeLx + (tick s now rnd).1.eyeLwidthCurrent)
         ((tick s now rnd).1.eyeLy - 1)
         ((tick s now rnd).1.eyeLx + Int.tdiv (tick s now rnd).1.eyeLwidthCurrent 2)
         ((tick s now rnd).1.eyeLy + (tick s now rnd).1.eyelidsAngryHeight - 1)
         (tick s now rnd).1.BGCOLOR,
       DrawCall.fillRoundRect ((tick s now rnd).1.eyeLx - 1)
         (((tick s now rnd).1.eyeLy + (tick s now rnd).1.eyeLheightCurrent)
            - (tick s now rnd).1.eyelidsHappyBottomOffset + 1)
         ((tick s now rnd).1.eyeLwidthCurrent + 2) (tick s now rnd).1.eyeLheightDefault
         (tick s now rnd).1.eyeLborderRadiusCurrent (tick s now rnd).1.BGCOLOR] ++
      (if s.sweat then [DrawCall.sweatDrop 1, DrawCall.sweatDrop 2, DrawCall.sweatDrop 3] else []) ++
      [DrawCall.display] := by
  rw [tick_snd]
  have h := tick_cyclops s now rnd
  rw [hc] at h
  simp [eyeBodies, tiredLids, angryLids, happyLids, h]

theorem tick_frame_indep (s : roboEyes) (now : Int) (rnd : Rng) (hc : s.cyclops = true)
    (x y xn yn : Int) :
    (tick { s with eyeRx := x, eyeRy := y, eyeRxNext := xn, eyeRyNext := yn } now rnd).2 =
      (tick s now rnd).2 := by
  rw [tick_cyclopsFrame _ _ _ hc, tick_cyclopsFrame _ _ _ (show ({ s with eyeRx := x, eyeRy := y, eyeRxNext := xn, eyeRyNext := yn } : roboEyes).cyclops = true from hc)]
  simp only [tick, drawEyes, sweatStep_fst_eq, moodStep_eq, animate, cyclopsStep_eq, vFlickerStep_eq, hFlickerStep_eq, idleStep_eq,
    confusedStep_eq, laughStep_eq, autoblinkStep_eq, interpolate, tweenStep, reopenStep_eq,
    heightStep, curiosityStep_eq, getScreenConstraint_X, getScreenConstraint_Y]

/-- C4: a tick with cyclops enabled leaves the right eye's current width and height and
the current spacing at 0; the display calls of that tick are the clearing, one eye body
in the foreground colour, the two halves of the tired eyelid, the two halves of the
angry eyelid and one happy overlay, all positioned from `eyeLx`, `eyeLy` and the left eye's
sizes, then the sweat drops if sweat is on, then the presentation; and the calls do not
change when the right eye's coordinates before the tick are replaced by any other values. -/
theorem C4_cyclops_invariant (s : roboEyes) (now : Int) (rnd : Rng) (hc : s.cyclops = true) :
    ((tick s now rnd).1.eyeRwidthCurrent = 0 ∧ (tick s now rnd).1.eyeRheightCurrent = 0 ∧
      (tick s now rnd).1.spaceBetweenCurrent = 0) ∧
    (tick s now rnd).2 =
      [DrawCall.clearDisplay,
       DrawCall.fillRoundRect (tick s now rnd).1.eyeLx (tick s now rnd).1.eyeLy
         (tick s now rnd).1.eyeLwidthCurrent (tick s now rnd).1.eyeLheightCurrent
         (tick s now rnd).1.eyeLborderRadiusCurrent (tick s now rnd).1.MAINCOLOR,
       DrawCall.fillTriangle (tick s now rnd).1.eyeLx ((tick s now rnd).1.eyeLy - 1)
         ((tick s now rnd).1.eyeLx + Int.tdiv (tick s now rnd).1.eyeLwidthCurrent 2)
         ((tick s now rnd).1.eyeLy - 1)
         (tick s now rnd).1.eyeLx
         ((tick s now rnd).1.eyeLy + (tick s now rnd).1.eyelidsTiredHeight - 1)
         (tick s now rnd).1.BGCOLOR,
       DrawCall.fillTriangle ((tick s now rnd).1.eyeLx + Int.tdiv (tick s now rnd).1.eyeLwidthCurrent 2)
         ((tick s now rnd).1.eyeLy - 1)
         ((tick s now rnd).1.eyeLx + (tick s now rnd).1.eyeLwidthCurrent)
         ((tick s now rnd).1.eyeLy - 1)
         ((tick s now rnd).1.eyeLx + (tick s now rnd).1.eyeLwidthCurrent)
         ((tick s now rnd).1.eyeLy + (tick s now rnd).1.eyelidsTiredHeight - 1)
         (tick s now rnd).1.BGCOLOR,
       DrawCall.fillTriangle (tick s now rnd).1.eyeLx ((tick s now rnd).1.eyeLy - 1)
         ((tick s now rnd).1.eyeLx + Int.tdiv (tick s now rnd).1.eyeLwidthCurrent 2)
         ((tick s now rnd).1.eyeLy - 1)
         ((tick s now rnd).1.eyeLx + Int.tdiv (tick s now rnd).1.eyeLwidthCurrent 2)
         ((tick s now rnd).1.eyeLy + (tick s now rnd).1.eyelidsAngryHeight - 1)
         (tick s now rnd).1.BGCOLOR,
       DrawCall.fillTriangle ((tick s now rnd).1.eyeLx + Int.tdiv (tick s now rnd).1.eyeLwidthCurrent 2)
         ((tick s now rnd).1.eyeLy - 1)
         ((tick s now rnd).1.eyeLx + (tick s now rnd).1.eyeLwidthCurrent)
         ((tick s now rnd).1.eyeLy - 1)
         ((tick s now rnd).1.eyeLx + Int.tdiv (tick s now rnd).1.eyeLwidthCurrent 2)
         ((tick s now rnd).1.eyeLy + (tick s now rnd).1.eyelidsAngryHeight - 1)
         (tick s now rnd).1.BGCOLOR,
       DrawCall.fillRoundRect ((tick s now rnd).1.eyeLx - 1)
         (((tick s now rnd).1.eyeLy + (tick s now rnd).1.eyeLheightCurrent)
            - (tick s now rnd).1.eyelidsHappyBottomOffset + 1)
         ((tick s now rnd).1.eyeLwidthCurrent + 2) (tick s now rnd).1.eyeLheightDefault
         (tick s now rnd).1.eyeLborderRadiusCurrent (tick s now rnd).1.BGCOLOR] ++
      (if s.sweat then [DrawCall.sweatDrop 1, DrawCall.sweatDrop 2, DrawCall.sweatDrop 3] else []) ++
      [DrawCall.display] ∧
    ∀ x y xn yn : Int,
      (tick { s with eyeRx := x, eyeRy := y, eyeRxNext := xn, eyeRyNext := yn } now rnd).2 =
        (tick s now rnd).2 :=
  ⟨tick_cyclopsZero s now rnd hc, tick_cyclopsFrame s now rnd hc, tick_frame_indep s now rnd hc⟩

/-- C4 at the cold-start animator switched to cyclops: the right eye is zeroed and its
coordinates do not reach the display. -/
theorem C4_cyclops_invariant_witness :
    (setCyclops coldStart true).cyclops = true ∧
    ((tick (setCyclops coldStart true) 10 zeroRng).1.eyeRwidthCurrent = 0 ∧
      (tick (setCyclops coldStart true) 10 zeroRng).1.eyeRheightCurrent = 0 ∧
      (tick (setCyclops coldStart true) 10 zeroRng).1.spaceBetweenCurrent = 0) ∧
    ∀ x y xn yn : Int,
      (tick { setCyclops coldStart true with eyeRx := x, eyeRy := y, eyeRxNext := xn, eyeRyNext := yn }
          10 zeroRng).2 =
        (tick (setCyclops coldStart true) 10 zeroRng).2 :=
  ⟨by decide, (C4_cyclops_invariant (setCyclops coldStart true) 10 zeroRng (by decide)).1,
   (C4_cyclops_invariant (setCyclops coldStart true) 10 zeroRng (by decide)).2.2⟩

/-! ## C5: mood exclusivity -/

/-- C5: `setMood(m)` writes the three mood flags and nothing else: `tired` is set exactly
for `TIRED`, `angry` exactly for `ANGRY`, `happy` exactly for `HAPPY`, so no two of them
are set together and every other value (`DEFAULT`, `DASAI_MOSHI`, unknown) clears all
three; `setMood(HAPPY)` after `setMood(ANGRY)` gives angry off, happy on, tired off. -/
theorem C5_mood_exclusivity (s : roboEyes) (mood : Fin 256) :
    setMood s mood =
      { s with tired := decide (mood.val = TIRED), angry := decide (mood.val = ANGRY),
               happy := decide (mood.val = HAPPY) } ∧
    ((setMood s mood).tired = true ↔ mood.val = TIRED) ∧
    ((setMood s mood).angry = true ↔ mood.val = ANGRY) ∧
    ((setMood s mood).happy = true ↔ mood.val = HAPPY) ∧
    ¬ ((setMood s mood).tired = true ∧ (setMood s mood).angry = true) ∧
    ¬ ((setMood s mood).tired = true ∧ (setMood s mood).happy = true) ∧
    ¬ ((setMood s mood).angry = true ∧ (setMood s mood).happy = true) ∧
    (mood.val ≠ TIRED → mood.val ≠ ANGRY → mood.val ≠ HAPPY →
      (setMood s mood).tired = false ∧ (setMood s mood).angry = false ∧
      (setMood s mood).happy = false) ∧
    ((setMood (setMood s 2) 3).angry = false ∧ (setMood (setMood s 2) 3).happy = true ∧
      (setMood (setMood s 2) 3).tired = false) := by
  refine ⟨?_, ?_, ?_, ?_, ?_, ?_, ?_, ?_, ⟨rfl, rfl, rfl⟩⟩
  all_goals
    simp only [setMood, TIRED, ANGRY, HAPPY]
    split_ifs <;> simp_all

/-! ## C6: the left eye's target stays inside the bounds -/

theorem tick_gazeFields (s : roboEyes) (now : Int) (rnd : Rng) (hc : s.cyclops = false) :
    (tick s now rnd).1.screenWidth = s.screenWidth ∧
    (tick s now rnd).1.screenHeight = s.screenHeight ∧
    (tick s now rnd).1.eyeLheightDefault = s.eyeLheightDefault ∧
    (tick s now rnd).1.eyeLwidthNext = s.eyeLwidthNext ∧
    (tick s now rnd).1.eyeRwidthNext = s.eyeRwidthNext ∧
    (tick s now rnd).1.spaceBetweenNext = s.spaceBetweenNext ∧
    (tick s now rnd).1.eyeRwidthCurrent = Int.tdiv (s.eyeRwidthCurrent + s.eyeRwidthNext) 2 := by
  simp only [tick, drawEyes, sweatStep_fst_eq, moodStep_eq, animate, cyclopsStep_eq, vFlickerStep_eq, hFlickerStep_eq, idleStep_eq,
    confusedStep_eq, laughStep_eq, autoblinkStep_eq, interpolate, tweenStep, reopenStep_eq,
    heightStep, curiosityStep_eq]
  simp [hc]

theorem tick_gazeTarget (s : roboEyes) (now : Int) (rnd : Rng) :
    (tick s now rnd).1.eyeLxNext =
      (if s.idle then
        (if now ≥ s.idleAnimationTimer then
          rnd 1 (s.screenWidth - Int.tdiv (s.eyeLwidthCurrent + s.eyeLwidthNext) 2
            - Int.tdiv (s.spaceBetweenCurrent + s.spaceBetweenNext) 2
            - Int.tdiv (s.eyeRwidthCurrent + s.eyeRwidthNext) 2)
         else s.eyeLxNext)
       else s.eyeLxNext) ∧
    (tick s now rnd).1.eyeLyNext =
      (if s.idle then
        (if now ≥ s.idleAnimationTimer then rnd 2 (s.screenHeight - s.eyeLheightDefault)
         else s.eyeLyNext)
       else s.eyeLyNext) := by
  simp only [tick, drawEyes, sweatStep_fst_eq, moodStep_eq, animate, cyclopsStep_eq, vFlickerStep_eq, hFlickerStep_eq, idleStep_eq,
    confusedStep_eq, laughStep_eq, autoblinkStep_eq, interpolate, tweenStep, reopenStep_eq,
    heightStep, curiosityStep_eq, getScreenConstraint_X, getScreenConstraint_Y]
  simp

theorem uniform_range (rnd : Rng) (hu : Uniform rnd) (i : Nat) (n : Int) (hn : 0 ≤ n) :
    0 ≤ rnd i n ∧ rnd i n ≤ n := by
  rcases lt_or_eq_of_le hn with h | h
  · have := (hu i n).1 h
    omega
  · subst h
    have := (hu i 0).2
    omega

theorem gazeInv_tick (W H : Int) (s : roboEyes) (now : Int) (rnd : Rng)
    (hW : 82 ≤ W) (hH : 36 ≤ H) (hu : Uniform rnd) (h : GazeInv W H s) :
    GazeInv W H (tick s now rnd).1 := by
  obtain ⟨h1, h2, h3, h4, ⟨h5, h5'⟩, ⟨h6, h6'⟩, ⟨h7, h7'⟩, h8, h9⟩ := h
  obtain ⟨a1, a2, a3, a4, a5, a6, a7⟩ := tick_gazeFields s now rnd h3
  obtain ⟨b1, b2⟩ := tick_gazeTarget s now rnd
  have e36 : Int.tdiv (36 + 36) 2 = 36 := by decide
  have e10 : Int.tdiv (10 + 10) 2 = 10 := by decide
  rw [h1, h5, h5', h6, h6', h7, h7', e36, e10] at b1
  rw [h2, h4] at b2
  have r1 := uniform_range rnd hu 1 (W - 36 - 10 - 36) (by omega)
  have r2 := uniform_range rnd hu 2 (H - 36) (by omega)
  refine ⟨by rw [a1, h1], by rw [a2, h2], by rw [tick_cyclops, h3], by rw [a3, h4],
    ⟨by rw [tick_eyeLwidthCurrent, h5, h5', e36], by rw [a4, h5']⟩,
    ⟨by rw [a7, h6, h6', e36], by rw [a5, h6']⟩,
    ⟨by rw [tick_spaceBetweenCurrent, h3, h7, h7']; exact e10, by rw [a6, h7']⟩, ?_, ?_⟩
  · rw [b1]; split <;> [split; skip] <;> omega
  · rw [b2]; split <;> [split; skip] <;> omega

theorem gazeTarget_ite (s : roboEyes) (c : Prop) [Decidable c] (x1 y1 x2 y2 : Int) :
    (if c then ({ s with eyeLxNext := x1, eyeLyNext := y1 } : roboEyes)
      else { s with eyeLxNext := x2, eyeLyNext := y2 }) =
    { s with eyeLxNext := if c then x1 else x2, eyeLyNext := if c then y1 else y2 } := by
  split <;> rfl

theorem setPosition_eq (s : roboEyes) (position : Fin 256) : setPosition s position =
    { s with
      eyeLxNext :=
        if position.val = N then Int.tdiv (getScreenConstraint_X s) 2
        else if position.val = NE then getScreenConstraint_X s
        else if position.val = E then getScreenConstraint_X s
        else if position.val = SE then getScreenConstraint_X s
        else if position.val = S then Int.tdiv (getScreenConstraint_X s) 2
        else if position.val = SW then 0
        else if position.val = W then 0
        else if position.val = NW then 0
        else Int.tdiv (getScreenConstraint_X s) 2
      eyeLyNext :=
        if position.val = N then 0
        else if position.val = NE then 0
        else if position.val = E then Int.tdiv (getScreenConstraint_Y s) 2
        else if position.val = SE then getScreenConstraint_Y s
        else if position.val = S then getScreenConstraint_Y s
        else if position.val = SW then getScreenConstraint_Y s
        else if position.val = W then Int.tdiv (getScreenConstraint_Y s) 2
        else if position.val = NW then 0
        else Int.tdiv (getScreenConstraint_Y s) 2 } := by
  unfold setPosition
  simp only [gazeTarget_ite]

theorem gazeInv_setPosition (W H : Int) (s : roboEyes) (position : Fin 256)
    (hW : 82 ≤ W) (hH : 36 ≤ H) (h : GazeInv W H s) : GazeInv W H (setPosition s position) := by
  obtain ⟨h1, h2, h3, h4, ⟨h5, h5'⟩, ⟨h6, h6'⟩, ⟨h7, h7'⟩, h8, h9⟩ := h
  have hX : getScreenConstraint_X s = W - 82 := by
    simp only [getScreenConstraint_X, h1, h5, h6, h7]; omega
  have hY : getScreenConstraint_Y s = H - 36 := by
    simp only [getScreenConstraint_Y, h2, h4]
  have hx2 : 0 ≤ Int.tdiv (W - 82) 2 ∧ Int.tdiv (W - 82) 2 ≤ W - 82 := by
    rw [tdiv_two]; split <;> omega
  have hy2 : 0 ≤ Int.tdiv (H - 36) 2 ∧ Int.tdiv (H - 36) 2 ≤ H - 36 := by
    rw [tdiv_two]; split <;> omega
  rw [setPosition_eq, hX, hY]
  refine ⟨h1, h2, h3, h4, ⟨h5, h5'⟩, ⟨h6, h6'⟩, ⟨h7, h7'⟩, ?_, ?_⟩
  · show 0 ≤ ite _ _ _ ∧ ite _ _ _ ≤ W - 82
    split_ifs <;> omega
  · show 0 ≤ ite _ _ _ ∧ ite _ _ _ ≤ H - 36
    split_ifs <;> omega

theorem gazeInv_apply (W H : Int) (s : roboEyes) (op : GazeOp)
    (hW : 82 ≤ W) (hH : 36 ≤ H) (hf : op.Fair) (h : GazeInv W H s) :
    GazeInv W H (op.apply s) := by
  cases op with
  | setPosition position => exact gazeInv_setPosition W H s position hW hH h
  | setIdleMode active interval variation => exact h
  | setIdleMode1 active => exact h
  | update now rnd =>
    show GazeInv W H (update s now rnd).1
    unfold update
    split
    · exact gazeInv_tick W H s now rnd hW hH hf h
    · exact h

theorem gazeInv_gaze (W H : Int) (ops : List GazeOp) (hW : 82 ≤ W) (hH : 36 ≤ H)
    (hf : ∀ op ∈ ops, op.Fair) : ∀ s, GazeInv W H s → GazeInv W H (gaze s ops) := by
  induction ops with
  | nil => intro s h; exact h
  | cons op rest ih =>
    intro s h
    show GazeInv W H (gaze (op.apply s) rest)
    exact ih (fun o ho => hf o (List.mem_cons_of_mem _ ho)) _
      (gazeInv_apply W H s op hW hH (hf op (List.mem_cons_self _ _)) h)

theorem gazeInv_begin (u : roboEyes) (W H : Int) (frameRate : Fin 256)
    (hW : 82 ≤ W) (hH : 36 ≤ H) : GazeInv W H (begin (fresh u) W H frameRate).1 := by
  have hx2 : 0 ≤ Int.tdiv (W - 82) 2 ∧ Int.tdiv (W - 82) 2 ≤ W - 82 := by
    rw [tdiv_two]; split <;> omega
  have hy2 : 0 ≤ Int.tdiv (H - 36) 2 ∧ Int.tdiv (H - 36) 2 ≤ H - 36 := by
    rw [tdiv_two]; split <;> omega
  refine ⟨rfl, rfl, rfl, rfl, ⟨rfl, rfl⟩, ⟨rfl, rfl⟩, ⟨rfl, rfl⟩, ?_, ?_⟩
  · show 0 ≤ Int.tdiv (W - (36 + 10 + 36)) 2 ∧ Int.tdiv (W - (36 + 10 + 36)) 2 ≤ W - 82
    have e : W - (36 + 10 + 36) = W - 82 := by omega
    rw [e]; exact hx2
  · exact hy2

/-- C6, as stated, fails on a screen lower than the default eye: after `begin(128, 32, 100)`
on a fresh animator, `getScreenConstraint_Y()` is -4 and the left eye's next y is -2, which
is not in `[0, -4]`; after `setPosition(SE)` it is -4. -/
theorem C6_small_screen_leaves_bounds :
    getScreenConstraint_Y (begin (fresh zeroed) 128 32 100).1 = -4 ∧
    (begin (fresh zeroed) 128 32 100).1.eyeLyNext = -2 ∧
    ¬ (0 ≤ (begin (fresh zeroed) 128 32 100).1.eyeLyNext) ∧
    (gaze (begin (fresh zeroed) 128 32 100).1 [GazeOp.setPosition 4]).eyeLyNext = -4 ∧
    ¬ (0 ≤ (gaze (begin (fresh zeroed) 128 32 100).1 [GazeOp.setPosition 4]).eyeLyNext) := by
  decide

/-- C6, amended: on a fresh animator, after `begin(W, H, fps)` with `W >= 82` and `H >= 36` (a
screen that holds the two default eyes with their spacing, and the default height) and
any sequence of `setPosition` calls, `setIdleMode` calls and `update()` calls whose random
draws come from a uniform source, the left eye's next x is in
`[0, getScreenConstraint_X()]` and its next y in `[0, getScreenConstraint_Y()]`. -/
theorem C6_bound_respect (u : roboEyes) (W H : Int) (frameRate : Fin 256) (ops : List GazeOp)
    (_hfps : 0 < frameRate.val) (hW : 82 ≤ W) (hH : 36 ≤ H) (hf : ∀ op ∈ ops, op.Fair) :
    (0 ≤ (gaze (begin (fresh u) W H frameRate).1 ops).eyeLxNext ∧
      (gaze (begin (fresh u) W H frameRate).1 ops).eyeLxNext ≤
        getScreenConstraint_X (gaze (begin (fresh u) W H frameRate).1 ops)) ∧
    (0 ≤ (gaze (begin (fresh u) W H frameRate).1 ops).eyeLyNext ∧
      (gaze (begin (fresh u) W H frameRate).1 ops).eyeLyNext ≤
        getScreenConstraint_Y (gaze (begin (fresh u) W H frameRate).1 ops)) := by
  obtain ⟨h1, h2, _, h4, ⟨h5, _⟩, ⟨h6, _⟩, ⟨h7, _⟩, h8, h9⟩ :=
    gazeInv_gaze W H ops hW hH hf _ (gazeInv_begin u W H frameRate hW hH)
  have hX : getScreenConstraint_X (gaze (begin (fresh u) W H frameRate).1 ops) = W - 82 := by
    simp only [getScreenConstraint_X, h1, h5, h6, h7]; omega
  have hY : getScreenConstraint_Y (gaze (begin (fresh u) W H frameRate).1 ops) = H - 36 := by
    simp only [getScreenConstraint_Y, h2, h4]
  rw [hX, hY]
  exact ⟨h8, h9⟩

theorem uniform_zeroRng : Uniform zeroRng := by
  intro i n
  exact ⟨fun h => ⟨le_refl 0, h⟩, rfl⟩

/-- C6, amended, on the 128 by 64 screen of `main.cpp` with the session `demoGaze`. -/
theorem C6_bound_respect_witness :
    0 < (100 : Fin 256).val ∧ (82 : Int) ≤ 128 ∧ (36 : Int) ≤ 64 ∧
    (∀ op ∈ demoGaze, op.Fair) ∧
    (0 ≤ (gaze (begin (fresh zeroed) 128 64 100).1 demoGaze).eyeLxNext ∧
      (gaze (begin (fresh zeroed) 128 64 100).1 demoGaze).eyeLxNext ≤
        getScreenConstraint_X (gaze (begin (fresh zeroed) 128 64 100).1 demoGaze)) ∧
    (0 ≤ (gaze (begin (fresh zeroed) 128 64 100).1 demoGaze).eyeLyNext ∧
      (gaze (begin (fresh zeroed) 128 64 100).1 demoGaze).eyeLyNext ≤
        getScreenConstraint_Y (gaze (begin (fresh zeroed) 128 64 100).1 demoGaze)) :=
  have hf : ∀ op ∈ demoGaze, op.Fair := by
    intro op hop
    simp only [demoGaze, List.mem_cons, List.mem_singleton, List.mem_nil_iff, or_false] at hop
    rcases hop with rfl | rfl | rfl | rfl
    · trivial
    · exact uniform_zeroRng
    · trivial
    · exact uniform_zeroRng
  ⟨by decide, by decide, by decide, hf,
   C6_bound_respect zeroed 128 64 100 demoGaze (by decide) (by decide) (by decide) hf⟩

/-! ## C7: cold start -/

theorem begin_fields (u : roboEyes) (W H : Int) (frameRate : Fin 256) :
    (begin (fresh u) W H frameRate).1 =
      { fresh u with
        screenWidth := W
        screenHeight := H
        eyeLxDefault := Int.tdiv (W - 82) 2
        eyeLyDefault := Int.tdiv (H - 36) 2
        eyeRxDefault := Int.tdiv (W - 82) 2 + 46
        eyeRyDefault := Int.tdiv (H - 36) 2
        eyeLx := Int.tdiv (W - 82) 2
        eyeLy := Int.tdiv (H - 36) 2
        eyeLxNext := Int.tdiv (W - 82) 2
        eyeLyNext := Int.tdiv (H - 36) 2
        eyeRx := Int.tdiv (W - 82) 2 + 46
        eyeRy := Int.tdiv (H - 36) 2
        eyeRxNext := Int.tdiv (W - 82) 2 + 46
        eyeRyNext := Int.tdiv (H - 36) 2
        frameInterval := Int.tdiv 1000 (frameRate.val : Int) } := by
  simp only [begin, fresh, setFramerate]
  have e : W - (36 + 10 + 36) = W - 82 := by omega
  have e2 : ∀ x : Int, x + 36 + 10 = x + 46 := by intro x; omega
  simp only [e, e2]

theorem coldTick_fields (u : roboEyes) (W H : Int) (frameRate : Fin 256) (now : Int) (rnd : Rng) :
    (tick (begin (fresh u) W H frameRate).1 now rnd).1.eyeLheightCurrent = 18 ∧
    (tick (begin (fresh u) W H frameRate).1 now rnd).1.eyeRheightCurrent = 18 ∧
    (tick (begin (fresh u) W H frameRate).1 now rnd).1.eyeLheightDefault = 36 ∧
    (tick (begin (fresh u) W H frameRate).1 now rnd).1.eyeRheightDefault = 36 ∧
    (tick (begin (fresh u) W H frameRate).1 now rnd).1.eyeLwidthCurrent = 36 ∧
    (tick (begin (fresh u) W H frameRate).1 now rnd).1.eyeRwidthCurrent = 36 ∧
    (tick (begin (fresh u) W H frameRate).1 now rnd).1.spaceBetweenCurrent = 10 ∧
    (tick (begin (fresh u) W H frameRate).1 now rnd).1.eyeLx = Int.tdiv (W - 82) 2 ∧
    (tick (begin (fresh u) W H frameRate).1 now rnd).1.eyeRx = Int.tdiv (W - 82) 2 + 46 ∧
    (tick (begin (fresh u) W H frameRate).1 now rnd).1.cyclops = false := by
  rw [begin_fields]
  simp only [tick, drawEyes, sweatStep_fst_eq, moodStep_eq, animate, cyclopsStep_eq, vFlickerStep_eq, hFlickerStep_eq, idleStep_eq,
    confusedStep_eq, laughStep_eq, autoblinkStep_eq, interpolate, tweenStep, reopenStep_eq,
    heightStep, curiosityStep_eq, fresh]
  have e4 : ∀ x : Int, Int.tdiv (x + x) 2 = x := avg_self
  simp [e4]
  have h72 : Int.tdiv 72 2 = 36 := by decide
  have h20 : Int.tdiv 20 2 = 10 := by decide
  refine ⟨by decide, h72, h20, ?_⟩
  rw [h72, h20]
  have e : Int.tdiv (W - 82) 2 + 46 + (Int.tdiv (W - 82) 2 + 36 + 10) =
      (Int.tdiv (W - 82) 2 + 46) + (Int.tdiv (W - 82) 2 + 46) := by omega
  rw [e, avg_self]

/-- C7: on a fresh animator, `begin(W, H, fps)` (with `fps` not 0) followed by one tick that
passes the gate leaves both eye heights at 18, above 1 and at most the default 36, the
left eye at x `(W - (leftWidth + spacing + rightWidth)) / 2`, the right eye at x
`left x + leftWidth + spacing`, cyclops off, and both eye bodies are drawn with that
geometry. For `begin(128, 64, 100)` the left x is 23, the right x is 69, and the margins
left and right of the pair are both 23. -/
theorem C7_cold_start (u : roboEyes) (W H : Int) (frameRate : Fin 256) (now : Int) (rnd : Rng)
    (_hfps : 0 < frameRate.val) :
    ((tick (begin (fresh u) W H frameRate).1 now rnd).1.eyeLheightCurrent = 18 ∧
      1 < (tick (begin (fresh u) W H frameRate).1 now rnd).1.eyeLheightCurrent ∧
      (tick (begin (fresh u) W H frameRate).1 now rnd).1.eyeLheightCurrent ≤
        (tick (begin (fresh u) W H frameRate).1 now rnd).1.eyeLheightDefault) ∧
    ((tick (begin (fresh u) W H frameRate).1 now rnd).1.eyeRheightCurrent = 18 ∧
      1 < (tick (begin (fresh u) W H frameRate).1 now rnd).1.eyeRheightCurrent ∧
      (tick (begin (fresh u) W H frameRate).1 now rnd).1.eyeRheightCurrent ≤
        (tick (begin (fresh u) W H frameRate).1 now rnd).1.eyeRheightDefault) ∧
    (tick (begin (fresh u) W H frameRate).1 now rnd).1.eyeLx =
      Int.tdiv (W - ((tick (begin (fresh u) W H frameRate).1 now rnd).1.eyeLwidthCurrent
        + (tick (begin (fresh u) W H frameRate).1 now rnd).1.spaceBetweenCurrent
        + (tick (begin (fresh u) W H frameRate).1 now rnd).1.eyeRwidthCurrent)) 2 ∧
    (tick (begin (fresh u) W H frameRate).1 now rnd).1.eyeRx =
      (tick (begin (fresh u) W H frameRate).1 now rnd).1.eyeLx
        + (tick (begin (fresh u) W H frameRate).1 now rnd).1.eyeLwidthCurrent
        + (tick (begin (fresh u) W H frameRate).1 now rnd).1.spaceBetweenCurrent ∧
    (tick (begin (fresh u) W H frameRate).1 now rnd).1.cyclops = false ∧
    DrawCall.fillRoundRect (tick (begin (fresh u) W H frameRate).1 now rnd).1.eyeLx
        (tick (begin (fresh u) W H frameRate).1 now rnd).1.eyeLy 36 18
        (tick (begin (fresh u) W H frameRate).1 now rnd).1.eyeLborderRadiusCurrent
        (tick (begin (fresh u) W H frameRate).1 now rnd).1.MAINCOLOR
      ∈ (tick (begin (fresh u) W H frameRate).1 now rnd).2 ∧
    DrawCall.fillRoundRect (tick (begin (fresh u) W H frameRate).1 now rnd).1.eyeRx
        (tick (begin (fresh u) W H frameRate).1 now rnd).1.eyeRy 36 18
        (tick (begin (fresh u) W H frameRate).1 now rnd).1.eyeRborderRadiusCurrent
        (tick (begin (fresh u) W H frameRate).1 now rnd).1.MAINCOLOR
      ∈ (tick (begin (fresh u) W H frameRate).1 now rnd).2 ∧
    (W = 128 →
      (tick (begin (fresh u) W H frameRate).1 now rnd).1.eyeLx = 23 ∧
      (tick (begin (fresh u) W H frameRate).1 now rnd).1.eyeRx = 69 ∧
      W - ((tick (begin (fresh u) W H frameRate).1 now rnd).1.eyeRx
        + (tick (begin (fresh u) W H frameRate).1 now rnd).1.eyeRwidthCurrent) = 23) := by
  obtain ⟨a1, a2, a3, a4, a5, a6, a7, a8, a9, a10⟩ := coldTick_fields u W H frameRate now rnd
  have e : W - (36 + 10 + 36) = W - 82 := by omega
  refine ⟨⟨a1, by rw [a1]; decide, by rw [a1, a3]; decide⟩,
    ⟨a2, by rw [a2]; decide, by rw [a2, a4]; decide⟩,
    by rw [a8, a5, a6, a7, e], by rw [a9, a8, a5, a7]; omega, a10, ?_, ?_, ?_⟩
  · rw [tick_snd]
    simp [eyeBodies, a1, a5]
  · rw [tick_snd]
    simp [eyeBodies, a2, a6, a10]
  · intro hW
    subst hW
    have h23 : Int.tdiv (128 - 82) 2 = 23 := by decide
    rw [a8, a9, a6, h23]
    exact ⟨rfl, by decide, by decide⟩

/-- C7 for `begin(128, 64, 100)` on the animator of `main.cpp`, at clock value 10: height 18,
left x 23, right x 69, right margin 23. -/
theorem C7_cold_start_witness :
    0 < (100 : Fin 256).val ∧
    (tick (begin (fresh zeroed) 128 64 100).1 10 zeroRng).1.eyeLheightCurrent = 18 ∧
    (tick (begin (fresh zeroed) 128 64 100).1 10 zeroRng).1.eyeRheightCurrent = 18 ∧
    (tick (begin (fresh zeroed) 128 64 100).1 10 zeroRng).1.eyeLx = 23 ∧
    (tick (begin (fresh zeroed) 128 64 100).1 10 zeroRng).1.eyeRx = 69 ∧
    128 - ((tick (begin (fresh zeroed) 128 64 100).1 10 zeroRng).1.eyeRx
      + (tick (begin (fresh zeroed) 128 64 100).1 10 zeroRng).1.eyeRwidthCurrent) = 23 :=
  ⟨by decide,
   (C7_cold_start zeroed 128 64 100 10 zeroRng (by decide)).1.1,
   (C7_cold_start zeroed 128 64 100 10 zeroRng (by decide)).2.1.1,
   ((C7_cold_start zeroed 128 64 100 10 zeroRng (by decide)).2.2.2.2.2.2.2 rfl).1,
   ((C7_cold_start zeroed 128 64 100 10 zeroRng (by decide)).2.2.2.2.2.2.2 rfl).2.1,
   ((C7_cold_start zeroed 128 64 100 10 zeroRng (by decide)).2.2.2.2.2.2.2 rfl).2.2⟩

/-! ## The macro animations of a tick, over the interpolated state -/

theorem interpolate_frame (s : roboEyes) :
    (interpolate s).autoblinker = s.autoblinker ∧ (interpolate s).blinktimer = s.blinktimer ∧
    (interpolate s).blinkInterval = s.blinkInterval ∧
    (interpolate s).blinkIntervalVariation = s.blinkIntervalVariation ∧
    (interpolate s).eyeL_open = s.eyeL_open ∧ (interpolate s).eyeR_open = s.eyeR_open ∧
    (interpolate s).laugh = s.laugh ∧ (interpolate s).laughToggle = s.laughToggle ∧
    (interpolate s).laughAnimationTimer = s.laughAnimationTimer ∧
    (interpolate s).laughAnimationDuration = s.laughAnimationDuration ∧
    (interpolate s).vFlicker = s.vFlicker ∧ (interpolate s).vFlickerAlternate = s.vFlickerAlternate ∧
    (interpolate s).vFlickerAmplitude = s.vFlickerAmplitude ∧
    (interpolate s).cyclops = s.cyclops := by
  simp only [interpolate, tweenStep, reopenStep_eq, heightStep, curiosityStep_eq]
  simp

theorem ite_ite_cases (p q : Prop) [Decidable p] [Decidable q] (d n : Int) :
    (if p then (if q then d else n) else n) = n ∨ (if p then (if q then d else n) else n) = d := by
  by_cases hp : p <;> by_cases hq : q <;> simp [hp, hq]

theorem interpolate_heightNext (s : roboEyes) :
    ((interpolate s).eyeLheightNext = s.eyeLheightNext ∨
      (interpolate s).eyeLheightNext = s.eyeLheightDefault) ∧
    ((interpolate s).eyeRheightNext = s.eyeRheightNext ∨
      (interpolate s).eyeRheightNext = s.eyeRheightDefault) := by
  simp only [interpolate, tweenStep, reopenStep_eq, heightStep, curiosityStep_eq]
  exact ⟨ite_ite_cases _ _ _ _, ite_ite_cases _ _ _ _⟩

theorem tick_autoblink (s : roboEyes) (now : Int) (rnd : Rng) :
    (tick s now rnd).1.blinktimer =
      (if s.autoblinker then
        (if now ≥ s.blinktimer then
          toULong (now + s.blinkInterval * 1000 + rnd 0 s.blinkIntervalVariation * 1000)
         else s.blinktimer)
       else s.blinktimer) ∧
    (tick s now rnd).1.eyeL_open =
      (if s.autoblinker then (if now ≥ s.blinktimer then true else s.eyeL_open) else s.eyeL_open) ∧
    (tick s now rnd).1.eyeR_open =
      (if s.autoblinker then (if now ≥ s.blinktimer then true else s.eyeR_open) else s.eyeR_open) ∧
    (tick s now rnd).1.eyeLheightNext =
      (if s.autoblinker then (if now ≥ s.blinktimer then 1 else (interpolate s).eyeLheightNext)
       else (interpolate s).eyeLheightNext) ∧
    (tick s now rnd).1.eyeRheightNext =
      (if s.autoblinker then (if now ≥ s.blinktimer then 1 else (interpolate s).eyeRheightNext)
       else (interpolate s).eyeRheightNext) ∧
    (tick s now rnd).1.autoblinker = s.autoblinker ∧
    (tick s now rnd).1.blinkInterval = s.blinkInterval ∧
    (tick s now rnd).1.blinkIntervalVariation = s.blinkIntervalVariation := by
  obtain ⟨a1, a2, a3, a4, a5, a6, _⟩ := interpolate_frame s
  simp only [tick, drawEyes, sweatStep_fst_eq, moodStep_eq, animate, cyclopsStep_eq, vFlickerStep_eq, hFlickerStep_eq, idleStep_eq,
    confusedStep_eq, laughStep_eq, autoblinkStep_eq, a1, a2, a3, a4, a5, a6]
  simp

theorem tick_laugh (s : roboEyes) (now : Int) (rnd : Rng) :
    (tick s now rnd).1.vFlicker =
      (if s.laugh then
        (if s.laughToggle then true
         else if now ≥ toULong (s.laughAnimationTimer + s.laughAnimationDuration) then false
         else s.vFlicker)
       else s.vFlicker) ∧
    (tick s now rnd).1.vFlickerAmplitude =
      (if s.laugh then
        (if s.laughToggle then 5
         else if now ≥ toULong (s.laughAnimationTimer + s.laughAnimationDuration) then 0
         else s.vFlickerAmplitude)
       else s.vFlickerAmplitude) ∧
    (tick s now rnd).1.laughAnimationTimer =
      (if s.laugh then (if s.laughToggle then now else s.laughAnimationTimer)
       else s.laughAnimationTimer) ∧
    (tick s now rnd).1.laughToggle =
      (if s.laugh then
        (if s.laughToggle then false
         else if now ≥ toULong (s.laughAnimationTimer + s.laughAnimationDuration) then true
         else s.laughToggle)
       else s.laughToggle) ∧
    (tick s now rnd).1.laugh =
      (if s.laugh then
        (if s.laughToggle then s.laugh
         else if now ≥ toULong (s.laughAnimationTimer + s.laughAnimationDuration) then false
         else s.laugh)
       else s.laugh) ∧
    (tick s now rnd).1.laughAnimationDuration = s.laughAnimationDuration := by
  obtain ⟨_, _, _, _, _, _, a7, a8, a9, a10, a11, a12, a13, _⟩ := interpolate_frame s
  simp only [tick, drawEyes, sweatStep_fst_eq, moodStep_eq, animate, cyclopsStep_eq, vFlickerStep_eq, hFlickerStep_eq, idleStep_eq,
    confusedStep_eq, laughStep_eq, autoblinkStep_eq, a7, a8, a9, a10, a11, a12, a13]
  simp

theorem tick_vFlicker (s : roboEyes) (now : Int) (rnd : Rng) :
    (tick s now rnd).1.eyeLy =
      (if (tick s now rnd).1.vFlicker then
        (if s.vFlickerAlternate then (interpolate s).eyeLy + (tick s now rnd).1.vFlickerAmplitude
         else (interpolate s).eyeLy - (tick s now rnd).1.vFlickerAmplitude)
       else (interpolate s).eyeLy) ∧
    (tick s now rnd).1.eyeRy =
      (if (tick s now rnd).1.vFlicker then
        (if s.vFlickerAlternate then (interpolate s).eyeRy + (tick s now rnd).1.vFlickerAmplitude
         else (interpolate s).eyeRy - (tick s now rnd).1.vFlickerAmplitude)
       else (interpolate s).eyeRy) ∧
    (tick s now rnd).1.vFlickerAlternate =
      (if (tick s now rnd).1.vFlicker then !s.vFlickerAlternate else s.vFlickerAlternate) := by
  obtain ⟨_, _, _, _, _, _, a7, a8, a9, a10, a11, a12, a13, _⟩ := interpolate_frame s
  simp only [tick, drawEyes, sweatStep_fst_eq, moodStep_eq, animate, cyclopsStep_eq, vFlickerStep_eq, hFlickerStep_eq, idleStep_eq,
    confusedStep_eq, laughStep_eq, autoblinkStep_eq, a7, a8, a9, a10, a11, a12, a13]
  simp

theorem toULong_of_range (x : Int) (h0 : 0 ≤ x) (h1 : x < 4294967296) : toULong x = x := by
  unfold toULong; omega

theorem tick_noBlink (s : roboEyes) (now : Int) (rnd : Rng)
    (h : s.autoblinker = false ∨ now < s.blinktimer) :
    (tick s now rnd).1.blinktimer = s.blinktimer ∧
    (tick s now rnd).1.eyeL_open = s.eyeL_open ∧ (tick s now rnd).1.eyeR_open = s.eyeR_open ∧
    (tick s now rnd).1.eyeLheightNext = (interpolate s).eyeLheightNext ∧
    (tick s now rnd).1.eyeRheightNext = (interpolate s).eyeRheightNext := by
  obtain ⟨a1, a2, a3, a4, a5, _⟩ := tick_autoblink s now rnd
  rw [a1, a2, a3, a4, a5]
  rcases h with h | h
  · simp [h]
  · have h' : ¬ now ≥ s.blinktimer := by omega
    simp [h']

/-! ## C8: the auto blinker and its timer -/

set_option maxRecDepth 100000 in
/-- C8, as stated, fails: the cold-start animator, ticked ten times, has its eyes open with
next height 36 and `blinktimer` 0; `setAutoblinker(true, 2, 0)`, called at clock value 5000,
leaves `blinktimer` at 0, and the tick at clock value 5020, which is before 5000 + 2000,
sets both next heights to 1. -/
theorem C8_first_tick_blinks :
    (run coldStart (pacedFrom 0) 10).eyeLheightNext = 36 ∧
    (setAutoblinker (run coldStart (pacedFrom 0) 10) true 2 0).blinktimer = 0 ∧
    (5020 : Int) < 5000 + 2000 ∧
    (tick (setAutoblinker (run coldStart (pacedFrom 0) 10) true 2 0) 5020 zeroRng).1.eyeLheightNext = 1 ∧
    (tick (setAutoblinker (run coldStart (pacedFrom 0) 10) true 2 0) 5020 zeroRng).1.eyeRheightNext = 1 := by
  decide

/-- C8, amended: `setAutoblinker` leaves `blinktimer` as it was, so the call does not delay the
first blink; a tick with the auto blinker off or with `now < blinktimer` starts no blink:
`blinktimer` and the two open flags are unchanged and each next height is the one the
reopen rule left, which is the old next height or the default height; and after a blink
fired at `now` with interval 2, variation 0 (random draw 0) and `now + 2000 < 2^32`, no tick
at a clock value below `now + 2000` starts a blink. -/
theorem C8_autoblink_not_early (s : roboEyes) (now : Int) (rnd : Rng) :
    (∀ (active : Bool) (interval variation : Int),
      (setAutoblinker s active interval variation).blinktimer = s.blinktimer) ∧
    (s.autoblinker = false ∨ now < s.blinktimer →
      (tick s now rnd).1.blinktimer = s.blinktimer ∧
      (tick s now rnd).1.eyeL_open = s.eyeL_open ∧ (tick s now rnd).1.eyeR_open = s.eyeR_open ∧
      (tick s now rnd).1.eyeLheightNext = (interpolate s).eyeLheightNext ∧
      (tick s now rnd).1.eyeRheightNext = (interpolate s).eyeRheightNext) ∧
    (((interpolate s).eyeLheightNext = s.eyeLheightNext ∨
        (interpolate s).eyeLheightNext = s.eyeLheightDefault) ∧
      ((interpolate s).eyeRheightNext = s.eyeRheightNext ∨
        (interpolate s).eyeRheightNext = s.eyeRheightDefault)) ∧
    (s.autoblinker = true → s.blinktimer ≤ now → s.blinkInterval = 2 →
      s.blinkIntervalVariation = 0 → rnd 0 0 = 0 → 0 ≤ now → now + 2000 < 4294967296 →
      ∀ (later : Int) (rnd2 : Rng), later < now + 2000 →
        (tick (tick s now rnd).1 later rnd2).1.blinktimer = now + 2000 ∧
        (tick (tick s now rnd).1 later rnd2).1.eyeL_open = (tick s now rnd).1.eyeL_open ∧
        (tick (tick s now rnd).1 later rnd2).1.eyeR_open = (tick s now rnd).1.eyeR_open ∧
        (tick (tick s now rnd).1 later rnd2).1.eyeLheightNext =
          (interpolate (tick s now rnd).1).eyeLheightNext ∧
        (tick (tick s now rnd).1 later rnd2).1.eyeRheightNext =
          (interpolate (tick s now rnd).1).eyeRheightNext) := by
  refine ⟨fun _ _ _ => rfl, tick_noBlink s now rnd, interpolate_heightNext s, ?_⟩
  intro hab hdue hint hvar hr h0 h1 later rnd2 hlater
  obtain ⟨a1, _, _, _, _, _, _, _⟩ := tick_autoblink s now rnd
  have hge : now ≥ s.blinktimer := hdue
  rw [hab, hint, hvar, hr] at a1
  simp only [if_true, if_pos hge] at a1
  rw [toULong_of_range _ (by omega) (by omega)] at a1
  have a1' : (tick s now rnd).1.blinktimer = now + 2000 := by rw [a1]; omega
  have := tick_noBlink (tick s now rnd).1 later rnd2 (Or.inr (by rw [a1']; exact hlater))
  rw [a1'] at this
  exact this

/-- C8, amended, on the animator of `main.cpp` with `setAutoblinker(true, 2, 0)`: the blink of
the tick at 5020 schedules the next one for 7020, and a tick at 7019 starts none. -/
theorem C8_autoblink_not_early_witness :
    (setAutoblinker coldStart true 2 0).autoblinker = true ∧
    (setAutoblinker coldStart true 2 0).blinktimer ≤ 5020 ∧
    (tick (tick (setAutoblinker coldStart true 2 0) 5020 zeroRng).1 7019 zeroRng).1.blinktimer
      = 5020 + 2000 :=
  ⟨by decide, by decide,
   ((C8_autoblink_not_early (setAutoblinker coldStart true 2 0) 5020 zeroRng).2.2.2
      (by decide) (by decide) (by decide) (by decide) (by decide) (by decide) (by decide)
      7019 zeroRng (by decide)).1⟩

/-! ## C9: the auto blinker fires and reschedules -/

/-- C9, as stated, fails when the timer wraps: with the auto blinker on, interval 2,
variation 0 and `blinktimer = 0`, the tick at clock value 4294967295 blinks and stores
1999 in `blinktimer`, not 4294967295 + 2 * 1000 + 0 * 1000, so the next blink is due at
once and not 2000 ms later. -/
theorem C9_timer_wraps :
    (setAutoblinker coldStart true 2 0).autoblinker = true ∧
    (setAutoblinker coldStart true 2 0).blinktimer ≤ 4294967295 ∧
    zeroRng 0 0 = 0 ∧
    (tick (setAutoblinker coldStart true 2 0) 4294967295 zeroRng).1.blinktimer = 1999 ∧
    (tick (setAutoblinker coldStart true 2 0) 4294967295 zeroRng).1.blinktimer
      ≠ 4294967295 + 2 * 1000 + zeroRng 0 0 * 1000 := by
  decide

/-- C9, amended: a tick with the auto blinker on and `now >= blinktimer` ends with both next
heights 1 and both open flags set, and with `blinktimer` the `unsigned long` value of
`now + interval * 1000 + r * 1000`, that is the sum modulo `2^32`, where `r` is the random
draw; the sum itself when it is not negative and below `2^32`, so `now + 2000` for interval
2 and variation 0. A uniform source gives `0 <= r < variation` for a positive variation
and `r = 0` for variation 0. A tick with the auto blinker off or `now < blinktimer` leaves
`blinktimer` and the open flags unchanged and starts no blink. -/
theorem C9_autoblink_fires (s : roboEyes) (now : Int) (rnd : Rng) :
    (s.autoblinker = true → s.blinktimer ≤ now →
      ((tick s now rnd).1.eyeLheightNext = 1 ∧ (tick s now rnd).1.eyeRheightNext = 1 ∧
        (tick s now rnd).1.eyeL_open = true ∧ (tick s now rnd).1.eyeR_open = true) ∧
      (tick s now rnd).1.blinktimer =
        (now + s.blinkInterval * 1000 + rnd 0 s.blinkIntervalVariation * 1000) % 4294967296 ∧
      (0 ≤ now + s.blinkInterval * 1000 + rnd 0 s.blinkIntervalVariation * 1000 →
        now + s.blinkInterval * 1000 + rnd 0 s.blinkIntervalVariation * 1000 < 4294967296 →
        (tick s now rnd).1.blinktimer =
          now + s.blinkInterval * 1000 + rnd 0 s.blinkIntervalVariation * 1000) ∧
      (Uniform rnd → s.blinkInterval = 2 → s.blinkIntervalVariation = 0 → 0 ≤ now →
        now + 2000 < 4294967296 → (tick s now rnd).1.blinktimer = now + 2000)) ∧
    (Uniform rnd →
      (0 < s.blinkIntervalVariation →
        0 ≤ rnd 0 s.blinkIntervalVariation ∧ rnd 0 s.blinkIntervalVariation < s.blinkIntervalVariation) ∧
      (s.blinkIntervalVariation = 0 → rnd 0 s.blinkIntervalVariation = 0)) ∧
    (s.autoblinker = false ∨ now < s.blinktimer →
      (tick s now rnd).1.blinktimer = s.blinktimer ∧
      (tick s now rnd).1.eyeL_open = s.eyeL_open ∧ (tick s now rnd).1.eyeR_open = s.eyeR_open ∧
      (tick s now rnd).1.eyeLheightNext = (interpolate s).eyeLheightNext ∧
      (tick s now rnd).1.eyeRheightNext = (interpolate s).eyeRheightNext) := by
  refine ⟨?_, ?_, tick_noBlink s now rnd⟩
  · intro hab hdue
    have hge : now ≥ s.blinktimer := hdue
    obtain ⟨a1, a2, a3, a4, a5, _⟩ := tick_autoblink s now rnd
    rw [hab] at a1 a2 a3 a4 a5
    simp only [if_true, if_pos hge] at a1 a2 a3 a4 a5
    refine ⟨⟨a4, a5, a2, a3⟩, a1, ?_, ?_⟩
    · intro h0 h1
      rw [a1, toULong_of_range _ h0 h1]
    · intro hu hint hvar h0 h1
      rw [a1, hint, hvar, (hu 0 0).2, toULong_of_range _ (by omega) (by omega)]
      omega
  · intro hu
    refine ⟨fun h => (hu 0 _).1 h, ?_⟩
    intro h
    rw [h]
    exact (hu 0 0).2

/-- C9, amended, on the animator of `main.cpp` with `setAutoblinker(true, 2, 0)` at clock
value 5020: the blink is started and the next one is scheduled for 7020. -/
theorem C9_autoblink_fires_witness :
    (setAutoblinker coldStart true 2 0).autoblinker = true ∧
    (setAutoblinker coldStart true 2 0).blinktimer ≤ 5020 ∧
    (tick (setAutoblinker coldStart true 2 0) 5020 zeroRng).1.eyeLheightNext = 1 ∧
    (tick (setAutoblinker coldStart true 2 0) 5020 zeroRng).1.blinktimer = 5020 + 2000 :=
  ⟨by decide, by decide,
   ((C9_autoblink_fires (setAutoblinker coldStart true 2 0) 5020 zeroRng).1
      (by decide) (by decide)).1.1,
   ((C9_autoblink_fires (setAutoblinker coldStart true 2 0) 5020 zeroRng).1
      (by decide) (by decide)).2.2.2 uniform_zeroRng (by decide) (by decide) (by decide)
      (by decide)⟩

/-! ## C10: the laugh one-shot starts -/

/-- C10: after `anim_laugh()` on a state whose `laughToggle` is armed, the first tick, at
clock value `now`, enables the vertical flicker with amplitude 5, records
`laughAnimationTimer = now`, disarms `laughToggle`, keeps the laugh flag set, and in that
same tick moves both eyes' y by 5 away from the interpolated y, up or down with
`vFlickerAlternate`, which it flips; the left eye's body is drawn at that displaced y, and
so is the right eye's when cyclops is off. -/
theorem C10_laugh_activation (s : roboEyes) (now : Int) (rnd : Rng)
    (harmed : s.laughToggle = true) :
    ((tick (anim_laugh s) now rnd).1.vFlicker = true ∧
      (tick (anim_laugh s) now rnd).1.vFlickerAmplitude = 5 ∧
      (tick (anim_laugh s) now rnd).1.laughAnimationTimer = now ∧
      (tick (anim_laugh s) now rnd).1.laughToggle = false ∧
      (tick (anim_laugh s) now rnd).1.laugh = true) ∧
    ((tick (anim_laugh s) now rnd).1.eyeLy =
        (interpolate (anim_laugh s)).eyeLy + (if s.vFlickerAlternate then 5 else -5) ∧
      (tick (anim_laugh s) now rnd).1.eyeRy =
        (interpolate (anim_laugh s)).eyeRy + (if s.vFlickerAlternate then 5 else -5) ∧
      (tick (anim_laugh s) now rnd).1.vFlickerAlternate = !s.vFlickerAlternate) ∧
    (|(tick (anim_laugh s) now rnd).1.eyeLy - (interpolate (anim_laugh s)).eyeLy| = 5 ∧
      |(tick (anim_laugh s) now rnd).1.eyeRy - (interpolate (anim_laugh s)).eyeRy| = 5) ∧
    (DrawCall.fillRoundRect (tick (anim_laugh s) now rnd).1.eyeLx
        (tick (anim_laugh s) now rnd).1.eyeLy
        (tick (anim_laugh s) now rnd).1.eyeLwidthCurrent
        (tick (anim_laugh s) now rnd).1.eyeLheightCurrent
        (tick (anim_laugh s) now rnd).1.eyeLborderRadiusCurrent
        (tick (anim_laugh s) now rnd).1.MAINCOLOR
      ∈ (tick (anim_laugh s) now rnd).2) ∧
    (s.cyclops = false →
      DrawCall.fillRoundRect (tick (anim_laugh s) now rnd).1.eyeRx
        (tick (anim_laugh s) now rnd).1.eyeRy
        (tick (anim_laugh s) now rnd).1.eyeRwidthCurrent
        (tick (anim_laugh s) now rnd).1.eyeRheightCurrent
        (tick (anim_laugh s) now rnd).1.eyeRborderRadiusCurrent
        (tick (anim_laugh s) now rnd).1.MAINCOLOR
      ∈ (tick (anim_laugh s) now rnd).2) := by
  have hl : (anim_laugh s).laugh = true := rfl
  have ht : (anim_laugh s).laughToggle = true := harmed
  have hv : (anim_laugh s).vFlickerAlternate = s.vFlickerAlternate := rfl
  obtain ⟨a1, a2, a3, a4, a5, _⟩ := tick_laugh (anim_laugh s) now rnd
  obtain ⟨b1, b2, b3⟩ := tick_vFlicker (anim_laugh s) now rnd
  rw [hl, ht] at a1 a2 a3 a4 a5
  simp only [if_true] at a1 a2 a3 a4 a5
  simp only [a1, a2, hv, if_true] at b1 b2 b3
  have c1 : (tick (anim_laugh s) now rnd).1.eyeLy =
      (interpolate (anim_laugh s)).eyeLy + (if s.vFlickerAlternate then 5 else -5) := by
    rw [b1]; split <;> omega
  have c2 : (tick (anim_laugh s) now rnd).1.eyeRy =
      (interpolate (anim_laugh s)).eyeRy + (if s.vFlickerAlternate then 5 else -5) := by
    rw [b2]; split <;> omega
  refine ⟨⟨a1, a2, a3, a4, a5⟩, ⟨c1, c2, b3⟩, ⟨?_, ?_⟩, ?_, ?_⟩
  · rw [c1]; split <;> simp
  · rw [c2]; split <;> simp
  · rw [tick_snd]
    simp [eyeBodies]
  · intro hcy
    have hc : (tick (anim_laugh s) now rnd).1.cyclops = false := by
      rw [tick_cyclops]; exact hcy
    rw [tick_snd]
    simp [eyeBodies, hc]

/-- C10 on the animator of `main.cpp`: `anim_laugh()` and the tick at clock value 5020. -/
theorem C10_laugh_activation_witness :
    coldStart.laughToggle = true ∧
    (tick (anim_laugh coldStart) 5020 zeroRng).1.vFlicker = true ∧
    (tick (anim_laugh coldStart) 5020 zeroRng).1.vFlickerAmplitude = 5 ∧
    (tick (anim_laugh coldStart) 5020 zeroRng).1.laughAnimationTimer = 5020 ∧
    (tick (anim_laugh coldStart) 5020 zeroRng).1.laughToggle = false ∧
    (tick (anim_laugh coldStart) 5020 zeroRng).1.laugh = true :=
  ⟨by decide, (C10_laugh_activation coldStart 5020 zeroRng (by decide)).1⟩

/-! ## C11: the laugh one-shot ends -/

set_option maxRecDepth 100000 in
/-- C11: the code ends a running laugh before its duration when start plus duration passes
`2^32`. On the animator of `main.cpp`, `anim_laugh()` and the tick at clock value 4294967000
start the laugh (flag set, toggle disarmed, start time 4294967000, duration 500, vertical
flicker on); the tick at 4294967010, 10 ms later and before 4294967000 + 500, already ends
it: vertical flicker off, laugh flag cleared, toggle re-armed. The source compares
`millis()` with the `unsigned long` sum, which has wrapped to 204. -/
theorem C11_laugh_ends_early :
    (tick (anim_laugh coldStart) 4294967000 zeroRng).1.laugh = true ∧
    (tick (anim_laugh coldStart) 4294967000 zeroRng).1.laughToggle = false ∧
    (tick (anim_laugh coldStart) 4294967000 zeroRng).1.laughAnimationTimer = 4294967000 ∧
    (tick (anim_laugh coldStart) 4294967000 zeroRng).1.laughAnimationDuration = 500 ∧
    (tick (anim_laugh coldStart) 4294967000 zeroRng).1.vFlicker = true ∧
    (4294967010 : Int) < 4294967000 + 500 ∧
    (tick (tick (anim_laugh coldStart) 4294967000 zeroRng).1 4294967010 zeroRng).1.laugh = false ∧
    (tick (tick (anim_laugh coldStart) 4294967000 zeroRng).1 4294967010 zeroRng).1.laughToggle = true ∧
    (tick (tick (anim_laugh coldStart) 4294967000 zeroRng).1 4294967010 zeroRng).1.vFlicker = false := by
  decide

/-- What a tick does to a running laugh (laugh set, `laughToggle` disarmed, start time `s`,
duration `d`): with `e` the `unsigned long` value of `s + d`, that is `(s + d) mod 2^32`, a
tick with `now >= e` disables the vertical flicker (amplitude 0), clears the laugh flag
and re-arms `laughToggle`, and a tick with `now < e` leaves the laugh flag, the toggle, the
start time and the vertical flicker's enabled flag and amplitude unchanged. Whenever
`s + d` is not negative and below `2^32`, `e` is `s + d` itself, and the laugh ends exactly
at the duration. -/
theorem tick_laughCompletion (s : roboEyes) (now : Int) (rnd : Rng)
    (hl : s.laugh = true) (ht : s.laughToggle = false) :
    ((s.laughAnimationTimer + s.laughAnimationDuration) % 4294967296 ≤ now →
      (tick s now rnd).1.vFlicker = false ∧ (tick s now rnd).1.vFlickerAmplitude = 0 ∧
      (tick s now rnd).1.laugh = false ∧ (tick s now rnd).1.laughToggle = true) ∧
    (now < (s.laughAnimationTimer + s.laughAnimationDuration) % 4294967296 →
      (tick s now rnd).1.laugh = true ∧ (tick s now rnd).1.laughToggle = false ∧
      (tick s now rnd).1.laughAnimationTimer = s.laughAnimationTimer ∧
      (tick s now rnd).1.vFlicker = s.vFlicker ∧
      (tick s now rnd).1.vFlickerAmplitude = s.vFlickerAmplitude) ∧
    (0 ≤ s.laughAnimationTimer + s.laughAnimationDuration →
      s.laughAnimationTimer + s.laughAnimationDuration < 4294967296 →
      (s.laughAnimationTimer + s.laughAnimationDuration ≤ now →
        (tick s now rnd).1.vFlicker = false ∧ (tick s now rnd).1.vFlickerAmplitude = 0 ∧
        (tick s now rnd).1.laugh = false ∧ (tick s now rnd).1.laughToggle = true) ∧
      (now < s.laughAnimationTimer + s.laughAnimationDuration →
        (tick s now rnd).1.laugh = true ∧ (tick s now rnd).1.laughToggle = false ∧
        (tick s now rnd).1.laughAnimationTimer = s.laughAnimationTimer ∧
        (tick s now rnd).1.vFlicker = s.vFlicker ∧
        (tick s now rnd).1.vFlickerAmplitude = s.vFlickerAmplitude)) := by
  obtain ⟨a1, a2, a3, a4, a5, _⟩ := tick_laugh s now rnd
  rw [hl, ht] at a1 a2 a3 a4 a5
  simp only [if_true, Bool.false_eq_true, if_false] at a1 a2 a3 a4 a5
  have hdone : (s.laughAnimationTimer + s.laughAnimationDuration) % 4294967296 ≤ now →
      (tick s now rnd).1.vFlicker = false ∧ (tick s now rnd).1.vFlickerAmplitude = 0 ∧
      (tick s now rnd).1.laugh = false ∧ (tick s now rnd).1.laughToggle = true := by
    intro h
    have h' : now ≥ toULong (s.laughAnimationTimer + s.laughAnimationDuration) := h
    rw [if_pos h'] at a1 a2 a4 a5
    exact ⟨a1, a2, a5, a4⟩
  have hrun : now < (s.laughAnimationTimer + s.laughAnimationDuration) % 4294967296 →
      (tick s now rnd).1.laugh = true ∧ (tick s now rnd).1.laughToggle = false ∧
      (tick s now rnd).1.laughAnimationTimer = s.laughAnimationTimer ∧
      (tick s now rnd).1.vFlicker = s.vFlicker ∧
      (tick s now rnd).1.vFlickerAmplitude = s.vFlickerAmplitude := by
    intro h
    have h' : ¬ now ≥ toULong (s.laughAnimationTimer + s.laughAnimationDuration) := by
      unfold toULong; omega
    rw [if_neg h'] at a1 a2 a4 a5
    exact ⟨a5, a4, a3, a1, a2⟩
  refine ⟨hdone, hrun, ?_⟩
  intro h0 h1
  have e : (s.laughAnimationTimer + s.laughAnimationDuration) % 4294967296 =
      s.laughAnimationTimer + s.laughAnimationDuration := by omega
  rw [e] at hdone hrun
  exact ⟨hdone, hrun⟩

/-- The laugh started at clock value 5020 on the animator of `main.cpp` is still running at
5519 and ends at 5520. -/
theorem tick_laughCompletion_example :
    (tick (anim_laugh coldStart) 5020 zeroRng).1.laugh = true ∧
    (tick (anim_laugh coldStart) 5020 zeroRng).1.laughToggle = false ∧
    (tick (tick (anim_laugh coldStart) 5020 zeroRng).1 5519 zeroRng).1.laugh = true ∧
    (tick (tick (anim_laugh coldStart) 5020 zeroRng).1 5520 zeroRng).1.laugh = false :=
  ⟨by decide, by decide,
   ((tick_laughCompletion (tick (anim_laugh coldStart) 5020 zeroRng).1 5519 zeroRng
      (by decide) (by decide)).2.2 (by decide) (by decide)).2 (by decide) |>.1,
   ((tick_laughCompletion (tick (anim_laugh coldStart) 5020 zeroRng).1 5520 zeroRng
      (by decide) (by decide)).2.2 (by decide) (by decide)).1 (by decide) |>.2.2.1⟩

/-! ## C12: triggering a running one-shot again -/

/-- C12: `anim_laugh()` on a state whose laugh flag is already set returns the very same
state, start time and toggle included, so the next tick, and with it the completion time,
is the same as without the call; likewise `anim_confused()` when the confused flag is
set. -/
theorem C12_retrigger_noop (s : roboEyes) (now : Int) (rnd : Rng) :
    (s.laugh = true →
      anim_laugh s = s ∧
      (anim_laugh s).laughAnimationTimer = s.laughAnimationTimer ∧
      (anim_laugh s).laughToggle = s.laughToggle ∧
      tick (anim_laugh s) now rnd = tick s now rnd) ∧
    (s.confused = true →
      anim_confused s = s ∧
      (anim_confused s).confusedAnimationTimer = s.confusedAnimationTimer ∧
      (anim_confused s).confusedToggle = s.confusedToggle ∧
      tick (anim_confused s) now rnd = tick s now rnd) := by
  constructor
  · intro h
    have e : anim_laugh s = s := by
      cases s
      simp only [anim_laugh] at h ⊢
      simp only [h]
    exact ⟨e, rfl, rfl, by rw [e]⟩
  · intro h
    have e : anim_confused s = s := by
      cases s
      simp only [anim_confused] at h ⊢
      simp only [h]
    exact ⟨e, rfl, rfl, by rw [e]⟩

/-- C12 on the running laugh of the animator of `main.cpp`, started at clock value 5020. -/
theorem C12_retrigger_noop_witness :
    (tick (anim_laugh coldStart) 5020 zeroRng).1.laugh = true ∧
    anim_laugh (tick (anim_laugh coldStart) 5020 zeroRng).1 =
      (tick (anim_laugh coldStart) 5020 zeroRng).1 :=
  ⟨by decide,
   ((C12_retrigger_noop (tick (anim_laugh coldStart) 5020 zeroRng).1 5100 zeroRng).1
      (by decide)).1⟩

/-! ## C13: the frame-rate gate -/

theorem tick_frameInterval (s : roboEyes) (now : Int) (rnd : Rng) :
    (tick s now rnd).1.frameInterval = s.frameInterval := by
  simp only [tick, drawEyes, sweatStep_fst_eq, moodStep_eq, animate, cyclopsStep_eq, vFlickerStep_eq, hFlickerStep_eq, idleStep_eq,
    confusedStep_eq, laughStep_eq, autoblinkStep_eq, interpolate, tweenStep, reopenStep_eq,
    heightStep, curiosityStep_eq]

theorem tick_presents (s : roboEyes) (now : Int) (rnd : Rng) :
    DrawCall.display ∈ (tick s now rnd).2 := by
  rw [tick_snd]
  simp

theorem update_of_gate (s : roboEyes) (now : Int) (rnd : Rng)
    (h : (now - s.fpsTimer) % 4294967296 ≥ s.frameInterval % 4294967296) :
    update s now rnd = tick s now rnd := by
  unfold update
  have h' : toULong (now - s.fpsTimer) ≥ toULong s.frameInterval := h
  rw [if_pos h']

theorem update_of_not_gate (s : roboEyes) (now : Int) (rnd : Rng)
    (h : (now - s.fpsTimer) % 4294967296 < s.frameInterval % 4294967296) :
    update s now rnd = (s, []) := by
  unfold update
  have h' : ¬ toULong (now - s.fpsTimer) ≥ toULong s.frameInterval := by
    unfold toULong; omega
  rw [if_neg h']

theorem update_presents_iff (s : roboEyes) (now : Int) (rnd : Rng) :
    DrawCall.display ∈ (update s now rnd).2 ↔
      (now - s.fpsTimer) % 4294967296 ≥ s.frameInterval % 4294967296 := by
  constructor
  · intro h
    by_contra hn
    rw [update_of_not_gate s now rnd (by omega)] at h
    simp at h
  · intro h
    rw [update_of_gate s now rnd h]
    exact tick_presents s now rnd

/-- C13: `update()` runs the update-and-render pass exactly when `now - fpsTimer >=
frameInterval`, the comparison being the source's, in `unsigned long` arithmetic: the
difference and the interval are taken modulo `2^32`. When the pass runs, `update()` is the
tick, `fpsTimer` becomes `now` and the frame is presented; when it does not, the state is
unchanged and no display call is issued. For an interval that is not negative and clock
values that have not wrapped since the last frame this is the comparison of the plain
integers, and across a wrap of the clock it still compares the elapsed time. After
`setFramerate(50)` the interval is 20, and an `update()` 5 ms after one that rendered leaves
the state unchanged and issues no display call. -/
theorem C13_frame_gate (s : roboEyes) (now : Int) (rnd : Rng) :
    (DrawCall.display ∈ (update s now rnd).2 ↔
      (now - s.fpsTimer) % 4294967296 ≥ s.frameInterval % 4294967296) ∧
    ((now - s.fpsTimer) % 4294967296 ≥ s.frameInterval % 4294967296 →
      update s now rnd = tick s now rnd ∧ (update s now rnd).1.fpsTimer = now) ∧
    ((now - s.fpsTimer) % 4294967296 < s.frameInterval % 4294967296 →
      update s now rnd = (s, [])) ∧
    (isULong s.fpsTimer → isULong now → s.fpsTimer ≤ now →
      0 ≤ s.frameInterval → s.frameInterval < 4294967296 →
      (DrawCall.display ∈ (update s now rnd).2 ↔ now - s.fpsTimer ≥ s.frameInterval) ∧
      (now - s.fpsTimer ≥ s.frameInterval →
        update s now rnd = tick s now rnd ∧ (update s now rnd).1.fpsTimer = now) ∧
      (now - s.fpsTimer < s.frameInterval → update s now rnd = (s, []))) ∧
    (∀ last elapsed : Int, 0 ≤ last → 0 ≤ elapsed → elapsed < 4294967296 →
      s.fpsTimer = last % 4294967296 → now = (last + elapsed) % 4294967296 →
      0 ≤ s.frameInterval → s.frameInterval < 4294967296 →
      (DrawCall.display ∈ (update s now rnd).2 ↔ elapsed ≥ s.frameInterval)) ∧
    (setFramerate s 50).frameInterval = 20 ∧
    (∀ (later : Int) (rnd2 : Rng),
      DrawCall.display ∈ (update (setFramerate s 50) now rnd).2 →
      (later - now) % 4294967296 = 5 →
      update (update (setFramerate s 50) now rnd).1 later rnd2 =
        ((update (setFramerate s 50) now rnd).1, [])) := by
  have hrun : (now - s.fpsTimer) % 4294967296 ≥ s.frameInterval % 4294967296 →
      update s now rnd = tick s now rnd ∧ (update s now rnd).1.fpsTimer = now := by
    intro h
    rw [update_of_gate s now rnd h]
    exact ⟨rfl, rfl⟩
  refine ⟨update_presents_iff s now rnd, hrun, update_of_not_gate s now rnd, ?_, ?_, rfl, ?_⟩
  · intro hf hn hle hi0 hi1
    obtain ⟨hf0, hf1⟩ := hf
    obtain ⟨hn0, hn1⟩ := hn
    have e1 : (now - s.fpsTimer) % 4294967296 = now - s.fpsTimer := by omega
    have e2 : s.frameInterval % 4294967296 = s.frameInterval := by omega
    refine ⟨?_, ?_, ?_⟩
    · rw [update_presents_iff, e1, e2]
    · intro h; exact hrun (by omega)
    · intro h; exact update_of_not_gate s now rnd (by omega)
  · intro last elapsed h0 h1 h2 hf hn hi0 hi1
    rw [update_presents_iff, hf, hn]
    have e2 : s.frameInterval % 4294967296 = s.frameInterval := by omega
    have e1 : ((last + elapsed) % 4294967296 - last % 4294967296) % 4294967296 = elapsed := by
      omega
    rw [e1, e2]
  · intro later rnd2 hfirst hgap
    have hg := (update_presents_iff (setFramerate s 50) now rnd).1 hfirst
    have e : update (setFramerate s 50) now rnd = tick (setFramerate s 50) now rnd :=
      update_of_gate _ now rnd hg
    apply update_of_not_gate
    rw [e]
    have h1 : (tick (setFramerate s 50) now rnd).1.fpsTimer = now := rfl
    have h2 : (tick (setFramerate s 50) now rnd).1.frameInterval = 20 := by
      rw [tick_frameInterval]; rfl
    rw [h1, h2, hgap]
    decide

/-- C13 on the animator of `main.cpp` set to 50 frames per second: the `update()` at clock value
20 renders, the one at 25 changes nothing and draws nothing. -/
theorem C13_frame_gate_witness :
    DrawCall.display ∈ (update (setFramerate coldStart 50) 20 zeroRng).2 ∧
    ((25 : Int) - 20) % 4294967296 = 5 ∧
    update (update (setFramerate coldStart 50) 20 zeroRng).1 25 zeroRng =
      ((update (setFramerate coldStart 50) 20 zeroRng).1, []) :=
  have h : DrawCall.display ∈ (update (setFramerate coldStart 50) 20 zeroRng).2 :=
    (C13_frame_gate (setFramerate coldStart 50) 20 zeroRng).1.2 (by decide)
  ⟨h, by decide,
   (C13_frame_gate coldStart 20 zeroRng).2.2.2.2.2.2 25 zeroRng h (by decide)⟩

/-! ## C14: the size setters -/

/-- C14: `setWidth(l, r)`, `setHeight(l, r)` and `setBorderradius(l, r)` write `l` into the
left eye's default and next field of that dimension and `r` into the right eye's, and
`setSpacebetween(space)` writes `space`, negative or not, into `spaceBetweenDefault` and
`spaceBetweenNext`; each of them leaves the current fields of its dimension and every
other field as they were. -/
theorem C14_size_setters (s : roboEyes) (l r : Fin 256) (space : Int) :
    (setWidth s l r =
        { s with eyeLwidthDefault := (l.val : Int), eyeLwidthNext := (l.val : Int),
                 eyeRwidthDefault := (r.val : Int), eyeRwidthNext := (r.val : Int) } ∧
      (setWidth s l r).eyeLwidthCurrent = s.eyeLwidthCurrent ∧
      (setWidth s l r).eyeRwidthCurrent = s.eyeRwidthCurrent) ∧
    (setHeight s l r =
        { s with eyeLheightDefault := (l.val : Int), eyeLheightNext := (l.val : Int),
                 eyeRheightDefault := (r.val : Int), eyeRheightNext := (r.val : Int) } ∧
      (setHeight s l r).eyeLheightCurrent = s.eyeLheightCurrent ∧
      (setHeight s l r).eyeRheightCurrent = s.eyeRheightCurrent) ∧
    (setBorderradius s l r =
        { s with eyeLborderRadiusDefault := (l.val : Int), eyeLborderRadiusNext := (l.val : Int),
                 eyeRborderRadiusDefault := (r.val : Int), eyeRborderRadiusNext := (r.val : Int) } ∧
      (setBorderradius s l r).eyeLborderRadiusCurrent = s.eyeLborderRadiusCurrent ∧
      (setBorderradius s l r).eyeRborderRadiusCurrent = s.eyeRborderRadiusCurrent) ∧
    (setSpacebetween s space =
        { s with spaceBetweenDefault := space, spaceBetweenNext := space } ∧
      (setSpacebetween s space).spaceBetweenCurrent = s.spaceBetweenCurrent) ∧
    ((setSpacebetween s (-7)).spaceBetweenDefault = -7 ∧
      (setSpacebetween s (-7)).spaceBetweenNext = -7) :=
  ⟨⟨rfl, rfl, rfl⟩, ⟨rfl, rfl, rfl⟩, ⟨rfl, rfl, rfl⟩, ⟨rfl, rfl⟩, ⟨rfl, rfl⟩⟩

/-! ## C15: the anchors of `setPosition` -/

/-- C15: with `X = getScreenConstraint_X()` and `Y = getScreenConstraint_Y()` taken in the
state before the call, `setPosition` writes `(eyeLxNext, eyeLyNext)`: N gives `(X/2, 0)`,
NE `(X, 0)`, E `(X, Y/2)`, SE `(X, Y)`, S `(X/2, Y)`, SW `(0, Y)`, W `(0, Y/2)`, NW
`(0, 0)`, and `DEFAULT` and every other argument the centre `(X/2, Y/2)`, the halves
being the truncating integer division; no other field changes, so the right eye's next
position and all current positions are as before. -/
theorem C15_setPosition_anchors (s : roboEyes) (position : Fin 256) :
    (position.val = N →
      (setPosition s position).eyeLxNext = Int.tdiv (getScreenConstraint_X s) 2 ∧
      (setPosition s position).eyeLyNext = 0) ∧
    (position.val = NE →
      (setPosition s position).eyeLxNext = getScreenConstraint_X s ∧
      (setPosition s position).eyeLyNext = 0) ∧
    (position.val = E →
      (setPosition s position).eyeLxNext = getScreenConstraint_X s ∧
      (setPosition s position).eyeLyNext = Int.tdiv (getScreenConstraint_Y s) 2) ∧
    (position.val = SE →
      (setPosition s position).eyeLxNext = getScreenConstraint_X s ∧
      (setPosition s position).eyeLyNext = getScreenConstraint_Y s) ∧
    (position.val = S →
      (setPosition s position).eyeLxNext = Int.tdiv (getScreenConstraint_X s) 2 ∧
      (setPosition s position).eyeLyNext = getScreenConstraint_Y s) ∧
    (position.val = SW →
      (setPosition s position).eyeLxNext = 0 ∧
      (setPosition s position).eyeLyNext = getScreenConstraint_Y s) ∧
    (position.val = W →
      (setPosition s position).eyeLxNext = 0 ∧
      (setPosition s position).eyeLyNext = Int.tdiv (getScreenConstraint_Y s) 2) ∧
    (position.val = NW →
      (setPosition s position).eyeLxNext = 0 ∧ (setPosition s position).eyeLyNext = 0) ∧
    (position.val = DEFAULT ∨ 8 < position.val →
      (setPosition s position).eyeLxNext = Int.tdiv (getScreenConstraint_X s) 2 ∧
      (setPosition s position).eyeLyNext = Int.tdiv (getScreenConstraint_Y s) 2) ∧
    setPosition s position =
      { s with eyeLxNext := (setPosition s position).eyeLxNext,
               eyeLyNext := (setPosition s position).eyeLyNext } ∧
    ((setPosition s position).eyeRxNext = s.eyeRxNext ∧
      (setPosition s position).eyeRyNext = s.eyeRyNext ∧
      (setPosition s position).eyeLx = s.eyeLx ∧ (setPosition s position).eyeLy = s.eyeLy ∧
      (setPosition s position).eyeRx = s.eyeRx ∧ (setPosition s position).eyeRy = s.eyeRy) := by
  rw [setPosition_eq]
  simp only [N, NE, E, SE, S, SW, W, NW, DEFAULT]
  refine ⟨?_, ?_, ?_, ?_, ?_, ?_, ?_, ?_, ?_, trivial,
    ⟨trivial, trivial, trivial, trivial, trivial, trivial⟩⟩
  · intro h; simp [h]
  · intro h; simp [h]
  · intro h; simp [h]
  · intro h; simp [h]
  · intro h; simp [h]
  · intro h; simp [h]
  · intro h; simp [h]
  · intro h; simp [h]
  · intro h
    have h1 : position.val ≠ 1 := by omega
    have h2 : position.val ≠ 2 := by omega
    have h3 : position.val ≠ 3 := by omega
    have h4 : position.val ≠ 4 := by omega
    have h5 : position.val ≠ 5 := by omega
    have h6 : position.val ≠ 6 := by omega
    have h7 : position.val ≠ 7 := by omega
    have h8 : position.val ≠ 8 := by omega
    simp [h1, h2, h3, h4, h5, h6, h7, h8]

/-- C15 on the animator of `main.cpp`, where `X = 46` and `Y = 28`: `setPosition(SE)` targets
`(46, 28)` and `setPosition(DEFAULT)` the centre `(23, 14)`. -/
theorem C15_setPosition_anchors_witness :
    ((4 : Fin 256).val = SE ∧ (setPosition coldStart 4).eyeLxNext = getScreenConstraint_X coldStart ∧
      (setPosition coldStart 4).eyeLyNext = getScreenConstraint_Y coldStart) ∧
    (((0 : Fin 256).val = DEFAULT ∨ 8 < (0 : Fin 256).val) ∧
      (setPosition coldStart 0).eyeLxNext = Int.tdiv (getScreenConstraint_X coldStart) 2 ∧
      (setPosition coldStart 0).eyeLyNext = Int.tdiv (getScreenConstraint_Y coldStart) 2) :=
  ⟨⟨by decide, (C15_setPosition_anchors coldStart 4).2.2.2.1 (by decide)⟩,
   ⟨by decide, (C15_setPosition_anchors coldStart 0).2.2.2.2.2.2.2.2.1 (by decide)⟩⟩

/-! ## C16: blink control per eye -/

/-- C16: `close(left, right)` sets the next height to 1 and clears the open flag of exactly
the selected eyes; `open(left, right)` sets the open flag of exactly the selected eyes and
changes no other field, so no height; `blink(left, right)` is `close` followed by `open`,
which leaves the selected eyes with next height 1 and the open flag set; the fields of an
eye that is not selected, and every other field, are unchanged; and `close()`, `open()`,
`blink()` give the same state as the two-argument forms called with `(true, true)`. -/
theorem C16_blink_per_eye (s : roboEyes) (left right : Bool) :
    close2 s left right =
      { s with eyeLheightNext := if left then 1 else s.eyeLheightNext,
               eyeL_open := if left then false else s.eyeL_open,
               eyeRheightNext := if right then 1 else s.eyeRheightNext,
               eyeR_open := if right then false else s.eyeR_open } ∧
    open2 s left right =
      { s with eyeL_open := if left then true else s.eyeL_open,
               eyeR_open := if right then true else s.eyeR_open } ∧
    blink2 s left right = open2 (close2 s left right) left right ∧
    blink2 s left right =
      { s with eyeLheightNext := if left then 1 else s.eyeLheightNext,
               eyeL_open := if left then true else s.eyeL_open,
               eyeRheightNext := if right then 1 else s.eyeRheightNext,
               eyeR_open := if right then true else s.eyeR_open } ∧
    (left = false →
      (close2 s left right).eyeLheightNext = s.eyeLheightNext ∧
      (close2 s left right).eyeL_open = s.eyeL_open ∧
      (open2 s left right).eyeL_open = s.eyeL_open ∧
      (blink2 s left right).eyeLheightNext = s.eyeLheightNext ∧
      (blink2 s left right).eyeL_open = s.eyeL_open) ∧
    (right = false →
      (close2 s left right).eyeRheightNext = s.eyeRheightNext ∧
      (close2 s left right).eyeR_open = s.eyeR_open ∧
      (open2 s left right).eyeR_open = s.eyeR_open ∧
      (blink2 s left right).eyeRheightNext = s.eyeRheightNext ∧
      (blink2 s left right).eyeR_open = s.eyeR_open) ∧
    ((open2 s left right).eyeLheightNext = s.eyeLheightNext ∧
      (open2 s left right).eyeRheightNext = s.eyeRheightNext ∧
      (open2 s left right).eyeLheightCurrent = s.eyeLheightCurrent ∧
      (open2 s left right).eyeRheightCurrent = s.eyeRheightCurrent ∧
      (open2 s left right).eyeLheightDefault = s.eyeLheightDefault ∧
      (open2 s left right).eyeRheightDefault = s.eyeRheightDefault) ∧
    (close s = close2 s true true ∧ roboEyes.open s = open2 s true true ∧
      blink s = blink2 s true true) := by
  cases left <;> cases right <;>
    refine ⟨rfl, rfl, rfl, rfl, ?_, ?_, ⟨rfl, rfl, rfl, rfl, rfl, rfl⟩, ⟨rfl, rfl, rfl⟩⟩ <;>
    intro h <;> first | exact ⟨rfl, rfl, rfl, rfl, rfl⟩ | cases h

/-- C16 on the animator of `main.cpp`, closing and blinking the right eye only: the left eye
keeps its next height and its open flag. -/
theorem C16_blink_per_eye_witness :
    (false = false) ∧
    (close2 coldStart false true).eyeLheightNext = coldStart.eyeLheightNext ∧
    (close2 coldStart false true).eyeL_open = coldStart.eyeL_open ∧
    (open2 coldStart false true).eyeL_open = coldStart.eyeL_open ∧
    (blink2 coldStart false true).eyeLheightNext = coldStart.eyeLheightNext ∧
    (blink2 coldStart false true).eyeL_open = coldStart.eyeL_open :=
  ⟨rfl, (C16_blink_per_eye coldStart false true).2.2.2.2.1 rfl⟩

/-! ## C17: the one-argument overloads -/

/-- C17: `setHFlicker(b)` and `setVFlicker(b)` write the enabled flag and nothing else, so the
amplitude stays; `setAutoblinker(b)` and `setIdleMode(b)` write the enabled flag and
nothing else, so interval, variation and the next-fire timestamp stay; the forms with
parameters write the flag and the parameters as given, and nothing else. -/
theorem C17_enabled_only_overloads (s : roboEyes) (b : Bool) (amplitude : Fin 256)
    (interval variation : Int) :
    (setHFlicker1 s b = { s with hFlicker := b } ∧
      (setHFlicker1 s b).hFlickerAmplitude = s.hFlickerAmplitude) ∧
    (setVFlicker1 s b = { s with vFlicker := b } ∧
      (setVFlicker1 s b).vFlickerAmplitude = s.vFlickerAmplitude) ∧
    (setAutoblinker1 s b = { s with autoblinker := b } ∧
      (setAutoblinker1 s b).blinkInterval = s.blinkInterval ∧
      (setAutoblinker1 s b).blinkIntervalVariation = s.blinkIntervalVariation ∧
      (setAutoblinker1 s b).blinktimer = s.blinktimer) ∧
    (setIdleMode1 s b = { s with idle := b } ∧
      (setIdleMode1 s b).idleInterval = s.idleInterval ∧
      (setIdleMode1 s b).idleIntervalVariation = s.idleIntervalVariation ∧
      (setIdleMode1 s b).idleAnimationTimer = s.idleAnimationTimer) ∧
    (setHFlicker s b amplitude =
        { s with hFlicker := b, hFlickerAmplitude := (amplitude.val : Int) } ∧
      setVFlicker s b amplitude =
        { s with vFlicker := b, vFlickerAmplitude := (amplitude.val : Int) }) ∧
    (setAutoblinker s b interval variation =
        { s with autoblinker := b, blinkInterval := interval,
                 blinkIntervalVariation := variation } ∧
      setIdleMode s b interval variation =
        { s with idle := b, idleInterval := interval, idleIntervalVariation := variation }) :=
  ⟨⟨rfl, rfl⟩, ⟨rfl, rfl⟩, ⟨rfl, rfl, rfl, rfl⟩, ⟨rfl, rfl, rfl, rfl⟩, ⟨rfl, rfl⟩, ⟨rfl, rfl⟩⟩

/-! ## C18: the vertical bound -/

theorem tick_screenFields (s : roboEyes) (now : Int) (rnd : Rng) :
    (tick s now rnd).1.screenWidth = s.screenWidth ∧
    (tick s now rnd).1.screenHeight = s.screenHeight ∧
    (tick s now rnd).1.eyeLheightDefault = s.eyeLheightDefault := by
  simp only [tick, drawEyes, sweatStep_fst_eq, moodStep_eq, animate, cyclopsStep_eq, vFlickerStep_eq, hFlickerStep_eq, idleStep_eq,
    confusedStep_eq, laughStep_eq, autoblinkStep_eq, interpolate, tweenStep, reopenStep_eq,
    heightStep, curiosityStep_eq]
  exact ⟨trivial, trivial, trivial⟩

theorem tick_constraint_Y (s : roboEyes) (now : Int) (rnd : Rng) :
    getScreenConstraint_Y (tick s now rnd).1 = getScreenConstraint_Y s := by
  obtain ⟨_, h2, h3⟩ := tick_screenFields s now rnd
  unfold getScreenConstraint_Y
  rw [h2, h3]

theorem update_constraint_Y (s : roboEyes) (now : Int) (rnd : Rng) :
    getScreenConstraint_Y (update s now rnd).1 = getScreenConstraint_Y s := by
  unfold update
  split
  · exact tick_constraint_Y s now rnd
  · rfl

theorem setMood_constraint_Y (s : roboEyes) (mood : Fin 256) :
    getScreenConstraint_Y (setMood s mood) = getScreenConstraint_Y s := by
  unfold setMood
  split_ifs <;> rfl

theorem setPosition_constraint_Y (s : roboEyes) (position : Fin 256) :
    getScreenConstraint_Y (setPosition s position) = getScreenConstraint_Y s := by
  rw [setPosition_eq]
  rfl

set_option maxRecDepth 100000 in
/-- C18: `getScreenConstraint_Y()` is `screenHeight - eyeLheightDefault`, and `drawEyes()`, a
tick, `update()`, and every form of `close`, `open` and `blink` leave its value as it was; so does
every other member function except `begin` and `setHeight`, which can change it (from 28
to 44 and to 8 on the animator of `main.cpp`). `getScreenConstraint_X()` is `screenWidth -
eyeLwidthCurrent - spaceBetweenCurrent - eyeRwidthCurrent`, computed from the current
values, so it moves as they are interpolated: from 46 to 22 in the first tick after
`setWidth(60, 60)`. -/
theorem C18_vertical_bound (s : roboEyes) (now : Int) (rnd : Rng) :
    getScreenConstraint_Y s = s.screenHeight - s.eyeLheightDefault ∧
    getScreenConstraint_X s =
      s.screenWidth - s.eyeLwidthCurrent - s.spaceBetweenCurrent - s.eyeRwidthCurrent ∧
    (getScreenConstraint_Y (drawEyes s now rnd).1 = getScreenConstraint_Y s ∧
      getScreenConstraint_Y (tick s now rnd).1 = getScreenConstraint_Y s ∧
      getScreenConstraint_Y (update s now rnd).1 = getScreenConstraint_Y s) ∧
    (getScreenConstraint_Y (close s) = getScreenConstraint_Y s ∧
      getScreenConstraint_Y (roboEyes.open s) = getScreenConstraint_Y s ∧
      getScreenConstraint_Y (blink s) = getScreenConstraint_Y s ∧
      ∀ left right : Bool,
        getScreenConstraint_Y (close2 s left right) = getScreenConstraint_Y s ∧
        getScreenConstraint_Y (open2 s left right) = getScreenConstraint_Y s ∧
        getScreenConstraint_Y (blink2 s left right) = getScreenConstraint_Y s) ∧
    ((∀ a b : Fin 256,
        getScreenConstraint_Y (setFramerate s a) = getScreenConstraint_Y s ∧
        getScreenConstraint_Y (setDisplayColors s a b) = getScreenConstraint_Y s ∧
        getScreenConstraint_Y (setWidth s a b) = getScreenConstraint_Y s ∧
        getScreenConstraint_Y (setBorderradius s a b) = getScreenConstraint_Y s ∧
        getScreenConstraint_Y (setMood s a) = getScreenConstraint_Y s ∧
        getScreenConstraint_Y (setPosition s a) = getScreenConstraint_Y s) ∧
      (∀ (flag : Bool) (a : Fin 256) (i v : Int),
        getScreenConstraint_Y (setSpacebetween s i) = getScreenConstraint_Y s ∧
        getScreenConstraint_Y (setAutoblinker s flag i v) = getScreenConstraint_Y s ∧
        getScreenConstraint_Y (setAutoblinker1 s flag) = getScreenConstraint_Y s ∧
        getScreenConstraint_Y (setIdleMode s flag i v) = getScreenConstraint_Y s ∧
        getScreenConstraint_Y (setIdleMode1 s flag) = getScreenConstraint_Y s ∧
        getScreenConstraint_Y (setCuriosity s flag) = getScreenConstraint_Y s ∧
        getScreenConstraint_Y (setCyclops s flag) = getScreenConstraint_Y s ∧
        getScreenConstraint_Y (setHFlicker s flag a) = getScreenConstraint_Y s ∧
        getScreenConstraint_Y (setHFlicker1 s flag) = getScreenConstraint_Y s ∧
        getScreenConstraint_Y (setVFlicker s flag a) = getScreenConstraint_Y s ∧
        getScreenConstraint_Y (setVFlicker1 s flag) = getScreenConstraint_Y s ∧
        getScreenConstraint_Y (setSweat s flag) = getScreenConstraint_Y s) ∧
      getScreenConstraint_Y (anim_confused s) = getScreenConstraint_Y s ∧
      getScreenConstraint_Y (anim_laugh s) = getScreenConstraint_Y s) ∧
    (getScreenConstraint_Y coldStart = 28 ∧
      getScreenConstraint_Y (setHeight coldStart 20 20) = 44 ∧
      getScreenConstraint_Y (begin coldStart 128 44 100).1 = 8) ∧
    (getScreenConstraint_X (setWidth coldStart 60 60) = 46 ∧
      getScreenConstraint_X (tick (setWidth coldStart 60 60) 10 zeroRng).1 = 22) := by
  refine ⟨rfl, rfl,
    ⟨tick_constraint_Y s now rnd, tick_constraint_Y s now rnd, update_constraint_Y s now rnd⟩,
    ⟨rfl, rfl, rfl, ?_⟩, ⟨?_, ?_, rfl, rfl⟩, by decide, by decide⟩
  · intro left right
    cases left <;> cases right <;> exact ⟨rfl, rfl, rfl⟩
  · intro a b
    exact ⟨rfl, rfl, rfl, rfl, setMood_constraint_Y s a, setPosition_constraint_Y s a⟩
  · intro flag a i v
    exact ⟨rfl, rfl, rfl, rfl, rfl, rfl, rfl, rfl, rfl, rfl, rfl, rfl⟩

/-! ## C19: the targets fit the screen -/

theorem fits_setPosition (s : roboEyes) (position : Fin 256)
    (hX : 0 ≤ getScreenConstraint_X s) (hY : 0 ≤ getScreenConstraint_Y s) :
    Fits (setPosition s position) := by
  have hx2 : 0 ≤ Int.tdiv (getScreenConstraint_X s) 2 ∧
      Int.tdiv (getScreenConstraint_X s) 2 ≤ getScreenConstraint_X s := by
    rw [tdiv_two]; split <;> omega
  have hy2 : 0 ≤ Int.tdiv (getScreenConstraint_Y s) 2 ∧
      Int.tdiv (getScreenConstraint_Y s) 2 ≤ getScreenConstraint_Y s := by
    rw [tdiv_two]; split <;> omega
  have eX : getScreenConstraint_X s =
      s.screenWidth - s.eyeLwidthCurrent - s.spaceBetweenCurrent - s.eyeRwidthCurrent := rfl
  have eY : getScreenConstraint_Y s = s.screenHeight - s.eyeLheightDefault := rfl
  rw [setPosition_eq]
  constructor
  · show 0 ≤ ite _ _ _ ∧
      ite _ _ _ + s.eyeLwidthCurrent + s.spaceBetweenCurrent + s.eyeRwidthCurrent ≤ s.screenWidth
    split_ifs <;> omega
  · show 0 ≤ ite _ _ _ ∧ ite _ _ _ + s.eyeLheightDefault ≤ s.screenHeight
    split_ifs <;> omega

theorem fits_idleStep (s : roboEyes) (now : Int) (rnd : Rng)
    (hX : 0 ≤ getScreenConstraint_X s) (hY : 0 ≤ getScreenConstraint_Y s)
    (hu : Uniform rnd) (hi : s.idle = true) (hd : now ≥ s.idleAnimationTimer) :
    (idleStep s now rnd).eyeLxNext = rnd 1 (getScreenConstraint_X s) ∧
    (idleStep s now rnd).eyeLyNext = rnd 2 (getScreenConstraint_Y s) ∧
    Fits (idleStep s now rnd) := by
  have r1 := uniform_range rnd hu 1 (getScreenConstraint_X s) hX
  have r2 := uniform_range rnd hu 2 (getScreenConstraint_Y s) hY
  have eX : getScreenConstraint_X s =
      s.screenWidth - s.eyeLwidthCurrent - s.spaceBetweenCurrent - s.eyeRwidthCurrent := rfl
  have eY : getScreenConstraint_Y s = s.screenHeight - s.eyeLheightDefault := rfl
  rw [idleStep_eq]
  simp only [hi, if_true, if_pos hd]
  refine ⟨trivial, trivial, ?_, ?_⟩
  · show 0 ≤ rnd 1 (getScreenConstraint_X s) ∧
      rnd 1 (getScreenConstraint_X s) + s.eyeLwidthCurrent + s.spaceBetweenCurrent
        + s.eyeRwidthCurrent ≤ s.screenWidth
    omega
  · show 0 ≤ rnd 2 (getScreenConstraint_Y s) ∧
      rnd 2 (getScreenConstraint_Y s) + s.eyeLheightDefault ≤ s.screenHeight
    omega

theorem fits_tick (s : roboEyes) (now : Int) (rnd : Rng)
    (hu : Uniform rnd) (hi : s.idle = true) (hd : now ≥ s.idleAnimationTimer)
    (hc : s.cyclops = false)
    (hX : 0 ≤ getScreenConstraint_X (tick s now rnd).1)
    (hY : 0 ≤ getScreenConstraint_Y (tick s now rnd).1) :
    Fits (tick s now rnd).1 := by
  obtain ⟨a1, a2, a3, _, _, _, a7⟩ := tick_gazeFields s now rnd hc
  obtain ⟨b1, b2⟩ := tick_gazeTarget s now rnd
  have c1 := tick_eyeLwidthCurrent s now rnd
  have c2 := tick_spaceBetweenCurrent s now rnd
  rw [hc] at c2
  simp only [Bool.false_eq_true, if_false] at c2
  rw [hi] at b1 b2
  simp only [if_true, if_pos hd] at b1 b2
  unfold getScreenConstraint_X at hX
  unfold getScreenConstraint_Y at hY
  rw [a1, c1, c2, a7] at hX
  rw [a2, a3] at hY
  have r1 := uniform_range rnd hu 1 _ hX
  have r2 := uniform_range rnd hu 2 _ hY
  unfold Fits
  rw [b1, b2, a1, a2, a3, c1, c2, a7]
  omega

theorem uniform_lastRng : Uniform lastRng := by
  intro i n
  constructor
  · intro h
    simp only [lastRng, if_pos h]
    omega
  · simp [lastRng]

theorem interpolate_constraint (s : roboEyes) :
    getScreenConstraint_X (interpolate s) =
      s.screenWidth - Int.tdiv (s.eyeLwidthCurrent + s.eyeLwidthNext) 2
        - Int.tdiv (s.spaceBetweenCurrent + s.spaceBetweenNext) 2
        - Int.tdiv (s.eyeRwidthCurrent + s.eyeRwidthNext) 2 ∧
    getScreenConstraint_Y (interpolate s) = getScreenConstraint_Y s ∧
    (interpolate s).spaceBetweenCurrent = Int.tdiv (s.spaceBetweenCurrent + s.spaceBetweenNext) 2 ∧
    (interpolate s).eyeRwidthCurrent = Int.tdiv (s.eyeRwidthCurrent + s.eyeRwidthNext) 2 := by
  simp only [getScreenConstraint_X, getScreenConstraint_Y, interpolate, tweenStep, reopenStep_eq,
    heightStep, curiosityStep_eq]
  exact ⟨trivial, trivial, trivial, trivial⟩

theorem tick_eyeRwidthCurrent (s : roboEyes) (now : Int) (rnd : Rng) :
    (tick s now rnd).1.eyeRwidthCurrent =
      if s.cyclops then 0 else Int.tdiv (s.eyeRwidthCurrent + s.eyeRwidthNext) 2 := by
  simp only [tick, drawEyes, sweatStep_fst_eq, moodStep_eq, animate, cyclopsStep_eq, vFlickerStep_eq, hFlickerStep_eq, idleStep_eq,
    confusedStep_eq, laughStep_eq, autoblinkStep_eq, interpolate, tweenStep, reopenStep_eq,
    heightStep, curiosityStep_eq]

theorem fits_tick_interpolated (s : roboEyes) (now : Int) (rnd : Rng)
    (hu : Uniform rnd) (hi : s.idle = true) (hd : now ≥ s.idleAnimationTimer)
    (hX : 0 ≤ getScreenConstraint_X (interpolate s)) (hY : 0 ≤ getScreenConstraint_Y s)
    (hcy : s.cyclops = true →
      0 ≤ (interpolate s).spaceBetweenCurrent + (interpolate s).eyeRwidthCurrent) :
    ((tick s now rnd).1.eyeLxNext = rnd 1 (getScreenConstraint_X (interpolate s)) ∧
      (tick s now rnd).1.eyeLyNext = rnd 2 (getScreenConstraint_Y s)) ∧
    Fits (tick s now rnd).1 := by
  obtain ⟨e1, _, e3, e4⟩ := interpolate_constraint s
  obtain ⟨a1, a2, a3⟩ := tick_screenFields s now rnd
  obtain ⟨b1, b2⟩ := tick_gazeTarget s now rnd
  have c1 := tick_eyeLwidthCurrent s now rnd
  have c2 := tick_spaceBetweenCurrent s now rnd
  have c3 := tick_eyeRwidthCurrent s now rnd
  rw [hi] at b1 b2
  simp only [if_true, if_pos hd] at b1 b2
  rw [e1] at hX ⊢
  rw [e3, e4] at hcy
  unfold getScreenConstraint_Y at hY ⊢
  have r1 := uniform_range rnd hu 1 _ hX
  have r2 := uniform_range rnd hu 2 _ hY
  refine ⟨⟨b1, b2⟩, ?_⟩
  unfold Fits
  rw [b1, b2, a1, a2, a3, c1, c2, c3]
  cases hc : s.cyclops
  · simp only [Bool.false_eq_true, if_false]
    omega
  · have := hcy hc
    simp only [if_true]
    omega

set_option maxRecDepth 100000 in
/-- C19 as stated fails for an idle firing. Three frames after `setWidth(62, 62)` on the
animator of `main.cpp` the widths are 58 and both bounds are not negative (2 and 28); the
frame at 40 in which idle fires first averages the widths to 60, so the idle block reads the
bound -2: with the draw 0 the target is 0 and 0 + 60 + 10 + 60 = 130 exceeds the width 128,
and with any other draws the target does not fit either. In cyclops mode one frame after
`setSpacebetween(-50)` the bounds are 92 and 28 before the frame at 20 and after it, the
idle block reads 99 in between (right width 18, spacing -25), and the uniform draw 98 gives
98 + 36 = 134, more than 128. -/
theorem C19_idle_target_leaves_screen :
    ((0 ≤ getScreenConstraint_X growingEyes ∧ 0 ≤ getScreenConstraint_Y growingEyes ∧
        growingEyes.idle = true ∧ (40 : Int) ≥ growingEyes.idleAnimationTimer ∧
        growingEyes.cyclops = false) ∧
      Uniform zeroRng ∧
      ((tick growingEyes 40 zeroRng).1.eyeLxNext = 0 ∧
        (tick growingEyes 40 zeroRng).1.eyeLxNext + (tick growingEyes 40 zeroRng).1.eyeLwidthCurrent +
          (tick growingEyes 40 zeroRng).1.spaceBetweenCurrent +
          (tick growingEyes 40 zeroRng).1.eyeRwidthCurrent = 130 ∧
        (tick growingEyes 40 zeroRng).1.screenWidth = 128) ∧
      ∀ rnd : Rng, ¬ Fits (tick growingEyes 40 rnd).1) ∧
    ((0 ≤ getScreenConstraint_X cyclopsNarrow ∧ 0 ≤ getScreenConstraint_Y cyclopsNarrow ∧
        cyclopsNarrow.idle = true ∧ (20 : Int) ≥ cyclopsNarrow.idleAnimationTimer ∧
        cyclopsNarrow.cyclops = true) ∧
      Uniform lastRng ∧
      (0 ≤ getScreenConstraint_X (tick cyclopsNarrow 20 lastRng).1 ∧
        0 ≤ getScreenConstraint_Y (tick cyclopsNarrow 20 lastRng).1) ∧
      ((tick cyclopsNarrow 20 lastRng).1.eyeLxNext = 98 ∧
        (tick cyclopsNarrow 20 lastRng).1.eyeLxNext + (tick cyclopsNarrow 20 lastRng).1.eyeLwidthCurrent +
          (tick cyclopsNarrow 20 lastRng).1.spaceBetweenCurrent +
          (tick cyclopsNarrow 20 lastRng).1.eyeRwidthCurrent = 134 ∧
        (tick cyclopsNarrow 20 lastRng).1.screenWidth = 128) ∧
      ¬ Fits (tick cyclopsNarrow 20 lastRng).1) := by
  refine ⟨⟨by decide, uniform_zeroRng, by decide, ?_⟩,
    ⟨by decide, uniform_lastRng, by decide, by decide, by unfold Fits; decide⟩⟩
  intro rnd hf
  obtain ⟨⟨h0, h1⟩, _⟩ := hf
  obtain ⟨a1, _, _⟩ := tick_screenFields growingEyes 40 rnd
  have c1 := tick_eyeLwidthCurrent growingEyes 40 rnd
  have c2 := tick_spaceBetweenCurrent growingEyes 40 rnd
  have c3 := tick_eyeRwidthCurrent growingEyes 40 rnd
  have v1 : Int.tdiv (growingEyes.eyeLwidthCurrent + growingEyes.eyeLwidthNext) 2 = 60 := by
    decide
  have v2 : (if growingEyes.cyclops then (0 : Int)
      else Int.tdiv (growingEyes.spaceBetweenCurrent + growingEyes.spaceBetweenNext) 2) = 10 := by
    decide
  have v3 : (if growingEyes.cyclops then (0 : Int)
      else Int.tdiv (growingEyes.eyeRwidthCurrent + growingEyes.eyeRwidthNext) 2) = 60 := by
    decide
  have v4 : growingEyes.screenWidth = 128 := by decide
  rw [a1, c1, c2, c3, v1, v2, v3, v4] at h1
  omega

/-- C19, amended: in a state with `getScreenConstraint_X() >= 0` and
`getScreenConstraint_Y() >= 0` the left eye's target fits the screen after `setPosition`
with any argument: `0 <= eyeLxNext`, `eyeLxNext + eyeLwidthCurrent + spaceBetweenCurrent +
eyeRwidthCurrent <= screenWidth`, `0 <= eyeLyNext` and `eyeLyNext + eyeLheightDefault <=
screenHeight`; so it does after the idle block of `drawEyes` run in that state with a
uniform random source. In a tick the idle block runs after the widths and the spacing were
averaged, and draws the target from the bounds of that moment: x from
`getScreenConstraint_X()` of the interpolated state, y from `getScreenConstraint_Y()`.
After a tick in which idle fires the target fits the screen when those two bounds are not
negative and, with cyclops on, the averaged spacing plus the averaged right width is not
negative; with cyclops off that is when the two bounds are not negative in the state after
the tick, and in particular when they are not negative before the tick and the widths and
the spacing are at rest (current equal to next). -/
theorem C19_targets_fit (s : roboEyes) (now : Int) (rnd : Rng) :
    (0 ≤ getScreenConstraint_X s → 0 ≤ getScreenConstraint_Y s →
      (∀ position : Fin 256, Fits (setPosition s position)) ∧
      (Uniform rnd → s.idle = true → now ≥ s.idleAnimationTimer →
        (idleStep s now rnd).eyeLxNext = rnd 1 (getScreenConstraint_X s) ∧
        (idleStep s now rnd).eyeLyNext = rnd 2 (getScreenConstraint_Y s) ∧
        Fits (idleStep s now rnd))) ∧
    (Uniform rnd → s.idle = true → now ≥ s.idleAnimationTimer → s.cyclops = false →
      0 ≤ getScreenConstraint_X (tick s now rnd).1 →
      0 ≤ getScreenConstraint_Y (tick s now rnd).1 →
      Fits (tick s now rnd).1) ∧
    (s.idle = true → now ≥ s.idleAnimationTimer →
      (tick s now rnd).1.eyeLxNext = rnd 1 (getScreenConstraint_X (interpolate s)) ∧
      (tick s now rnd).1.eyeLyNext = rnd 2 (getScreenConstraint_Y s)) ∧
    (Uniform rnd → s.idle = true → now ≥ s.idleAnimationTimer →
      0 ≤ getScreenConstraint_X (interpolate s) → 0 ≤ getScreenConstraint_Y s →
      (s.cyclops = true →
        0 ≤ (interpolate s).spaceBetweenCurrent + (interpolate s).eyeRwidthCurrent) →
      Fits (tick s now rnd).1) ∧
    (Uniform rnd → s.idle = true → now ≥ s.idleAnimationTimer → s.cyclops = false →
      s.eyeLwidthCurrent = s.eyeLwidthNext → s.eyeRwidthCurrent = s.eyeRwidthNext →
      s.spaceBetweenCurrent = s.spaceBetweenNext →
      0 ≤ getScreenConstraint_X s → 0 ≤ getScreenConstraint_Y s →
      Fits (tick s now rnd).1) := by
  refine ⟨fun hX hY => ⟨fun position => fits_setPosition s position hX hY,
      fun hu hi hd => fits_idleStep s now rnd hX hY hu hi hd⟩,
    fun hu hi hd hc hX hY => fits_tick s now rnd hu hi hd hc hX hY, ?_,
    fun hu hi hd hX hY hcy => (fits_tick_interpolated s now rnd hu hi hd hX hY hcy).2, ?_⟩
  · intro hi hd
    obtain ⟨e1, _, _, _⟩ := interpolate_constraint s
    obtain ⟨b1, b2⟩ := tick_gazeTarget s now rnd
    rw [hi] at b1 b2
    simp only [if_true, if_pos hd] at b1 b2
    rw [e1]
    exact ⟨b1, b2⟩
  · intro hu hi hd hc w1 w2 w3 hX hY
    obtain ⟨e1, _, _, _⟩ := interpolate_constraint s
    have hX2 : 0 ≤ getScreenConstraint_X (interpolate s) := by
      rw [e1, ← w1, ← w2, ← w3, avg_self, avg_self, avg_self]
      exact hX
    exact (fits_tick_interpolated s now rnd hu hi hd hX2 hY
      (fun h => by rw [hc] at h; cases h)).2

/-- C19 on the animator of `main.cpp` with idle mode on, where the bounds are 46 and 28 and
the sizes are at rest: the target fits after `setPosition(SE)`, after the idle block, and
after the tick at clock value 20 in which idle fires. -/
theorem C19_targets_fit_witness :
    (0 ≤ getScreenConstraint_X (setIdleMode coldStart true 1 0) ∧
      0 ≤ getScreenConstraint_Y (setIdleMode coldStart true 1 0)) ∧
    (Uniform zeroRng ∧ (setIdleMode coldStart true 1 0).idle = true ∧
      (20 : Int) ≥ (setIdleMode coldStart true 1 0).idleAnimationTimer ∧
      (setIdleMode coldStart true 1 0).cyclops = false ∧
      (setIdleMode coldStart true 1 0).eyeLwidthCurrent =
        (setIdleMode coldStart true 1 0).eyeLwidthNext ∧
      (setIdleMode coldStart true 1 0).eyeRwidthCurrent =
        (setIdleMode coldStart true 1 0).eyeRwidthNext ∧
      (setIdleMode coldStart true 1 0).spaceBetweenCurrent =
        (setIdleMode coldStart true 1 0).spaceBetweenNext) ∧
    Fits (setPosition (setIdleMode coldStart true 1 0) 4) ∧
    Fits (idleStep (setIdleMode coldStart true 1 0) 20 zeroRng) ∧
    Fits (tick (setIdleMode coldStart true 1 0) 20 zeroRng).1 :=
  ⟨by decide, ⟨uniform_zeroRng, by decide⟩,
   ((C19_targets_fit (setIdleMode coldStart true 1 0) 20 zeroRng).1 (by decide) (by decide)).1 4,
   (((C19_targets_fit (setIdleMode coldStart true 1 0) 20 zeroRng).1 (by decide) (by decide)).2
      uniform_zeroRng (by decide) (by decide)).2.2,
   (C19_targets_fit (setIdleMode coldStart true 1 0) 20 zeroRng).2.2.2.2
      uniform_zeroRng (by decide) (by decide) (by decide) (by decide) (by decide) (by decide)
      (by decide) (by decide)⟩

/-! ## C20: the eyelid targets of the moods -/

theorem animate_moods (s : roboEyes) (now : Int) (rnd : Rng) :
    (animate s now rnd).tired = s.tired ∧ (animate s now rnd).angry = s.angry ∧
    (animate s now rnd).happy = s.happy := by
  simp only [animate, cyclopsStep_eq, vFlickerStep_eq, hFlickerStep_eq, idleStep_eq,
    confusedStep_eq, laughStep_eq, autoblinkStep_eq, interpolate, tweenStep, reopenStep_eq,
    heightStep, curiosityStep_eq]
  exact ⟨trivial, trivial, trivial⟩

theorem tick_moodTargets (s : roboEyes) (now : Int) (rnd : Rng) :
    (tick s now rnd).1.eyelidsTiredHeightNext =
      (if s.angry then 0
       else if s.tired then toByte (Int.tdiv (tick s now rnd).1.eyeLheightCurrent 2) else 0) ∧
    (tick s now rnd).1.eyelidsAngryHeightNext =
      (if s.angry then toByte (Int.tdiv (tick s now rnd).1.eyeLheightCurrent 2) else 0) ∧
    (tick s now rnd).1.eyelidsHappyBottomOffsetNext =
      (if s.happy then toByte (Int.tdiv (tick s now rnd).1.eyeLheightCurrent 2) else 0) ∧
    (tick s now rnd).1.tired = s.tired ∧ (tick s now rnd).1.angry = s.angry ∧
    (tick s now rnd).1.happy = s.happy := by
  obtain ⟨m1, m2, m3⟩ := animate_moods s now rnd
  simp only [tick, drawEyes, sweatStep_fst_eq, moodStep_eq, m1, m2, m3]
  exact ⟨trivial, trivial, trivial, trivial, trivial, trivial⟩

theorem tick_eyeLheightCurrent (s : roboEyes) (now : Int) (rnd : Rng) :
    ∃ offset : Int, (offset = 0 ∨ offset = 8) ∧
      (tick s now rnd).1.eyeLheightCurrent =
        Int.tdiv (s.eyeLheightCurrent + s.eyeLheightNext + offset) 2 := by
  simp only [tick, drawEyes, sweatStep_fst_eq, moodStep_eq, animate, cyclopsStep_eq, vFlickerStep_eq, hFlickerStep_eq, idleStep_eq,
    confusedStep_eq, laughStep_eq, autoblinkStep_eq, interpolate, tweenStep, reopenStep_eq,
    heightStep, curiosityStep_eq]
  refine ⟨_, ?_, rfl⟩
  split_ifs <;> simp

theorem tick_heightRange (s : roboEyes) (now : Int) (rnd : Rng)
    (h0 : 0 ≤ s.eyeLheightCurrent) (h1 : s.eyeLheightCurrent ≤ 263)
    (hn : isByte s.eyeLheightNext) :
    0 ≤ (tick s now rnd).1.eyeLheightCurrent ∧ (tick s now rnd).1.eyeLheightCurrent ≤ 263 := by
  obtain ⟨offset, ho, e⟩ := tick_eyeLheightCurrent s now rnd
  obtain ⟨hn0, hn1⟩ := hn
  rw [e, tdiv_two]
  rcases ho with ho | ho <;> subst ho <;> split <;> omega

/-- C20: in a state whose mood flags are mutually exclusive and whose left eye height is in
the range the member functions keep it in (current height from 0 to 263, next height a
byte), a tick leaves the mood flags as they were, renders a left eye height from 0 to 263,
and leaves each eyelid target at half of that rendered height (truncating integer
division) when its mood flag is set and at 0 otherwise: `eyelidsTiredHeightNext` for
tired, `eyelidsAngryHeightNext` for angry, `eyelidsHappyBottomOffsetNext` for happy; so at
most one of the three targets is not 0. -/
theorem C20_mood_eyelid_targets (s : roboEyes) (now : Int) (rnd : Rng)
    (hta : ¬ (s.tired = true ∧ s.angry = true)) (hth : ¬ (s.tired = true ∧ s.happy = true))
    (hah : ¬ (s.angry = true ∧ s.happy = true))
    (h0 : 0 ≤ s.eyeLheightCurrent) (h1 : s.eyeLheightCurrent ≤ 263)
    (hn : isByte s.eyeLheightNext) :
    ((tick s now rnd).1.tired = s.tired ∧ (tick s now rnd).1.angry = s.angry ∧
      (tick s now rnd).1.happy = s.happy) ∧
    (0 ≤ (tick s now rnd).1.eyeLheightCurrent ∧ (tick s now rnd).1.eyeLheightCurrent ≤ 263) ∧
    (tick s now rnd).1.eyelidsTiredHeightNext =
      (if s.tired then Int.tdiv (tick s now rnd).1.eyeLheightCurrent 2 else 0) ∧
    (tick s now rnd).1.eyelidsAngryHeightNext =
      (if s.angry then Int.tdiv (tick s now rnd).1.eyeLheightCurrent 2 else 0) ∧
    (tick s now rnd).1.eyelidsHappyBottomOffsetNext =
      (if s.happy then Int.tdiv (tick s now rnd).1.eyeLheightCurrent 2 else 0) ∧
    (((tick s now rnd).1.eyelidsTiredHeightNext = 0 ∧
        (tick s now rnd).1.eyelidsAngryHeightNext = 0) ∨
      ((tick s now rnd).1.eyelidsTiredHeightNext = 0 ∧
        (tick s now rnd).1.eyelidsHappyBottomOffsetNext = 0) ∨
      ((tick s now rnd).1.eyelidsAngryHeightNext = 0 ∧
        (tick s now rnd).1.eyelidsHappyBottomOffsetNext = 0)) := by
  obtain ⟨a1, a2, a3, a4, a5, a6⟩ := tick_moodTargets s now rnd
  obtain ⟨r0, r1⟩ := tick_heightRange s now rnd h0 h1 hn
  have hb : toByte (Int.tdiv (tick s now rnd).1.eyeLheightCurrent 2) =
      Int.tdiv (tick s now rnd).1.eyeLheightCurrent 2 := by
    apply toByte_of_range <;> rw [tdiv_two] <;> split <;> omega
  rw [hb] at a1 a2 a3
  refine ⟨⟨a4, a5, a6⟩, ⟨r0, r1⟩, ?_, a2, a3, ?_⟩
  · rw [a1]
    cases ht : s.tired <;> cases ha : s.angry <;> simp_all
  · rw [a1, a2, a3]
    cases ht : s.tired <;> cases ha : s.angry <;> cases hh : s.happy <;> simp_all

/-- C20 on the animator of `main.cpp` in the tired mood: the first tick renders height 18 and
sets the tired target to 9. -/
theorem C20_mood_eyelid_targets_witness :
    ¬ ((setMood coldStart 1).tired = true ∧ (setMood coldStart 1).angry = true) ∧
    (0 ≤ (setMood coldStart 1).eyeLheightCurrent ∧ (setMood coldStart 1).eyeLheightCurrent ≤ 263) ∧
    isByte (setMood coldStart 1).eyeLheightNext ∧
    (tick (setMood coldStart 1) 10 zeroRng).1.eyelidsTiredHeightNext =
      (if (setMood coldStart 1).tired then
        Int.tdiv (tick (setMood coldStart 1) 10 zeroRng).1.eyeLheightCurrent 2 else 0) ∧
    (tick (setMood coldStart 1) 10 zeroRng).1.eyelidsTiredHeightNext = 9 :=
  ⟨by decide, by decide, by decide,
   (C20_mood_eyelid_targets (setMood coldStart 1) 10 zeroRng (by decide) (by decide) (by decide)
      (by decide) (by decide) (by decide)).2.2.1,
   by decide⟩

/-! ## C21: the eyelid of a mood that was switched off -/

theorem animate_eyelids (s : roboEyes) (now : Int) (rnd : Rng) :
    (animate s now rnd).eyelidsTiredHeight = s.eyelidsTiredHeight ∧
    (animate s now rnd).eyelidsAngryHeight = s.eyelidsAngryHeight ∧
    (animate s now rnd).eyelidsHappyBottomOffset = s.eyelidsHappyBottomOffset := by
  simp only [animate, cyclopsStep_eq, vFlickerStep_eq, hFlickerStep_eq, idleStep_eq,
    confusedStep_eq, laughStep_eq, autoblinkStep_eq, interpolate, tweenStep, reopenStep_eq,
    heightStep, curiosityStep_eq]
  exact ⟨trivial, trivial, trivial⟩

theorem tick_eyelids (s : roboEyes) (now : Int) (rnd : Rng) :
    (tick s now rnd).1.eyelidsTiredHeight =
      toByte (Int.tdiv (s.eyelidsTiredHeight + (tick s now rnd).1.eyelidsTiredHeightNext) 2) ∧
    (tick s now rnd).1.eyelidsAngryHeight =
      toByte (Int.tdiv (s.eyelidsAngryHeight + (tick s now rnd).1.eyelidsAngryHeightNext) 2) ∧
    (tick s now rnd).1.eyelidsHappyBottomOffset =
      toByte (Int.tdiv (s.eyelidsHappyBottomOffset +
        (tick s now rnd).1.eyelidsHappyBottomOffsetNext) 2) := by
  obtain ⟨e1, e2, e3⟩ := animate_eyelids s now rnd
  simp only [tick, drawEyes, sweatStep_fst_eq, moodStep_eq, e1, e2, e3]
  exact ⟨trivial, trivial, trivial⟩

theorem toByte_half (h : Int) (hb : isByte h) : toByte (Int.tdiv (h + 0) 2) = h / 2 := by
  obtain ⟨h0, h1⟩ := hb
  unfold toByte
  rw [tdiv_two]; split <;> omega

theorem tick_eyelidsOff (s : roboEyes) (now : Int) (rnd : Rng) :
    (s.tired = false → isByte s.eyelidsTiredHeight →
      (tick s now rnd).1.eyelidsTiredHeight = s.eyelidsTiredHeight / 2) ∧
    (s.angry = false → isByte s.eyelidsAngryHeight →
      (tick s now rnd).1.eyelidsAngryHeight = s.eyelidsAngryHeight / 2) ∧
    (s.happy = false → isByte s.eyelidsHappyBottomOffset →
      (tick s now rnd).1.eyelidsHappyBottomOffset = s.eyelidsHappyBottomOffset / 2) := by
  obtain ⟨e1, e2, e3⟩ := tick_eyelids s now rnd
  obtain ⟨a1, a2, a3, _, _, _⟩ := tick_moodTargets s now rnd
  refine ⟨?_, ?_, ?_⟩
  · intro h hb
    rw [e1, a1, h]
    simp only [Bool.false_eq_true, if_false, ite_self]
    exact toByte_half _ hb
  · intro h hb
    rw [e2, a2, h]
    simp only [Bool.false_eq_true, if_false]
    exact toByte_half _ hb
  · intro h hb
    rw [e3, a3, h]
    simp only [Bool.false_eq_true, if_false]
    exact toByte_half _ hb

theorem run_moods (s : roboEyes) (env : Nat → Int × Rng) (n : Nat) :
    (run s env n).tired = s.tired ∧ (run s env n).angry = s.angry ∧
    (run s env n).happy = s.happy := by
  induction n with
  | zero => exact ⟨rfl, rfl, rfl⟩
  | succ n ih =>
    obtain ⟨_, _, _, a4, a5, a6⟩ := tick_moodTargets (run s env n) (env n).1 (env n).2
    exact ⟨a4.trans ih.1, a5.trans ih.2.1, a6.trans ih.2.2⟩

theorem halving_bound (h0 h : Int) (n : Nat) (hh : 0 ≤ h) (hle : h * 2 ^ n ≤ h0) :
    0 ≤ h / 2 ∧ h / 2 * 2 ^ (n + 1) ≤ h0 := by
  have hp : (0 : Int) < 2 ^ n := by positivity
  have h2 : h / 2 * 2 ≤ h := by omega
  have h3 : h / 2 * 2 * 2 ^ n ≤ h * 2 ^ n := mul_le_mul_of_nonneg_right h2 hp.le
  refine ⟨by omega, ?_⟩
  rw [pow_succ]
  calc h / 2 * (2 ^ n * 2) = h / 2 * 2 * 2 ^ n := by ring
    _ ≤ h * 2 ^ n := h3
    _ ≤ h0 := hle

theorem halved_out (h0 h : Int) (n : Nat) (hn : 8 ≤ n) (hh : 0 ≤ h) (hb : h0 < 256)
    (hle : h * 2 ^ n ≤ h0) : h = 0 := by
  have hp : (2 : Int) ^ 8 ≤ 2 ^ n := pow_le_pow_right₀ (by norm_num) hn
  have h3 : h * 2 ^ 8 ≤ h * 2 ^ n := mul_le_mul_of_nonneg_left hp hh
  norm_num at h3
  omega

theorem run_eyelidsOff (s : roboEyes) (env : Nat → Int × Rng) (n : Nat) :
    (s.tired = false → isByte s.eyelidsTiredHeight →
      0 ≤ (run s env n).eyelidsTiredHeight ∧
      (run s env n).eyelidsTiredHeight * 2 ^ n ≤ s.eyelidsTiredHeight) ∧
    (s.angry = false → isByte s.eyelidsAngryHeight →
      0 ≤ (run s env n).eyelidsAngryHeight ∧
      (run s env n).eyelidsAngryHeight * 2 ^ n ≤ s.eyelidsAngryHeight) ∧
    (s.happy = false → isByte s.eyelidsHappyBottomOffset →
      0 ≤ (run s env n).eyelidsHappyBottomOffset ∧
      (run s env n).eyelidsHappyBottomOffset * 2 ^ n ≤ s.eyelidsHappyBottomOffset) := by
  induction n with
  | zero => simp [run, isByte]; omega
  | succ n ih =>
    obtain ⟨i1, i2, i3⟩ := ih
    obtain ⟨t1, t2, t3⟩ := tick_eyelidsOff (run s env n) (env n).1 (env n).2
    obtain ⟨m1, m2, m3⟩ := run_moods s env n
    have hp : (1 : Int) ≤ 2 ^ n := one_le_pow₀ (by norm_num)
    have key : ∀ x : Int, 0 ≤ x → x * 1 ≤ x * 2 ^ n :=
      fun x hx => mul_le_mul_of_nonneg_left hp hx
    refine ⟨?_, ?_, ?_⟩
    · intro h hb
      obtain ⟨r0, r1⟩ := i1 h hb
      show 0 ≤ (tick (run s env n) (env n).1 (env n).2).1.eyelidsTiredHeight ∧
        (tick (run s env n) (env n).1 (env n).2).1.eyelidsTiredHeight * 2 ^ (n + 1) ≤ _
      rw [t1 (m1.trans h) ⟨r0, by have := key _ r0; have := hb.2; omega⟩]
      exact halving_bound _ _ n r0 r1
    · intro h hb
      obtain ⟨r0, r1⟩ := i2 h hb
      show 0 ≤ (tick (run s env n) (env n).1 (env n).2).1.eyelidsAngryHeight ∧
        (tick (run s env n) (env n).1 (env n).2).1.eyelidsAngryHeight * 2 ^ (n + 1) ≤ _
      rw [t2 (m2.trans h) ⟨r0, by have := key _ r0; have := hb.2; omega⟩]
      exact halving_bound _ _ n r0 r1
    · intro h hb
      obtain ⟨r0, r1⟩ := i3 h hb
      show 0 ≤ (tick (run s env n) (env n).1 (env n).2).1.eyelidsHappyBottomOffset ∧
        (tick (run s env n) (env n).1 (env n).2).1.eyelidsHappyBottomOffset * 2 ^ (n + 1) ≤ _
      rw [t3 (m3.trans h) ⟨r0, by have := key _ r0; have := hb.2; omega⟩]
      exact halving_bound _ _ n r0 r1

theorem setMood_flags (s : roboEyes) (mood : Fin 256) :
    ((setMood s mood).tired = decide (mood.val = TIRED) ∧
     (setMood s mood).angry = decide (mood.val = ANGRY) ∧
     (setMood s mood).happy = decide (mood.val = HAPPY)) ∧
    (setMood s mood).eyelidsTiredHeight = s.eyelidsTiredHeight ∧
    (setMood s mood).eyelidsAngryHeight = s.eyelidsAngryHeight ∧
    (setMood s mood).eyelidsHappyBottomOffset = s.eyelidsHappyBottomOffset := by
  unfold setMood
  by_cases h1 : mood.val = TIRED
  · rw [if_pos h1]
    simp only [TIRED, ANGRY, HAPPY] at h1 ⊢
    simp [h1]
  · rw [if_neg h1]
    by_cases h2 : mood.val = ANGRY
    · rw [if_pos h2]
      simp only [TIRED, ANGRY, HAPPY] at h2 ⊢
      simp [h2]
    · rw [if_neg h2]
      by_cases h3 : mood.val = HAPPY
      · rw [if_pos h3]
        simp only [TIRED, ANGRY, HAPPY] at h3 ⊢
        simp [h3]
      · rw [if_neg h3]
        simp [h1, h2, h3]

/-- C21: the rendered eyelid heights are bytes. After `setMood(mood)`, whatever the state
was, every mood other than `mood` has its eyelid gone after 8 ticks and on every later tick
of the run: `eyelidsTiredHeight = 0` unless `mood` is `TIRED`, `eyelidsAngryHeight = 0`
unless it is `ANGRY`, `eyelidsHappyBottomOffset = 0` unless it is `HAPPY`; so after
`setMood(HAPPY)` the tired and the angry height are both 0 from tick 8 on. Tick by tick, in
any state whose mood flag is off, the tick leaves the flag off and halves the rendered
height of that mood's eyelid (integer division, so 0 stays 0). -/
theorem C21_eyelid_disappears (s : roboEyes) (mood : Fin 256) (env : Nat → Int × Rng)
    (ht : isByte s.eyelidsTiredHeight) (ha : isByte s.eyelidsAngryHeight)
    (hh : isByte s.eyelidsHappyBottomOffset) :
    (mood.val ≠ TIRED → ∀ n, 8 ≤ n → (run (setMood s mood) env n).eyelidsTiredHeight = 0) ∧
    (mood.val ≠ ANGRY → ∀ n, 8 ≤ n → (run (setMood s mood) env n).eyelidsAngryHeight = 0) ∧
    (mood.val ≠ HAPPY → ∀ n, 8 ≤ n →
      (run (setMood s mood) env n).eyelidsHappyBottomOffset = 0) ∧
    (mood.val = HAPPY → ∀ n, 8 ≤ n →
      (run (setMood s mood) env n).eyelidsTiredHeight = 0 ∧
      (run (setMood s mood) env n).eyelidsAngryHeight = 0) ∧
    (∀ (now : Int) (rnd : Rng),
      (s.tired = false →
        (tick s now rnd).1.tired = false ∧
        (tick s now rnd).1.eyelidsTiredHeight = s.eyelidsTiredHeight / 2) ∧
      (s.angry = false →
        (tick s now rnd).1.angry = false ∧
        (tick s now rnd).1.eyelidsAngryHeight = s.eyelidsAngryHeight / 2) ∧
      (s.happy = false →
        (tick s now rnd).1.happy = false ∧
        (tick s now rnd).1.eyelidsHappyBottomOffset = s.eyelidsHappyBottomOffset / 2)) := by
  obtain ⟨⟨f1, f2, f3⟩, g1, g2, g3⟩ := setMood_flags s mood
  obtain ⟨ht0, ht1⟩ := ht
  obtain ⟨ha0, ha1⟩ := ha
  obtain ⟨hh0, hh1⟩ := hh
  have p1 : mood.val ≠ TIRED → ∀ n, 8 ≤ n →
      (run (setMood s mood) env n).eyelidsTiredHeight = 0 := by
    intro hm n hn
    obtain ⟨r0, r1⟩ := (run_eyelidsOff (setMood s mood) env n).1 (by rw [f1]; simp [hm])
      (by rw [g1]; exact ⟨ht0, ht1⟩)
    rw [g1] at r1
    exact halved_out _ _ n hn r0 ht1 r1
  have p2 : mood.val ≠ ANGRY → ∀ n, 8 ≤ n →
      (run (setMood s mood) env n).eyelidsAngryHeight = 0 := by
    intro hm n hn
    obtain ⟨r0, r1⟩ := (run_eyelidsOff (setMood s mood) env n).2.1 (by rw [f2]; simp [hm])
      (by rw [g2]; exact ⟨ha0, ha1⟩)
    rw [g2] at r1
    exact halved_out _ _ n hn r0 ha1 r1
  have p3 : mood.val ≠ HAPPY → ∀ n, 8 ≤ n →
      (run (setMood s mood) env n).eyelidsHappyBottomOffset = 0 := by
    intro hm n hn
    obtain ⟨r0, r1⟩ := (run_eyelidsOff (setMood s mood) env n).2.2 (by rw [f3]; simp [hm])
      (by rw [g3]; exact ⟨hh0, hh1⟩)
    rw [g3] at r1
    exact halved_out _ _ n hn r0 hh1 r1
  refine ⟨p1, p2, p3, ?_, ?_⟩
  · intro hm n hn
    exact ⟨p1 (by rw [hm]; decide) n hn, p2 (by rw [hm]; decide) n hn⟩
  · intro now rnd
    obtain ⟨t1, t2, t3⟩ := tick_eyelidsOff s now rnd
    obtain ⟨_, _, _, a4, a5, a6⟩ := tick_moodTargets s now rnd
    exact ⟨fun h => ⟨a4.trans h, t1 h ⟨ht0, ht1⟩⟩, fun h => ⟨a5.trans h, t2 h ⟨ha0, ha1⟩⟩,
      fun h => ⟨a6.trans h, t3 h ⟨hh0, hh1⟩⟩⟩

set_option maxRecDepth 100000 in
/-- C21 on the animator of `main.cpp`: the tired eyelid is down at height 16 when
`setMood(HAPPY)` is called; 8 ticks later its height is 0 and the happy overlay is up. -/
theorem C21_eyelid_disappears_witness :
    (isByte tiredEyes.eyelidsTiredHeight ∧ isByte tiredEyes.eyelidsAngryHeight ∧
      isByte tiredEyes.eyelidsHappyBottomOffset) ∧
    tiredEyes.eyelidsTiredHeight = 16 ∧
    ((run (setMood tiredEyes 3) (pacedFrom 80) 8).eyelidsTiredHeight = 0 ∧
      (run (setMood tiredEyes 3) (pacedFrom 80) 8).eyelidsAngryHeight = 0) ∧
    (run (setMood tiredEyes 3) (pacedFrom 80) 8).eyelidsHappyBottomOffset = 16 :=
  ⟨by decide, by decide,
   (C21_eyelid_disappears tiredEyes 3 (pacedFrom 80) (by decide) (by decide) (by decide)).2.2.2.1
     (by decide) 8 (le_refl 8),
   by decide⟩

/-! ## C22: the right eye's target is derived from the left eye's -/

/-- C22: after a tick with cyclops off in which the idle repositioning does not fire (idle
mode off, or the clock still before `idleAnimationTimer`), the right eye's target is the
left eye's target moved right by the left eye's current width and the current spacing, and
its y target is the left eye's, whatever `eyeRxNext` and `eyeRyNext` were before the tick;
the left eye's target is the one from before the tick. -/
theorem C22_right_target_derived (s : roboEyes) (now : Int) (rnd : Rng)
    (hcy : s.cyclops = false) (hidle : ¬ (s.idle = true ∧ now ≥ s.idleAnimationTimer)) :
    (tick s now rnd).1.eyeRxNext =
      (tick s now rnd).1.eyeLxNext + (tick s now rnd).1.eyeLwidthCurrent +
        (tick s now rnd).1.spaceBetweenCurrent ∧
    (tick s now rnd).1.eyeRyNext = (tick s now rnd).1.eyeLyNext ∧
    ((tick s now rnd).1.eyeLxNext = s.eyeLxNext ∧ (tick s now rnd).1.eyeLyNext = s.eyeLyNext) ∧
    (∀ (x y : Int),
      (tick { s with eyeRxNext := x, eyeRyNext := y } now rnd).1.eyeRxNext =
        (tick s now rnd).1.eyeRxNext ∧
      (tick { s with eyeRxNext := x, eyeRyNext := y } now rnd).1.eyeRyNext =
        (tick s now rnd).1.eyeRyNext) := by
  simp only [tick, drawEyes, sweatStep_fst_eq, moodStep_eq, animate, cyclopsStep_eq, vFlickerStep_eq, hFlickerStep_eq, idleStep_eq,
    confusedStep_eq, laughStep_eq, autoblinkStep_eq, interpolate, tweenStep, reopenStep_eq,
    heightStep, curiosityStep_eq]
  simp only [not_and, not_le, ge_iff_le] at hidle
  by_cases hi : s.idle = true
  · have := hidle hi
    simp [hcy, hi, not_le.mpr this]
  · simp [hcy, hi]

/-- C22 on the animator of `main.cpp` looking east with a stray right target (999, -7): the
tick puts the right target at 46 + 36 + 10 = 92 and at the left eye's y target 14. -/
theorem C22_right_target_derived_witness :
    strayRightTarget.cyclops = false ∧
    ¬ (strayRightTarget.idle = true ∧ (10 : Int) ≥ strayRightTarget.idleAnimationTimer) ∧
    (tick strayRightTarget 10 zeroRng).1.eyeRxNext =
      (tick strayRightTarget 10 zeroRng).1.eyeLxNext +
        (tick strayRightTarget 10 zeroRng).1.eyeLwidthCurrent +
        (tick strayRightTarget 10 zeroRng).1.spaceBetweenCurrent ∧
    (tick strayRightTarget 10 zeroRng).1.eyeRxNext = 92 ∧
    (tick strayRightTarget 10 zeroRng).1.eyeRyNext = 14 :=
  ⟨by decide, by decide,
   (C22_right_target_derived strayRightTarget 10 zeroRng (by decide) (by decide)).1,
   by decide, by decide⟩

/-! ## C23: the curiosity height offset -/

/-- C23: after a tick each height offset is 0 or 8, decided by the state before the tick.
With curious off both are 0. With curious on, the left offset is 8 exactly when
`eyeLxNext <= 10`, or cyclops is on and `eyeLxNext >= getScreenConstraint_X() - 10`, and
the right offset is 8 exactly when `eyeRxNext >= screenWidth - eyeRwidthCurrent - 10`. -/
theorem C23_curiosity_offset (s : roboEyes) (now : Int) (rnd : Rng) :
    (((tick s now rnd).1.eyeLheightOffset = 0 ∨ (tick s now rnd).1.eyeLheightOffset = 8) ∧
     ((tick s now rnd).1.eyeRheightOffset = 0 ∨ (tick s now rnd).1.eyeRheightOffset = 8)) ∧
    (s.curious = false →
      (tick s now rnd).1.eyeLheightOffset = 0 ∧ (tick s now rnd).1.eyeRheightOffset = 0) ∧
    (s.curious = true →
      ((tick s now rnd).1.eyeLheightOffset = 8 ↔
        (s.eyeLxNext ≤ 10 ∨
          (s.cyclops = true ∧ s.eyeLxNext ≥ getScreenConstraint_X s - 10))) ∧
      ((tick s now rnd).1.eyeRheightOffset = 8 ↔
        s.eyeRxNext ≥ s.screenWidth - s.eyeRwidthCurrent - 10)) := by
  have hL : (tick s now rnd).1.eyeLheightOffset =
      if s.curious = true then
        (if s.eyeLxNext ≤ 10 then 8
         else if s.eyeLxNext ≥ getScreenConstraint_X s - 10 ∧ s.cyclops = true then 8 else 0)
      else 0 := by
    simp only [tick, drawEyes, sweatStep_fst_eq, moodStep_eq, animate, cyclopsStep_eq, vFlickerStep_eq, hFlickerStep_eq, idleStep_eq,
      confusedStep_eq, laughStep_eq, autoblinkStep_eq, interpolate, tweenStep, reopenStep_eq,
      heightStep, curiosityStep_eq]
  have hR : (tick s now rnd).1.eyeRheightOffset =
      if s.curious = true then
        (if s.eyeRxNext ≥ s.screenWidth - s.eyeRwidthCurrent - 10 then 8 else 0)
      else 0 := by
    simp only [tick, drawEyes, sweatStep_fst_eq, moodStep_eq, animate, cyclopsStep_eq, vFlickerStep_eq, hFlickerStep_eq, idleStep_eq,
      confusedStep_eq, laughStep_eq, autoblinkStep_eq, interpolate, tweenStep, reopenStep_eq,
      heightStep, curiosityStep_eq]
  rw [hL, hR]
  refine ⟨⟨?_, ?_⟩, ?_, ?_⟩
  · split_ifs <;> simp
  · split_ifs <;> simp
  · intro h; simp [h]
  · intro h
    simp only [h, if_true]
    constructor
    · split_ifs with h1 h2
      · simp [h1]
      · simp [h2.1, h2.2]
      · simp only [not_and] at h2
        simp only [show ((0 : Int) = 8) = False by simp, false_iff, not_or, not_and]
        exact ⟨h1, fun hc hx => h2 hx hc⟩
    · split_ifs with h1
      · simp [h1]
      · simp [h1]

/-! ## C24: vertical centring at rest -/

theorem tick_eyeLy_calm (s : roboEyes) (now : Int) (rnd : Rng)
    (hcu : s.curious = false) (hvf : s.vFlicker = false)
    (hl : ¬ (s.laugh = true ∧ s.laughToggle = true)) :
    (tick s now rnd).1.eyeLheightCurrent = Int.tdiv (s.eyeLheightCurrent + s.eyeLheightNext) 2 ∧
    (tick s now rnd).1.eyeLy =
      Int.tdiv (s.eyeLy +
        Int.tdiv (s.eyeLheightDefault - Int.tdiv (s.eyeLheightCurrent + s.eyeLheightNext) 2) 2 +
        s.eyeLyNext) 2 := by
  simp only [tick, drawEyes, sweatStep_fst_eq, moodStep_eq, animate, cyclopsStep_eq, vFlickerStep_eq, hFlickerStep_eq, idleStep_eq,
    confusedStep_eq, laughStep_eq, autoblinkStep_eq, interpolate, tweenStep, reopenStep_eq,
    heightStep, curiosityStep_eq]
  cases h1 : s.laugh <;> cases h2 : s.laughToggle <;> simp_all

set_option maxRecDepth 100000 in
/-- C24 as stated fails in two ways on the animator of `main.cpp`. With the eyes at rest
(curiosity and vertical flicker off, height 35 not changed by a tick, `eyeLy` = 14 =
`eyeLyNext + (36 - 35) / 2`), the tick after `anim_laugh()` starts the vertical flicker
and leaves `eyeLy` at 9. And after `close()` the eye comes to rest at height 1 with `eyeLy`
= 30, one row above `eyeLyNext + (36 - 1) / 2` = 31, and stays there. -/
theorem C24_centring_fails :
    ((anim_laugh restingEyes).curious = false ∧ (anim_laugh restingEyes).vFlicker = false ∧
      (tick (anim_laugh restingEyes) 130 zeroRng).1.eyeLheightCurrent =
        (anim_laugh restingEyes).eyeLheightCurrent ∧
      (anim_laugh restingEyes).eyeLy =
        (anim_laugh restingEyes).eyeLyNext +
          Int.tdiv ((anim_laugh restingEyes).eyeLheightDefault -
            (anim_laugh restingEyes).eyeLheightCurrent) 2 ∧
      (anim_laugh restingEyes).eyeLy = 14 ∧
      (tick (anim_laugh restingEyes) 130 zeroRng).1.eyeLy = 9) ∧
    ((run (close restingEyes) (pacedFrom 120) 9).eyeLheightCurrent = 1 ∧
      (run (close restingEyes) (pacedFrom 120) 9).eyeLy = 30 ∧
      (run (close restingEyes) (pacedFrom 120) 10).eyeLheightCurrent = 1 ∧
      (run (close restingEyes) (pacedFrom 120) 10).eyeLy = 30 ∧
      (run (close restingEyes) (pacedFrom 120) 9).eyeLyNext +
        Int.tdiv ((run (close restingEyes) (pacedFrom 120) 9).eyeLheightDefault - 1) 2 = 31) := by
  decide

/-- C24, amended: in a state with curiosity and vertical flicker off and no laugh animation
about to start (not `laugh` with `laughToggle` armed), whose left eye height is at rest (the
tick does not change `eyeLheightCurrent`), a tick leaves `eyeLy` unchanged when `eyeLy` =
`eyeLyNext + (eyeLheightDefault - eyeLheightCurrent) / 2`; in particular a fully closed eye
(height 1) placed at `eyeLyNext + (eyeLheightDefault - 1) / 2` stays there. That position is
not the only one at rest: as long as the sum averaged for the new y is not negative, a tick
leaves `eyeLy` unchanged exactly when `eyeLy` is that position or the row above it. -/
theorem C24_vertical_centring (s : roboEyes) (now : Int) (rnd : Rng)
    (hcu : s.curious = false) (hvf : s.vFlicker = false)
    (hl : ¬ (s.laugh = true ∧ s.laughToggle = true))
    (hrest : (tick s now rnd).1.eyeLheightCurrent = s.eyeLheightCurrent) :
    (s.eyeLy = s.eyeLyNext + Int.tdiv (s.eyeLheightDefault - s.eyeLheightCurrent) 2 →
      (tick s now rnd).1.eyeLy = s.eyeLy) ∧
    (s.eyeLheightCurrent = 1 →
      s.eyeLy = s.eyeLyNext + Int.tdiv (s.eyeLheightDefault - 1) 2 →
      (tick s now rnd).1.eyeLheightCurrent = 1 ∧ (tick s now rnd).1.eyeLy = s.eyeLy) ∧
    (0 ≤ s.eyeLy + Int.tdiv (s.eyeLheightDefault - s.eyeLheightCurrent) 2 + s.eyeLyNext →
      ((tick s now rnd).1.eyeLy = s.eyeLy ↔
        (s.eyeLy = s.eyeLyNext + Int.tdiv (s.eyeLheightDefault - s.eyeLheightCurrent) 2 ∨
         s.eyeLy =
           s.eyeLyNext + Int.tdiv (s.eyeLheightDefault - s.eyeLheightCurrent) 2 - 1))) := by
  obtain ⟨e1, e2⟩ := tick_eyeLy_calm s now rnd hcu hvf hl
  rw [e1] at hrest
  rw [hrest] at e2
  have h1 : s.eyeLy = s.eyeLyNext + Int.tdiv (s.eyeLheightDefault - s.eyeLheightCurrent) 2 →
      (tick s now rnd).1.eyeLy = s.eyeLy := by
    intro hy
    rw [e2]
    generalize Int.tdiv (s.eyeLheightDefault - s.eyeLheightCurrent) 2 = k at hy ⊢
    rw [tdiv_two]; split <;> omega
  refine ⟨h1, ?_, ?_⟩
  · intro hc hy
    rw [← hc] at hy
    exact ⟨by rw [e1, hrest, hc], h1 hy⟩
  · intro h0
    rw [e2]
    generalize Int.tdiv (s.eyeLheightDefault - s.eyeLheightCurrent) 2 = k at h0 ⊢
    rw [tdiv_two, if_pos h0]
    constructor <;> intro h <;> omega

set_option maxRecDepth 100000 in
/-- C24 on the animator of `main.cpp` at rest: the eye is at height 35 and y = 14, and the
next tick leaves it at y = 14. -/
theorem C24_vertical_centring_witness :
    restingEyes.curious = false ∧ restingEyes.vFlicker = false ∧
    ¬ (restingEyes.laugh = true ∧ restingEyes.laughToggle = true) ∧
    (tick restingEyes 130 zeroRng).1.eyeLheightCurrent = restingEyes.eyeLheightCurrent ∧
    restingEyes.eyeLy =
      restingEyes.eyeLyNext +
        Int.tdiv (restingEyes.eyeLheightDefault - restingEyes.eyeLheightCurrent) 2 ∧
    (tick restingEyes 130 zeroRng).1.eyeLy = restingEyes.eyeLy ∧ restingEyes.eyeLy = 14 :=
  ⟨by decide, by decide, by decide, by decide, by decide,
   (C24_vertical_centring restingEyes 130 zeroRng (by decide) (by decide) (by decide)
      (by decide)).1 (by decide),
   by decide⟩

/-! ## C25 and C26: flicker and the confused animation -/

theorem interpolate_frameH (s : roboEyes) :
    (interpolate s).confused = s.confused ∧ (interpolate s).confusedToggle = s.confusedToggle ∧
    (interpolate s).confusedAnimationTimer = s.confusedAnimationTimer ∧
    (interpolate s).confusedAnimationDuration = s.confusedAnimationDuration ∧
    (interpolate s).hFlicker = s.hFlicker ∧ (interpolate s).hFlickerAlternate = s.hFlickerAlternate ∧
    (interpolate s).hFlickerAmplitude = s.hFlickerAmplitude ∧
    (interpolate s).eyeLxNext = s.eyeLxNext ∧ (interpolate s).eyeLyNext = s.eyeLyNext := by
  simp only [interpolate, tweenStep, reopenStep_eq, heightStep, curiosityStep_eq]
  simp

theorem tick_confused (s : roboEyes) (now : Int) (rnd : Rng) :
    (tick s now rnd).1.hFlicker =
      (if s.confused then
        (if s.confusedToggle then true
         else if now ≥ toULong (s.confusedAnimationTimer + s.confusedAnimationDuration) then false
         else s.hFlicker)
       else s.hFlicker) ∧
    (tick s now rnd).1.hFlickerAmplitude =
      (if s.confused then
        (if s.confusedToggle then 20
         else if now ≥ toULong (s.confusedAnimationTimer + s.confusedAnimationDuration) then 0
         else s.hFlickerAmplitude)
       else s.hFlickerAmplitude) ∧
    (tick s now rnd).1.confusedAnimationTimer =
      (if s.confused then (if s.confusedToggle then now else s.confusedAnimationTimer)
       else s.confusedAnimationTimer) ∧
    (tick s now rnd).1.confusedToggle =
      (if s.confused then
        (if s.confusedToggle then false
         else if now ≥ toULong (s.confusedAnimationTimer + s.confusedAnimationDuration) then true
         else s.confusedToggle)
       else s.confusedToggle) ∧
    (tick s now rnd).1.confused =
      (if s.confused then
        (if s.confusedToggle then s.confused
         else if now ≥ toULong (s.confusedAnimationTimer + s.confusedAnimationDuration) then false
         else s.confused)
       else s.confused) ∧
    (tick s now rnd).1.confusedAnimationDuration = s.confusedAnimationDuration := by
  obtain ⟨a1, a2, a3, a4, a5, a6, a7, _, _⟩ := interpolate_frameH s
  obtain ⟨_, _, _, _, _, _, b7, b8, b9, b10, b11, b12, b13, _⟩ := interpolate_frame s
  simp only [tick, drawEyes, sweatStep_fst_eq, moodStep_eq, animate, cyclopsStep_eq, vFlickerStep_eq, hFlickerStep_eq, idleStep_eq,
    confusedStep_eq, laughStep_eq, autoblinkStep_eq, a1, a2, a3, a4, a5, a6, a7, b7, b8, b9, b10, b11, b12, b13]
  simp

theorem tick_hFlicker (s : roboEyes) (now : Int) (rnd : Rng) :
    (tick s now rnd).1.eyeLx =
      (if (tick s now rnd).1.hFlicker then
        (if s.hFlickerAlternate then (interpolate s).eyeLx + (tick s now rnd).1.hFlickerAmplitude
         else (interpolate s).eyeLx - (tick s now rnd).1.hFlickerAmplitude)
       else (interpolate s).eyeLx) ∧
    (tick s now rnd).1.eyeRx =
      (if (tick s now rnd).1.hFlicker then
        (if s.hFlickerAlternate then (interpolate s).eyeRx + (tick s now rnd).1.hFlickerAmplitude
         else (interpolate s).eyeRx - (tick s now rnd).1.hFlickerAmplitude)
       else (interpolate s).eyeRx) ∧
    (tick s now rnd).1.hFlickerAlternate =
      (if (tick s now rnd).1.hFlicker then !s.hFlickerAlternate else s.hFlickerAlternate) := by
  obtain ⟨a1, a2, a3, a4, a5, a6, a7, _, _⟩ := interpolate_frameH s
  obtain ⟨_, _, _, _, _, _, b7, b8, b9, b10, b11, b12, b13, _⟩ := interpolate_frame s
  simp only [tick, drawEyes, sweatStep_fst_eq, moodStep_eq, animate, cyclopsStep_eq, vFlickerStep_eq, hFlickerStep_eq, idleStep_eq,
    confusedStep_eq, laughStep_eq, autoblinkStep_eq, a1, a2, a3, a4, a5, a6, a7, b7, b8, b9, b10, b11, b12, b13]
  simp

theorem tick_hFlickerQuiet (s : roboEyes) (now : Int) (rnd : Rng) (hc : ConfusedQuiet s now) :
    (tick s now rnd).1.hFlicker = s.hFlicker ∧
    (tick s now rnd).1.hFlickerAmplitude = s.hFlickerAmplitude ∧
    ((tick s now rnd).1.confused = s.confused ∧
      (tick s now rnd).1.confusedToggle = s.confusedToggle ∧
      (tick s now rnd).1.confusedAnimationTimer = s.confusedAnimationTimer ∧
      (tick s now rnd).1.confusedAnimationDuration = s.confusedAnimationDuration) := by
  obtain ⟨a1, a2, a3, a4, a5, a6⟩ := tick_confused s now rnd
  rw [a1, a2, a3, a4, a5, a6]
  by_cases h : s.confused = true
  · obtain ⟨h1, h2⟩ := hc h
    simp [h, h1, not_le.mpr h2]
  · simp [h]

theorem tick_vFlickerQuiet (s : roboEyes) (now : Int) (rnd : Rng) (hl : LaughQuiet s now) :
    (tick s now rnd).1.vFlicker = s.vFlicker ∧
    (tick s now rnd).1.vFlickerAmplitude = s.vFlickerAmplitude ∧
    ((tick s now rnd).1.laugh = s.laugh ∧
      (tick s now rnd).1.laughToggle = s.laughToggle ∧
      (tick s now rnd).1.laughAnimationTimer = s.laughAnimationTimer ∧
      (tick s now rnd).1.laughAnimationDuration = s.laughAnimationDuration) := by
  obtain ⟨a1, a2, a3, a4, a5, a6⟩ := tick_laugh s now rnd
  rw [a1, a2, a3, a4, a5, a6]
  by_cases h : s.laugh = true
  · obtain ⟨h1, h2⟩ := hl h
    simp [h, h1, not_le.mpr h2]
  · simp [h]

theorem interpolate_eyeRx (s : roboEyes) :
    (interpolate s).eyeRx =
      Int.tdiv (s.eyeRx + (s.eyeLxNext + Int.tdiv (s.eyeLwidthCurrent + s.eyeLwidthNext) 2 +
        Int.tdiv (s.spaceBetweenCurrent + s.spaceBetweenNext) 2)) 2 := by
  simp only [interpolate, tweenStep, reopenStep_eq, heightStep, curiosityStep_eq]

/-- C25: take a tick in which neither one-shot animation changes the flicker settings. With
horizontal flicker enabled, the x of both eyes after the tick is the x the averaging left
(for the left eye `(eyeLx + eyeLxNext) / 2`) plus `hFlickerAmplitude` when
`hFlickerAlternate` is set and minus `hFlickerAmplitude` otherwise, the same displacement
for both eyes, and `hFlickerAlternate` is flipped; so the next such tick displaces by the
opposite amount. With horizontal flicker disabled the x of both eyes is the averaged x and
the bit is unchanged. The flicker statements do not write `eyeLxNext` or `eyeLyNext`. The
same holds for vertical flicker on the y of both eyes. -/
theorem C25_flicker_alternation (s : roboEyes) (now : Int) (rnd : Rng)
    (hc : ConfusedQuiet s now) (hl : LaughQuiet s now) :
    ((interpolate s).eyeLx = Int.tdiv (s.eyeLx + s.eyeLxNext) 2 ∧
      (∀ t : roboEyes, (hFlickerStep t).eyeLxNext = t.eyeLxNext ∧
        (hFlickerStep t).eyeLyNext = t.eyeLyNext ∧
        (vFlickerStep t).eyeLxNext = t.eyeLxNext ∧ (vFlickerStep t).eyeLyNext = t.eyeLyNext)) ∧
    (s.hFlicker = true →
      ((tick s now rnd).1.eyeLx =
          (if s.hFlickerAlternate then (interpolate s).eyeLx + s.hFlickerAmplitude
           else (interpolate s).eyeLx - s.hFlickerAmplitude) ∧
        (tick s now rnd).1.eyeRx =
          (if s.hFlickerAlternate then (interpolate s).eyeRx + s.hFlickerAmplitude
           else (interpolate s).eyeRx - s.hFlickerAmplitude) ∧
        (tick s now rnd).1.eyeLx - (interpolate s).eyeLx =
          (tick s now rnd).1.eyeRx - (interpolate s).eyeRx ∧
        (tick s now rnd).1.hFlickerAlternate = !s.hFlickerAlternate) ∧
      (∀ (now2 : Int) (rnd2 : Rng), ConfusedQuiet s now2 →
        (tick (tick s now rnd).1 now2 rnd2).1.eyeLx - (interpolate (tick s now rnd).1).eyeLx =
          -((tick s now rnd).1.eyeLx - (interpolate s).eyeLx) ∧
        (tick (tick s now rnd).1 now2 rnd2).1.eyeRx - (interpolate (tick s now rnd).1).eyeRx =
          -((tick s now rnd).1.eyeRx - (interpolate s).eyeRx))) ∧
    (s.hFlicker = false →
      (tick s now rnd).1.eyeLx = (interpolate s).eyeLx ∧
      (tick s now rnd).1.eyeRx = (interpolate s).eyeRx ∧
      (tick s now rnd).1.hFlickerAlternate = s.hFlickerAlternate) ∧
    (s.vFlicker = true →
      ((tick s now rnd).1.eyeLy =
          (if s.vFlickerAlternate then (interpolate s).eyeLy + s.vFlickerAmplitude
           else (interpolate s).eyeLy - s.vFlickerAmplitude) ∧
        (tick s now rnd).1.eyeRy =
          (if s.vFlickerAlternate then (interpolate s).eyeRy + s.vFlickerAmplitude
           else (interpolate s).eyeRy - s.vFlickerAmplitude) ∧
        (tick s now rnd).1.eyeLy - (interpolate s).eyeLy =
          (tick s now rnd).1.eyeRy - (interpolate s).eyeRy ∧
        (tick s now rnd).1.vFlickerAlternate = !s.vFlickerAlternate) ∧
      (∀ (now2 : Int) (rnd2 : Rng), LaughQuiet s now2 →
        (tick (tick s now rnd).1 now2 rnd2).1.eyeLy - (interpolate (tick s now rnd).1).eyeLy =
          -((tick s now rnd).1.eyeLy - (interpolate s).eyeLy) ∧
        (tick (tick s now rnd).1 now2 rnd2).1.eyeRy - (interpolate (tick s now rnd).1).eyeRy =
          -((tick s now rnd).1.eyeRy - (interpolate s).eyeRy))) ∧
    (s.vFlicker = false →
      (tick s now rnd).1.eyeLy = (interpolate s).eyeLy ∧
      (tick s now rnd).1.eyeRy = (interpolate s).eyeRy ∧
      (tick s now rnd).1.vFlickerAlternate = s.vFlickerAlternate) := by
  obtain ⟨q1, q2, q3, q4, q5, q6⟩ := tick_hFlickerQuiet s now rnd hc
  obtain ⟨x1, x2, x3⟩ := tick_hFlicker s now rnd
  obtain ⟨p1, p2, p3, p4, p5, p6⟩ := tick_vFlickerQuiet s now rnd hl
  obtain ⟨y1, y2, y3⟩ := tick_vFlicker s now rnd
  simp only [q1, q2] at x1 x2 x3
  simp only [p1, p2] at y1 y2 y3
  refine ⟨⟨interpolate_eyeLx s, ?_⟩, ?_, ?_, ?_, ?_⟩
  · intro t
    simp only [hFlickerStep_eq, vFlickerStep_eq]
    exact ⟨trivial, trivial, trivial, trivial⟩
  · intro h
    rw [h] at x1 x2 x3
    simp only [if_true] at x1 x2 x3
    refine ⟨⟨x1, x2, ?_, x3⟩, ?_⟩
    · rw [x1, x2]; split <;> omega
    · intro now2 rnd2 hc2
      have hc2' : ConfusedQuiet (tick s now rnd).1 now2 := by
        intro hcf
        rw [q3] at hcf
        rw [q4, q5, q6]
        exact hc2 hcf
      obtain ⟨r1, r2, _⟩ := tick_hFlickerQuiet (tick s now rnd).1 now2 rnd2 hc2'
      obtain ⟨z1, z2, _⟩ := tick_hFlicker (tick s now rnd).1 now2 rnd2
      simp only [r1, r2, q1, q2, h, x3, if_true] at z1 z2
      rw [z1, z2, x1, x2]
      cases s.hFlickerAlternate <;> simp
  · intro h
    rw [h] at x1 x2 x3
    simpa using ⟨x1, x2, x3⟩
  · intro h
    rw [h] at y1 y2 y3
    simp only [if_true] at y1 y2 y3
    refine ⟨⟨y1, y2, ?_, y3⟩, ?_⟩
    · rw [y1, y2]; split <;> omega
    · intro now2 rnd2 hl2
      have hl2' : LaughQuiet (tick s now rnd).1 now2 := by
        intro hlf
        rw [p3] at hlf
        rw [p4, p5, p6]
        exact hl2 hlf
      obtain ⟨r1, r2, _⟩ := tick_vFlickerQuiet (tick s now rnd).1 now2 rnd2 hl2'
      obtain ⟨z1, z2, _⟩ := tick_vFlicker (tick s now rnd).1 now2 rnd2
      simp only [r1, r2, p1, p2, h, y3, if_true] at z1 z2
      rw [z1, z2, y1, y2]
      cases s.vFlickerAlternate <;> simp
  · intro h
    rw [h] at y1 y2 y3
    simpa using ⟨y1, y2, y3⟩

set_option maxRecDepth 100000 in
/-- C25 on the animator of `main.cpp` at rest with `setHFlicker(true, 2)`: the averaged x of
the left eye is 23, the first tick draws it at 21 and flips the bit, and the second tick
displaces by +2 where the first displaced by -2. -/
theorem C25_flicker_alternation_witness :
    (ConfusedQuiet shiveringEyes 130 ∧ LaughQuiet shiveringEyes 130 ∧
      shiveringEyes.hFlicker = true ∧ ConfusedQuiet shiveringEyes 140) ∧
    ((tick shiveringEyes 130 zeroRng).1.eyeLx =
        (if shiveringEyes.hFlickerAlternate then
          (interpolate shiveringEyes).eyeLx + shiveringEyes.hFlickerAmplitude
         else (interpolate shiveringEyes).eyeLx - shiveringEyes.hFlickerAmplitude) ∧
      (tick shiveringEyes 130 zeroRng).1.eyeLx = 21 ∧
      (tick shiveringEyes 130 zeroRng).1.hFlickerAlternate = true) ∧
    ((tick (tick shiveringEyes 130 zeroRng).1 140 zeroRng).1.eyeLx -
        (interpolate (tick shiveringEyes 130 zeroRng).1).eyeLx =
      -((tick shiveringEyes 130 zeroRng).1.eyeLx - (interpolate shiveringEyes).eyeLx) ∧
      (tick (tick shiveringEyes 130 zeroRng).1 140 zeroRng).1.eyeLx = 24) :=
  ⟨by decide,
   ⟨((C25_flicker_alternation shiveringEyes 130 zeroRng (by decide) (by decide)).2.1
      (by decide)).1.1, by decide, by decide⟩,
   ⟨(((C25_flicker_alternation shiveringEyes 130 zeroRng (by decide) (by decide)).2.1
      (by decide)).2 140 zeroRng (by decide)).1, by decide⟩⟩

set_option maxRecDepth 100000 in
/-- C26: the code ends a running confused animation before its duration when start plus
duration passes `2^32`. On the animator of `main.cpp`, `anim_confused()` and the tick at
clock value 4294967000 start the animation (flag set, toggle disarmed, start time
4294967000, duration 500, horizontal flicker on with amplitude 20); the tick at 4294967010,
10 ms later and before 4294967000 + 500, already ends it: horizontal flicker off, confused
flag cleared, toggle re-armed. The source compares `millis()` with the `unsigned long` sum,
which has wrapped to 204. -/
theorem C26_confused_ends_early :
    (tick (anim_confused coldStart) 4294967000 zeroRng).1.confused = true ∧
    (tick (anim_confused coldStart) 4294967000 zeroRng).1.confusedToggle = false ∧
    (tick (anim_confused coldStart) 4294967000 zeroRng).1.confusedAnimationTimer = 4294967000 ∧
    (tick (anim_confused coldStart) 4294967000 zeroRng).1.confusedAnimationDuration = 500 ∧
    (tick (anim_confused coldStart) 4294967000 zeroRng).1.hFlicker = true ∧
    (tick (anim_confused coldStart) 4294967000 zeroRng).1.hFlickerAmplitude = 20 ∧
    (4294967010 : Int) < 4294967000 + 500 ∧
    (tick (tick (anim_confused coldStart) 4294967000 zeroRng).1 4294967010 zeroRng).1.confused = false ∧
    (tick (tick (anim_confused coldStart) 4294967000 zeroRng).1 4294967010 zeroRng).1.confusedToggle = true ∧
    (tick (tick (anim_confused coldStart) 4294967000 zeroRng).1 4294967010 zeroRng).1.hFlicker = false := by
  decide

/-- What a tick does to a requested confused animation (confused flag set). With
`confusedToggle` armed it enables horizontal flicker with amplitude 20, records the start
time `now` and disarms the toggle. With the toggle disarmed, start time `s` and duration
`d`, and `e` the `unsigned long` value of `s + d`, that is `(s + d) mod 2^32`: a tick with
`now >= e` disables horizontal flicker (amplitude 0), re-arms the toggle and clears the
flag, and a tick with `now < e` leaves the flag, the toggle, the start time and the
horizontal flicker's enabled flag and amplitude unchanged; whenever `s + d` is not negative
and below `2^32`, `e` is `s + d` itself. The statement group of the animation writes no
field of the vertical flicker. -/
theorem tick_confusedCompletion (s : roboEyes) (now : Int) (rnd : Rng)
    (hc : s.confused = true) :
    (s.confusedToggle = true →
      (tick s now rnd).1.hFlicker = true ∧ (tick s now rnd).1.hFlickerAmplitude = 20 ∧
      (tick s now rnd).1.confusedAnimationTimer = now ∧
      (tick s now rnd).1.confusedToggle = false ∧ (tick s now rnd).1.confused = true) ∧
    (s.confusedToggle = false →
      ((s.confusedAnimationTimer + s.confusedAnimationDuration) % 4294967296 ≤ now →
        (tick s now rnd).1.hFlicker = false ∧ (tick s now rnd).1.hFlickerAmplitude = 0 ∧
        (tick s now rnd).1.confusedToggle = true ∧ (tick s now rnd).1.confused = false) ∧
      (now < (s.confusedAnimationTimer + s.confusedAnimationDuration) % 4294967296 →
        (tick s now rnd).1.confused = true ∧ (tick s now rnd).1.confusedToggle = false ∧
        (tick s now rnd).1.confusedAnimationTimer = s.confusedAnimationTimer ∧
        (tick s now rnd).1.hFlicker = s.hFlicker ∧
        (tick s now rnd).1.hFlickerAmplitude = s.hFlickerAmplitude) ∧
      (0 ≤ s.confusedAnimationTimer + s.confusedAnimationDuration →
        s.confusedAnimationTimer + s.confusedAnimationDuration < 4294967296 →
        (s.confusedAnimationTimer + s.confusedAnimationDuration) % 4294967296 =
          s.confusedAnimationTimer + s.confusedAnimationDuration)) ∧
    (∀ t : roboEyes, (confusedStep t now).vFlicker = t.vFlicker ∧
      (confusedStep t now).vFlickerAlternate = t.vFlickerAlternate ∧
      (confusedStep t now).vFlickerAmplitude = t.vFlickerAmplitude) := by
  obtain ⟨a1, a2, a3, a4, a5, _⟩ := tick_confused s now rnd
  rw [hc] at a1 a2 a3 a4 a5
  simp only [if_true] at a1 a2 a3 a4 a5
  refine ⟨?_, ?_, ?_⟩
  · intro ht
    rw [ht] at a1 a2 a3 a4 a5
    simp only [if_true] at a1 a2 a3 a4 a5
    exact ⟨a1, a2, a3, a4, a5⟩
  · intro ht
    rw [ht] at a1 a2 a3 a4 a5
    simp only [Bool.false_eq_true, if_false] at a1 a2 a3 a4 a5
    refine ⟨?_, ?_, ?_⟩
    · intro h
      have h' : now ≥ toULong (s.confusedAnimationTimer + s.confusedAnimationDuration) := h
      rw [if_pos h'] at a1 a2 a4 a5
      exact ⟨a1, a2, a4, a5⟩
    · intro h
      have h' : ¬ now ≥ toULong (s.confusedAnimationTimer + s.confusedAnimationDuration) := by
        unfold toULong; omega
      rw [if_neg h'] at a1 a2 a4 a5
      exact ⟨a5, a4, a3, a1, a2⟩
    · intro h0 h1
      omega
  · intro t
    simp only [confusedStep_eq]
    exact ⟨trivial, trivial, trivial⟩

/-- The confused animation started at clock value 5020 on the animator of `main.cpp` is
still running at 5519 and ends at 5520. -/
theorem tick_confusedCompletion_example :
    (tick (anim_confused coldStart) 5020 zeroRng).1.confused = true ∧
    (tick (anim_confused coldStart) 5020 zeroRng).1.confusedToggle = false ∧
    (tick (anim_confused coldStart) 5020 zeroRng).1.hFlickerAmplitude = 20 ∧
    (tick (tick (anim_confused coldStart) 5020 zeroRng).1 5519 zeroRng).1.confused = true ∧
    (tick (tick (anim_confused coldStart) 5020 zeroRng).1 5520 zeroRng).1.confused = false :=
  ⟨by decide, by decide,
   ((tick_confusedCompletion (anim_confused coldStart) 5020 zeroRng (by decide)).1
      (by decide)).2.1,
   (((tick_confusedCompletion (tick (anim_confused coldStart) 5020 zeroRng).1 5519 zeroRng
      (by decide)).2.1 (by decide)).2.1 (by decide)).1,
   (((tick_confusedCompletion (tick (anim_confused coldStart) 5020 zeroRng).1 5520 zeroRng
      (by decide)).2.1 (by decide)).1 (by decide)).2.2.2⟩

/-! ## C27 and C28: the order of the draw calls and the eyelid triangles -/

theorem tick_colors (s : roboEyes) (now : Int) (rnd : Rng) :
    (tick s now rnd).1.MAINCOLOR = s.MAINCOLOR ∧ (tick s now rnd).1.BGCOLOR = s.BGCOLOR := by
  simp only [tick, drawEyes, sweatStep_fst_eq, moodStep_eq, animate, cyclopsStep_eq, vFlickerStep_eq, hFlickerStep_eq, idleStep_eq,
    confusedStep_eq, laughStep_eq, autoblinkStep_eq, interpolate, tweenStep, reopenStep_eq,
    heightStep, curiosityStep_eq]
  exact ⟨trivial, trivial⟩

/-- C27: an `update()` that passes the frame gate with sweat off issues these display calls,
in this order, all arguments being the values in the state it leaves behind (`t`): clear;
the left eye body, a rounded rectangle in `MAINCOLOR`; with cyclops off the right eye body
likewise; the two tired triangles, then the two angry triangles, in `BGCOLOR`; the happy
overlay rectangle of the left eye and, with cyclops off, of the right eye, in `BGCOLOR`;
present. That is 10 calls with cyclops off and 8 with cyclops on, where both triangles of a
pair lie on the single eye. The tick changes neither the cyclops flag nor the colours. -/
theorem C27_compositor_order (s : roboEyes) (now : Int) (rnd : Rng)
    (hg : (now - s.fpsTimer) % 4294967296 ≥ s.frameInterval % 4294967296)
    (hs : s.sweat = false) :
    let t := (update s now rnd).1
    (t.cyclops = s.cyclops ∧ t.MAINCOLOR = s.MAINCOLOR ∧ t.BGCOLOR = s.BGCOLOR) ∧
    (s.cyclops = false →
      (update s now rnd).2 =
        [DrawCall.clearDisplay,
         DrawCall.fillRoundRect t.eyeLx t.eyeLy t.eyeLwidthCurrent t.eyeLheightCurrent
           t.eyeLborderRadiusCurrent t.MAINCOLOR,
         DrawCall.fillRoundRect t.eyeRx t.eyeRy t.eyeRwidthCurrent t.eyeRheightCurrent
           t.eyeRborderRadiusCurrent t.MAINCOLOR,
         DrawCall.fillTriangle t.eyeLx (t.eyeLy - 1) (t.eyeLx + t.eyeLwidthCurrent) (t.eyeLy - 1)
           t.eyeLx (t.eyeLy + t.eyelidsTiredHeight - 1) t.BGCOLOR,
         DrawCall.fillTriangle t.eyeRx (t.eyeRy - 1) (t.eyeRx + t.eyeRwidthCurrent) (t.eyeRy - 1)
           (t.eyeRx + t.eyeRwidthCurrent) (t.eyeRy + t.eyelidsTiredHeight - 1) t.BGCOLOR,
         DrawCall.fillTriangle t.eyeLx (t.eyeLy - 1) (t.eyeLx + t.eyeLwidthCurrent) (t.eyeLy - 1)
           (t.eyeLx + t.eyeLwidthCurrent) (t.eyeLy + t.eyelidsAngryHeight - 1) t.BGCOLOR,
         DrawCall.fillTriangle t.eyeRx (t.eyeRy - 1) (t.eyeRx + t.eyeRwidthCurrent) (t.eyeRy - 1)
           t.eyeRx (t.eyeRy + t.eyelidsAngryHeight - 1) t.BGCOLOR,
         DrawCall.fillRoundRect (t.eyeLx - 1)
           ((t.eyeLy + t.eyeLheightCurrent) - t.eyelidsHappyBottomOffset + 1)
           (t.eyeLwidthCurrent + 2) t.eyeLheightDefault t.eyeLborderRadiusCurrent t.BGCOLOR,
         DrawCall.fillRoundRect (t.eyeRx - 1)
           ((t.eyeRy + t.eyeRheightCurrent) - t.eyelidsHappyBottomOffset + 1)
           (t.eyeRwidthCurrent + 2) t.eyeRheightDefault t.eyeRborderRadiusCurrent t.BGCOLOR,
         DrawCall.display] ∧
      (update s now rnd).2.length = 10) ∧
    (s.cyclops = true →
      (update s now rnd).2 =
        [DrawCall.clearDisplay,
         DrawCall.fillRoundRect t.eyeLx t.eyeLy t.eyeLwidthCurrent t.eyeLheightCurrent
           t.eyeLborderRadiusCurrent t.MAINCOLOR,
         DrawCall.fillTriangle t.eyeLx (t.eyeLy - 1) (t.eyeLx + Int.tdiv t.eyeLwidthCurrent 2)
           (t.eyeLy - 1) t.eyeLx (t.eyeLy + t.eyelidsTiredHeight - 1) t.BGCOLOR,
         DrawCall.fillTriangle (t.eyeLx + Int.tdiv t.eyeLwidthCurrent 2) (t.eyeLy - 1)
           (t.eyeLx + t.eyeLwidthCurrent) (t.eyeLy - 1) (t.eyeLx + t.eyeLwidthCurrent)
           (t.eyeLy + t.eyelidsTiredHeight - 1) t.BGCOLOR,
         DrawCall.fillTriangle t.eyeLx (t.eyeLy - 1) (t.eyeLx + Int.tdiv t.eyeLwidthCurrent 2)
           (t.eyeLy - 1) (t.eyeLx + Int.tdiv t.eyeLwidthCurrent 2)
           (t.eyeLy + t.eyelidsAngryHeight - 1) t.BGCOLOR,
         DrawCall.fillTriangle (t.eyeLx + Int.tdiv t.eyeLwidthCurrent 2) (t.eyeLy - 1)
           (t.eyeLx + t.eyeLwidthCurrent) (t.eyeLy - 1) (t.eyeLx + Int.tdiv t.eyeLwidthCurrent 2)
           (t.eyeLy + t.eyelidsAngryHeight - 1) t.BGCOLOR,
         DrawCall.fillRoundRect (t.eyeLx - 1)
           ((t.eyeLy + t.eyeLheightCurrent) - t.eyelidsHappyBottomOffset + 1)
           (t.eyeLwidthCurrent + 2) t.eyeLheightDefault t.eyeLborderRadiusCurrent t.BGCOLOR,
         DrawCall.display] ∧
      (update s now rnd).2.length = 8) := by
  intro t
  have hu : update s now rnd = tick s now rnd := update_of_gate s now rnd hg
  have ht : t = (tick s now rnd).1 := by show (update s now rnd).1 = _; rw [hu]
  have hcy : t.cyclops = s.cyclops := by rw [ht]; exact tick_cyclops s now rnd
  obtain ⟨c1, c2⟩ := tick_colors s now rnd
  rw [← ht] at c1 c2
  have hd : (update s now rnd).2 =
      [DrawCall.clearDisplay] ++ eyeBodies t ++ tiredLids t ++ angryLids t ++ happyLids t ++
        [DrawCall.display] := by
    rw [hu, tick_snd, ← ht, hs]
    simp
  refine ⟨⟨hcy, c1, c2⟩, ?_, ?_⟩
  · intro h
    rw [hd]
    simp [eyeBodies, tiredLids, angryLids, happyLids, hcy, h]
  · intro h
    rw [hd]
    simp [eyeBodies, tiredLids, angryLids, happyLids, hcy, h]

/-- C27 on the animator of `main.cpp`: the first `update()`, at clock value 10, passes the
gate and issues these ten calls. -/
theorem C27_compositor_order_witness :
    ((10 - coldStart.fpsTimer) % 4294967296 ≥ coldStart.frameInterval % 4294967296 ∧
      coldStart.sweat = false ∧ coldStart.cyclops = false) ∧
    (update coldStart 10 zeroRng).2.length = 10 ∧
    (update coldStart 10 zeroRng).2 =
      [DrawCall.clearDisplay,
       DrawCall.fillRoundRect 23 18 36 18 8 1,
       DrawCall.fillRoundRect 69 18 36 18 8 1,
       DrawCall.fillTriangle 23 17 59 17 23 17 0,
       DrawCall.fillTriangle 69 17 105 17 105 17 0,
       DrawCall.fillTriangle 23 17 59 17 59 17 0,
       DrawCall.fillTriangle 69 17 105 17 69 17 0,
       DrawCall.fillRoundRect 22 37 38 36 8 0,
       DrawCall.fillRoundRect 68 37 38 36 8 0,
       DrawCall.display] :=
  ⟨by decide,
   ((C27_compositor_order coldStart 10 zeroRng (by decide) (by decide)).2.1 (by decide)).2,
   by decide⟩

/-- C28: in a tick with cyclops off the four eyelid triangles are the calls number 4 to 7 of
the frame (after clear and the two eye bodies), tired left, tired right, angry left, angry
right, all arguments being the values in the state `t` the tick leaves behind. Each has
its first two vertices on the row `y - 1` above the eye, at the eye's left edge `x` and
right edge `x + width`, and its third vertex on the row `y + eyelid height - 1`: for the
tired eyelid at the outer edge (`eyeLx` for the left eye, `eyeRx + eyeRwidthCurrent` for
the right eye), for the angry eyelid at the inner edge (`eyeLx + eyeLwidthCurrent` for the
left eye, `eyeRx` for the right eye). -/
theorem C28_eyelid_slants (s : roboEyes) (now : Int) (rnd : Rng) (hcy : s.cyclops = false) :
    let t := (tick s now rnd).1
    ((tick s now rnd).2.drop 3).take 4 =
      [DrawCall.fillTriangle t.eyeLx (t.eyeLy - 1) (t.eyeLx + t.eyeLwidthCurrent) (t.eyeLy - 1)
         t.eyeLx (t.eyeLy + t.eyelidsTiredHeight - 1) t.BGCOLOR,
       DrawCall.fillTriangle t.eyeRx (t.eyeRy - 1) (t.eyeRx + t.eyeRwidthCurrent) (t.eyeRy - 1)
         (t.eyeRx + t.eyeRwidthCurrent) (t.eyeRy + t.eyelidsTiredHeight - 1) t.BGCOLOR,
       DrawCall.fillTriangle t.eyeLx (t.eyeLy - 1) (t.eyeLx + t.eyeLwidthCurrent) (t.eyeLy - 1)
         (t.eyeLx + t.eyeLwidthCurrent) (t.eyeLy + t.eyelidsAngryHeight - 1) t.BGCOLOR,
       DrawCall.fillTriangle t.eyeRx (t.eyeRy - 1) (t.eyeRx + t.eyeRwidthCurrent) (t.eyeRy - 1)
         t.eyeRx (t.eyeRy + t.eyelidsAngryHeight - 1) t.BGCOLOR] ∧
    (tiredLids t ++ angryLids t = ((tick s now rnd).2.drop 3).take 4 ∧
      ∀ c, c ∈ (tick s now rnd).2 → (∃ x0 y0 x1 y1 x2 y2 color,
        c = DrawCall.fillTriangle x0 y0 x1 y1 x2 y2 color) →
        c ∈ ((tick s now rnd).2.drop 3).take 4) := by
  intro t
  have hc : t.cyclops = false := (tick_cyclops s now rnd).trans hcy
  have hd : (tick s now rnd).2 =
      [DrawCall.clearDisplay] ++ eyeBodies t ++ tiredLids t ++ angryLids t ++ happyLids t ++
        (if s.sweat then [DrawCall.sweatDrop 1, DrawCall.sweatDrop 2, DrawCall.sweatDrop 3]
         else []) ++ [DrawCall.display] := tick_snd s now rnd
  rw [hd]
  simp only [eyeBodies, tiredLids, angryLids, happyLids, hc]
  refine ⟨by simp, by simp, ?_⟩
  intro c hm ⟨x0, y0, x1, y1, x2, y2, color, e⟩
  subst e
  cases hsw : s.sweat <;> simp [hsw] at hm ⊢ <;> exact hm

set_option maxRecDepth 100000 in
/-- C28 on the animator of `main.cpp` in the tired mood, eyelid height 16: the left tired
triangle has its lowered vertex at the left edge x = 23, the right one at the right edge
x = 105, both on row 29; the angry triangles have height 0. -/
theorem C28_eyelid_slants_witness :
    tiredEyes.cyclops = false ∧
    ((tick tiredEyes 90 zeroRng).2.drop 3).take 4 =
      [DrawCall.fillTriangle 23 13 59 13 23 29 0,
       DrawCall.fillTriangle 69 13 105 13 105 29 0,
       DrawCall.fillTriangle 23 13 59 13 59 13 0,
       DrawCall.fillTriangle 69 13 105 13 69 13 0] :=
  ⟨by decide, (C28_eyelid_slants tiredEyes 90 zeroRng (by decide)).1.trans (by decide)⟩
/-! ## C29: where a sweat droplet restarts -/

theorem tick_sweat (s : roboEyes) (now : Int) (rnd : Rng) (hsw : s.sweat = true) :
    ((tick s now rnd).1.sweat1XPosInitial =
        (if s.sweat1YPos ≤ (s.sweat1YPosMax : ℚ) then s.sweat1XPosInitial else rnd 4 30) ∧
      (tick s now rnd).1.sweat1YPos =
        (if s.sweat1YPos ≤ (s.sweat1YPosMax : ℚ) then s.sweat1YPos + 1 / 2 else 2) ∧
      (tick s now rnd).1.sweat1YPosMax =
        (if s.sweat1YPos ≤ (s.sweat1YPosMax : ℚ) then s.sweat1YPosMax else rnd 5 10 + 10)) ∧
    ((tick s now rnd).1.sweat2XPosInitial =
        (if s.sweat2YPos ≤ (s.sweat2YPosMax : ℚ) then s.sweat2XPosInitial
         else rnd 6 (s.screenWidth - 60) + 30) ∧
      (tick s now rnd).1.sweat2YPos =
        (if s.sweat2YPos ≤ (s.sweat2YPosMax : ℚ) then s.sweat2YPos + 1 / 2 else 2) ∧
      (tick s now rnd).1.sweat2YPosMax =
        (if s.sweat2YPos ≤ (s.sweat2YPosMax : ℚ) then s.sweat2YPosMax else rnd 7 10 + 10)) ∧
    ((tick s now rnd).1.sweat3XPosInitial =
        (if s.sweat3YPos ≤ (s.sweat3YPosMax : ℚ) then s.sweat3XPosInitial
         else (s.screenWidth - 30) + rnd 8 30) ∧
      (tick s now rnd).1.sweat3YPos =
        (if s.sweat3YPos ≤ (s.sweat3YPosMax : ℚ) then s.sweat3YPos + 1 / 2 else 2) ∧
      (tick s now rnd).1.sweat3YPosMax =
        (if s.sweat3YPos ≤ (s.sweat3YPosMax : ℚ) then s.sweat3YPosMax else rnd 9 10 + 10)) := by
  simp only [tick, drawEyes, sweatStep_fst_eq, moodStep_eq, animate, cyclopsStep_eq, vFlickerStep_eq, hFlickerStep_eq, idleStep_eq,
    confusedStep_eq, laughStep_eq, autoblinkStep_eq, interpolate, tweenStep, reopenStep_eq,
    heightStep, curiosityStep_eq]
  simp [hsw]

/-- C29: in a tick with sweat enabled on a screen wider than 60, with draws from a uniform
source, a droplet that resets (its y is past its max y before the tick) restarts at y = 2
with its new initial x in its own band, `[0, 30)` for droplet 1, `[30, screenWidth - 30)`
for droplet 2 and `[screenWidth - 30, screenWidth)` for droplet 3, and its new max y in
`[10, 20)`; when all three reset their new x are in strictly increasing order, the bands
being disjoint. A droplet that does not reset moves down by one half and keeps its initial
x and max y. The droplets are updated independently: two states with sweat enabled and the
same screen width that agree on one droplet's initial x, y and max y leave that droplet with
the same values after the tick, whatever the other two droplets hold. -/
theorem C29_sweat_reset_bands (s : roboEyes) (now : Int) (rnd : Rng)
    (hu : Uniform rnd) (hsw : s.sweat = true) (hw : s.screenWidth > 60) :
    (¬ s.sweat1YPos ≤ (s.sweat1YPosMax : ℚ) →
      (0 ≤ (tick s now rnd).1.sweat1XPosInitial ∧ (tick s now rnd).1.sweat1XPosInitial < 30) ∧
      (10 ≤ (tick s now rnd).1.sweat1YPosMax ∧ (tick s now rnd).1.sweat1YPosMax < 20) ∧
      (tick s now rnd).1.sweat1YPos = 2) ∧
    (¬ s.sweat2YPos ≤ (s.sweat2YPosMax : ℚ) →
      (30 ≤ (tick s now rnd).1.sweat2XPosInitial ∧
        (tick s now rnd).1.sweat2XPosInitial < s.screenWidth - 30) ∧
      (10 ≤ (tick s now rnd).1.sweat2YPosMax ∧ (tick s now rnd).1.sweat2YPosMax < 20) ∧
      (tick s now rnd).1.sweat2YPos = 2) ∧
    (¬ s.sweat3YPos ≤ (s.sweat3YPosMax : ℚ) →
      (s.screenWidth - 30 ≤ (tick s now rnd).1.sweat3XPosInitial ∧
        (tick s now rnd).1.sweat3XPosInitial < s.screenWidth) ∧
      (10 ≤ (tick s now rnd).1.sweat3YPosMax ∧ (tick s now rnd).1.sweat3YPosMax < 20) ∧
      (tick s now rnd).1.sweat3YPos = 2) ∧
    (¬ s.sweat1YPos ≤ (s.sweat1YPosMax : ℚ) → ¬ s.sweat2YPos ≤ (s.sweat2YPosMax : ℚ) →
      ¬ s.sweat3YPos ≤ (s.sweat3YPosMax : ℚ) →
      (tick s now rnd).1.sweat1XPosInitial < (tick s now rnd).1.sweat2XPosInitial ∧
      (tick s now rnd).1.sweat2XPosInitial < (tick s now rnd).1.sweat3XPosInitial) ∧
    ((s.sweat1YPos ≤ (s.sweat1YPosMax : ℚ) →
        (tick s now rnd).1.sweat1YPos = s.sweat1YPos + 1 / 2 ∧
        (tick s now rnd).1.sweat1XPosInitial = s.sweat1XPosInitial ∧
        (tick s now rnd).1.sweat1YPosMax = s.sweat1YPosMax) ∧
      (s.sweat2YPos ≤ (s.sweat2YPosMax : ℚ) →
        (tick s now rnd).1.sweat2YPos = s.sweat2YPos + 1 / 2 ∧
        (tick s now rnd).1.sweat2XPosInitial = s.sweat2XPosInitial ∧
        (tick s now rnd).1.sweat2YPosMax = s.sweat2YPosMax) ∧
      (s.sweat3YPos ≤ (s.sweat3YPosMax : ℚ) →
        (tick s now rnd).1.sweat3YPos = s.sweat3YPos + 1 / 2 ∧
        (tick s now rnd).1.sweat3XPosInitial = s.sweat3XPosInitial ∧
        (tick s now rnd).1.sweat3YPosMax = s.sweat3YPosMax)) ∧
    (∀ s2 : roboEyes, s2.sweat = true → s2.screenWidth = s.screenWidth →
      (s2.sweat1XPosInitial = s.sweat1XPosInitial → s2.sweat1YPos = s.sweat1YPos →
        s2.sweat1YPosMax = s.sweat1YPosMax →
        (tick s2 now rnd).1.sweat1XPosInitial = (tick s now rnd).1.sweat1XPosInitial ∧
        (tick s2 now rnd).1.sweat1YPos = (tick s now rnd).1.sweat1YPos ∧
        (tick s2 now rnd).1.sweat1YPosMax = (tick s now rnd).1.sweat1YPosMax) ∧
      (s2.sweat2XPosInitial = s.sweat2XPosInitial → s2.sweat2YPos = s.sweat2YPos →
        s2.sweat2YPosMax = s.sweat2YPosMax →
        (tick s2 now rnd).1.sweat2XPosInitial = (tick s now rnd).1.sweat2XPosInitial ∧
        (tick s2 now rnd).1.sweat2YPos = (tick s now rnd).1.sweat2YPos ∧
        (tick s2 now rnd).1.sweat2YPosMax = (tick s now rnd).1.sweat2YPosMax) ∧
      (s2.sweat3XPosInitial = s.sweat3XPosInitial → s2.sweat3YPos = s.sweat3YPos →
        s2.sweat3YPosMax = s.sweat3YPosMax →
        (tick s2 now rnd).1.sweat3XPosInitial = (tick s now rnd).1.sweat3XPosInitial ∧
        (tick s2 now rnd).1.sweat3YPos = (tick s now rnd).1.sweat3YPos ∧
        (tick s2 now rnd).1.sweat3YPosMax = (tick s now rnd).1.sweat3YPosMax)) := by
  obtain ⟨⟨x1, y1, m1⟩, ⟨x2, y2, m2⟩, ⟨x3, y3, m3⟩⟩ := tick_sweat s now rnd hsw
  have r4 := (hu 4 30).1 (by norm_num)
  have r5 := (hu 5 10).1 (by norm_num)
  have r6 := (hu 6 (s.screenWidth - 60)).1 (by omega)
  have r7 := (hu 7 10).1 (by norm_num)
  have r8 := (hu 8 30).1 (by norm_num)
  have r9 := (hu 9 10).1 (by norm_num)
  have b1 : ¬ s.sweat1YPos ≤ (s.sweat1YPosMax : ℚ) →
      (0 ≤ (tick s now rnd).1.sweat1XPosInitial ∧ (tick s now rnd).1.sweat1XPosInitial < 30) ∧
      (10 ≤ (tick s now rnd).1.sweat1YPosMax ∧ (tick s now rnd).1.sweat1YPosMax < 20) ∧
      (tick s now rnd).1.sweat1YPos = 2 := by
    intro h
    rw [x1, y1, m1, if_neg h, if_neg h, if_neg h]
    exact ⟨⟨by omega, by omega⟩, ⟨by omega, by omega⟩, rfl⟩
  have b2 : ¬ s.sweat2YPos ≤ (s.sweat2YPosMax : ℚ) →
      (30 ≤ (tick s now rnd).1.sweat2XPosInitial ∧
        (tick s now rnd).1.sweat2XPosInitial < s.screenWidth - 30) ∧
      (10 ≤ (tick s now rnd).1.sweat2YPosMax ∧ (tick s now rnd).1.sweat2YPosMax < 20) ∧
      (tick s now rnd).1.sweat2YPos = 2 := by
    intro h
    rw [x2, y2, m2, if_neg h, if_neg h, if_neg h]
    exact ⟨⟨by omega, by omega⟩, ⟨by omega, by omega⟩, rfl⟩
  have b3 : ¬ s.sweat3YPos ≤ (s.sweat3YPosMax : ℚ) →
      (s.screenWidth - 30 ≤ (tick s now rnd).1.sweat3XPosInitial ∧
        (tick s now rnd).1.sweat3XPosInitial < s.screenWidth) ∧
      (10 ≤ (tick s now rnd).1.sweat3YPosMax ∧ (tick s now rnd).1.sweat3YPosMax < 20) ∧
      (tick s now rnd).1.sweat3YPos = 2 := by
    intro h
    rw [x3, y3, m3, if_neg h, if_neg h, if_neg h]
    exact ⟨⟨by omega, by omega⟩, ⟨by omega, by omega⟩, rfl⟩
  refine ⟨b1, b2, b3, ?_, ⟨?_, ?_, ?_⟩, ?_⟩
  · intro h1 h2 h3
    have := (b1 h1).1
    have := (b2 h2).1
    have := (b3 h3).1
    omega
  · intro h
    rw [x1, y1, m1, if_pos h, if_pos h, if_pos h]
    exact ⟨rfl, rfl, rfl⟩
  · intro h
    rw [x2, y2, m2, if_pos h, if_pos h, if_pos h]
    exact ⟨rfl, rfl, rfl⟩
  · intro h
    rw [x3, y3, m3, if_pos h, if_pos h, if_pos h]
    exact ⟨rfl, rfl, rfl⟩
  · intro s2 hs2 hw2
    obtain ⟨⟨u1, v1, w1⟩, ⟨u2, v2, w2⟩, ⟨u3, v3, w3⟩⟩ := tick_sweat s2 now rnd hs2
    refine ⟨?_, ?_, ?_⟩
    · intro e1 e2 e3
      rw [u1, v1, w1, x1, y1, m1, e1, e2, e3]
      exact ⟨rfl, rfl, rfl⟩
    · intro e1 e2 e3
      rw [u2, v2, w2, x2, y2, m2, e1, e2, e3, hw2]
      exact ⟨rfl, rfl, rfl⟩
    · intro e1 e2 e3
      rw [u3, v3, w3, x3, y3, m3, e1, e2, e3, hw2]
      exact ⟨rfl, rfl, rfl⟩

/-- C29 on the animator of `main.cpp` with sweat on and every draw 0: all three droplets
reset in the first tick, and droplet 2 restarts at x = 30, the left end of its band
`[30, 98)`, with max y 10. -/
theorem C29_sweat_reset_bands_witness :
    (Uniform zeroRng ∧ sweatyEyes.sweat = true ∧ sweatyEyes.screenWidth > 60 ∧
      ¬ sweatyEyes.sweat2YPos ≤ (sweatyEyes.sweat2YPosMax : ℚ)) ∧
    ((30 ≤ (tick sweatyEyes 10 zeroRng).1.sweat2XPosInitial ∧
        (tick sweatyEyes 10 zeroRng).1.sweat2XPosInitial < sweatyEyes.screenWidth - 30) ∧
      (10 ≤ (tick sweatyEyes 10 zeroRng).1.sweat2YPosMax ∧
        (tick sweatyEyes 10 zeroRng).1.sweat2YPosMax < 20) ∧
      (tick sweatyEyes 10 zeroRng).1.sweat2YPos = 2) ∧
    (tick sweatyEyes 10 zeroRng).1.sweat2XPosInitial = 30 ∧
    (tick sweatyEyes 10 zeroRng).1.sweat2YPosMax = 10 :=
  ⟨⟨uniform_zeroRng, by decide, by decide, by decide⟩,
   (C29_sweat_reset_bands sweatyEyes 10 zeroRng uniform_zeroRng (by decide) (by decide)).2.1
     (by decide),
   by decide, by decide⟩

/-! ## C30: a closed eye stays closed -/

theorem halved_out_pow (h0 h : Int) (k n : Nat) (hn : k ≤ n) (hh : 0 ≤ h) (hb : h0 < 2 ^ k)
    (hle : h * 2 ^ n ≤ h0) : h = 0 := by
  have hp : (2 : Int) ^ k ≤ 2 ^ n := pow_le_pow_right₀ (by norm_num) hn
  have hk : (0 : Int) < 2 ^ k := by positivity
  have h3 : h * 2 ^ k ≤ h * 2 ^ n := mul_le_mul_of_nonneg_left hp hh
  by_contra hne
  have h1 : 1 ≤ h := by omega
  have h4 : 1 * 2 ^ k ≤ h * 2 ^ k := mul_le_mul_of_nonneg_right h1 hk.le
  omega

theorem run_closed (s : roboEyes) (env : Nat → Int × Rng)
    (hcu : s.curious = false) (hab : s.autoblinker = false) (n : Nat) :
    ((run (close s) env n).eyeLheightNext = 1 ∧ (run (close s) env n).eyeRheightNext = 1 ∧
      (run (close s) env n).eyeL_open = false ∧ (run (close s) env n).eyeR_open = false) ∧
    (run (close s) env (n + 1)).eyeLheightCurrent =
      Int.tdiv ((run (close s) env n).eyeLheightCurrent + 1) 2 ∧
    (s.cyclops = false →
      (run (close s) env (n + 1)).eyeRheightCurrent =
        Int.tdiv ((run (close s) env n).eyeRheightCurrent + 1) 2) ∧
    (s.cyclops = true → (run (close s) env (n + 1)).eyeRheightCurrent = 0) := by
  have hcu' : (close s).curious = false := hcu
  have hab' : (close s).autoblinker = false := hab
  have hfl : ∀ i, (run (close s) env i).curious = false ∧
      (run (close s) env i).autoblinker = false ∧
      (run (close s) env i).eyeL_open = false ∧ (run (close s) env i).eyeR_open = false ∧
      (run (close s) env i).cyclops = s.cyclops := by
    intro i
    obtain ⟨a1, a2, a3, a4, _, _, a7⟩ := run_blinkFields (close s) env hcu' hab' i
    exact ⟨a1, a2, a3, a4, a7⟩
  have hnx : ∀ i, (run (close s) env i).eyeLheightNext = 1 ∧
      (run (close s) env i).eyeRheightNext = 1 := by
    intro i
    induction i with
    | zero => exact ⟨rfl, rfl⟩
    | succ i ih =>
      obtain ⟨f1, f2, f3, f4, _⟩ := hfl i
      have hL : (tick (run (close s) env i) (env i).1 (env i).2).1.eyeLheightNext = 1 := by
        simp only [tick, drawEyes, sweatStep_fst_eq, moodStep_eq, animate, cyclopsStep_eq, vFlickerStep_eq, hFlickerStep_eq, idleStep_eq,
          confusedStep_eq, laughStep_eq, autoblinkStep_eq, interpolate, tweenStep, reopenStep_eq,
          heightStep, curiosityStep_eq]
        simp [f1, f2, f3, ih.1]
      have hR : (tick (run (close s) env i) (env i).1 (env i).2).1.eyeRheightNext = 1 := by
        simp only [tick, drawEyes, sweatStep_fst_eq, moodStep_eq, animate, cyclopsStep_eq, vFlickerStep_eq, hFlickerStep_eq, idleStep_eq,
          confusedStep_eq, laughStep_eq, autoblinkStep_eq, interpolate, tweenStep, reopenStep_eq,
          heightStep, curiosityStep_eq]
        simp [f1, f2, f4, ih.2]
      exact ⟨hL, hR⟩
  obtain ⟨f1, f2, f3, f4, f5⟩ := hfl n
  obtain ⟨n1, n2⟩ := hnx n
  refine ⟨⟨n1, n2, f3, f4⟩, ?_, ?_, ?_⟩
  · have := (tick_heightL (run (close s) env n) (env n).1 (env n).2 f1 f2).1
    rw [n1] at this
    exact this
  · intro hcy
    have := (tick_heightR (run (close s) env n) (env n).1 (env n).2 f1 f2 (f5.trans hcy)).1
    rw [n2] at this
    exact this
  · intro hcy
    exact (tick_cyclopsZero (run (close s) env n) (env n).1 (env n).2 (f5.trans hcy)).2.1

theorem closing_bound (c : Nat → Int) (hc : ∀ i, c (i + 1) = Int.tdiv (c i + 1) 2)
    (h1 : 1 ≤ c 0) (n : Nat) : 0 ≤ c n - 1 ∧ (c n - 1) * 2 ^ n ≤ c 0 - 1 := by
  induction n with
  | zero => simp; omega
  | succ n ih =>
    obtain ⟨i0, i1⟩ := ih
    have e : c (n + 1) - 1 = (c n - 1) / 2 := by
      rw [hc, tdiv_two]; split <;> omega
    rw [e]
    exact halving_bound _ _ n i0 i1

set_option maxRecDepth 100000 in
/-- C30 as stated fails for a current height of 0 and, for the right eye, with cyclops on.
On the animator of `main.cpp` with cyclops on (curiosity and auto-blink off), 9 and 10
ticks after `close()` the right eye's current height is 0, not 1. And on the animator left
with both current heights 0 by `setHeight(0, 0)` and a tick, 9 and 10 ticks after `close()`
both current heights are still 0. -/
theorem C30_closed_height_not_one :
    ((close (setCyclops coldStart true)).curious = false ∧
      (close (setCyclops coldStart true)).autoblinker = false ∧
      (close (setCyclops coldStart true)).eyeRheightCurrent = 1 ∧
      (run (close (setCyclops coldStart true)) (pacedFrom 0) 9).eyeRheightCurrent = 0 ∧
      (run (close (setCyclops coldStart true)) (pacedFrom 0) 10).eyeRheightCurrent = 0) ∧
    (flatEyes.curious = false ∧ flatEyes.autoblinker = false ∧ flatEyes.cyclops = false ∧
      flatEyes.eyeLheightCurrent = 0 ∧ flatEyes.eyeRheightCurrent = 0 ∧
      (run (close flatEyes) (pacedFrom 10) 9).eyeLheightCurrent = 0 ∧
      (run (close flatEyes) (pacedFrom 10) 9).eyeRheightCurrent = 0 ∧
      (run (close flatEyes) (pacedFrom 10) 10).eyeLheightCurrent = 0 ∧
      (run (close flatEyes) (pacedFrom 10) 10).eyeRheightCurrent = 0) := by
  decide

/-- C30, amended: in a state with curiosity and auto-blink off, after `close()` every tick of
a run without other calls keeps both next heights at 1 and both isOpen flags false. The left
eye's current height, if it is from 1 to 263 at `close()`, is exactly 1 after 9 ticks and
on every later tick; so is the right eye's when cyclops is off. A current height of 0 stays
0, and with cyclops on the right eye's current height is 0 after every tick. The reopen
statements change nothing in a state whose isOpen flags are both false. -/
theorem C30_closed_stays_closed (s : roboEyes) (env : Nat → Int × Rng)
    (hcu : s.curious = false) (hab : s.autoblinker = false) :
    (∀ n, (run (close s) env n).eyeLheightNext = 1 ∧ (run (close s) env n).eyeRheightNext = 1 ∧
      (run (close s) env n).eyeL_open = false ∧ (run (close s) env n).eyeR_open = false) ∧
    (1 ≤ s.eyeLheightCurrent → s.eyeLheightCurrent ≤ 263 →
      ∀ n, 9 ≤ n → (run (close s) env n).eyeLheightCurrent = 1) ∧
    (s.cyclops = false → 1 ≤ s.eyeRheightCurrent → s.eyeRheightCurrent ≤ 263 →
      ∀ n, 9 ≤ n → (run (close s) env n).eyeRheightCurrent = 1) ∧
    (s.eyeLheightCurrent = 0 → ∀ n, (run (close s) env n).eyeLheightCurrent = 0) ∧
    (s.cyclops = true → ∀ n, 1 ≤ n → (run (close s) env n).eyeRheightCurrent = 0) ∧
    (∀ t : roboEyes, t.eyeL_open = false → t.eyeR_open = false → reopenStep t = t) := by
  refine ⟨fun n => (run_closed s env hcu hab n).1, ?_, ?_, ?_, ?_, ?_⟩
  · intro h1 h2 n hn
    obtain ⟨b0, b1⟩ := closing_bound (fun i => (run (close s) env i).eyeLheightCurrent)
      (fun i => (run_closed s env hcu hab i).2.1) h1 n
    have e0 : (run (close s) env 0).eyeLheightCurrent = s.eyeLheightCurrent := rfl
    simp only [e0] at b1
    have := halved_out_pow (s.eyeLheightCurrent - 1) _ 9 n hn b0 (by norm_num; omega) b1
    omega
  · intro hcy h1 h2 n hn
    obtain ⟨b0, b1⟩ := closing_bound (fun i => (run (close s) env i).eyeRheightCurrent)
      (fun i => (run_closed s env hcu hab i).2.2.1 hcy) h1 n
    have e0 : (run (close s) env 0).eyeRheightCurrent = s.eyeRheightCurrent := rfl
    simp only [e0] at b1
    have := halved_out_pow (s.eyeRheightCurrent - 1) _ 9 n hn b0 (by norm_num; omega) b1
    omega
  · intro h0 n
    induction n with
    | zero => exact h0
    | succ n ih =>
      rw [(run_closed s env hcu hab n).2.1, ih]
      decide
  · intro hcy n hn
    obtain ⟨m, rfl⟩ : ∃ m, n = m + 1 := ⟨n - 1, by omega⟩
    exact (run_closed s env hcu hab m).2.2.2 hcy
  · intro t h1 h2
    unfold reopenStep
    simp [h1, h2]

set_option maxRecDepth 100000 in
/-- C30 on the animator of `main.cpp` at rest (both heights 35): after `close()` both
current heights are 1 after 9 ticks, where the targets are 1 and both eyes are marked
closed; the height 1 is first reached at tick 6. -/
theorem C30_closed_stays_closed_witness :
    (restingEyes.curious = false ∧ restingEyes.autoblinker = false ∧
      restingEyes.cyclops = false ∧ restingEyes.eyeLheightCurrent = 35 ∧
      restingEyes.eyeRheightCurrent = 35) ∧
    (run (close restingEyes) (pacedFrom 120) 9).eyeLheightCurrent = 1 ∧
    (run (close restingEyes) (pacedFrom 120) 9).eyeRheightCurrent = 1 ∧
    ((run (close restingEyes) (pacedFrom 120) 9).eyeLheightNext = 1 ∧
      (run (close restingEyes) (pacedFrom 120) 9).eyeRheightNext = 1 ∧
      (run (close restingEyes) (pacedFrom 120) 9).eyeL_open = false ∧
      (run (close restingEyes) (pacedFrom 120) 9).eyeR_open = false) ∧
    ((run (close restingEyes) (pacedFrom 120) 5).eyeLheightCurrent = 2 ∧
      (run (close restingEyes) (pacedFrom 120) 6).eyeLheightCurrent = 1) :=
  ⟨by decide,
   (C30_closed_stays_closed restingEyes (pacedFrom 120) (by decide) (by decide)).2.1
     (by decide) (by decide) 9 (le_refl 9),
   (C30_closed_stays_closed restingEyes (pacedFrom 120) (by decide) (by decide)).2.2.1
     (by decide) (by decide) (by decide) 9 (le_refl 9),
   (C30_closed_stays_closed restingEyes (pacedFrom 120) (by decide) (by decide)).1 9,
   by decide⟩

/-! ## C31: the one-shot flags in every reachable state -/

theorem oneShotInv_of_fields (s t : roboEyes) (h1 : t.laugh = s.laugh)
    (h2 : t.laughToggle = s.laughToggle) (h3 : t.confused = s.confused)
    (h4 : t.confusedToggle = s.confusedToggle) (h : OneShotInv s) : OneShotInv t := by
  unfold OneShotInv at h ⊢
  rw [h1, h2, h3, h4]
  exact h

theorem oneShotInv_tick (s : roboEyes) (now : Int) (rnd : Rng) (h : OneShotInv s) :
    OneShotInv (tick s now rnd).1 := by
  obtain ⟨_, _, _, a4, a5, _⟩ := tick_laugh s now rnd
  obtain ⟨_, _, _, b4, b5, _⟩ := tick_confused s now rnd
  obtain ⟨hl, hc⟩ := h
  unfold OneShotInv
  rw [a4, a5, b4, b5]
  constructor
  · cases h1 : s.laugh <;> cases h2 : s.laughToggle <;> simp_all
  · cases h1 : s.confused <;> cases h2 : s.confusedToggle <;> simp_all

theorem oneShotInv_apply (s : roboEyes) (op : Op) (h : OneShotInv s) :
    OneShotInv (Op.apply s op) := by
  cases op with
  | update now rnd =>
    show OneShotInv (update s now rnd).1
    unfold update
    split
    · exact oneShotInv_tick s now rnd h
    · exact h
  | setMood mood =>
    show OneShotInv (setMood s mood)
    unfold setMood
    split_ifs <;> exact h
  | setPosition position =>
    show OneShotInv (setPosition s position)
    rw [setPosition_eq]
    exact h
  | close2 left right => cases left <;> cases right <;> exact h
  | open2 left right => cases left <;> cases right <;> exact h
  | blink2 left right => cases left <;> cases right <;> exact h
  | anim_confused =>
    obtain ⟨hl, hc⟩ := h
    exact ⟨hl, fun hf => (by cases hf)⟩
  | anim_laugh =>
    obtain ⟨hl, hc⟩ := h
    exact ⟨fun hf => (by cases hf), hc⟩
  | drawEyes now rnd => exact oneShotInv_tick s now rnd h
  | _ => exact h

theorem oneShotInv_perform (s : roboEyes) (ops : List Op) (h : OneShotInv s) :
    OneShotInv (perform s ops) := by
  induction ops generalizing s with
  | nil => exact h
  | cons op ops ih => exact ih (Op.apply s op) (oneShotInv_apply s op h)

/-- C31: start from a freshly constructed animator, whatever the storage held before, and
perform any sequence of calls of the public member functions that change the state (`begin`,
`update`, `drawEyes`, every setter, the six close/open/blink forms, `anim_laugh`,
`anim_confused`), each frame at any clock value with any random draws, a frame rate never
being 0. In the state reached, laugh false implies `laughToggle` true and confused false
implies `confusedToggle` true. So when no laugh is requested in that state, the frame after
`anim_laugh()` performs the activation step (vertical flicker on with amplitude 5, start
time recorded, toggle disarmed, flag kept), and likewise the frame after `anim_confused()`
(horizontal flicker on with amplitude 20). -/
theorem C31_oneshot_invariant (u : roboEyes) (ops : List Op) (_hd : ∀ op ∈ ops, Op.Defined op) :
    ((perform (fresh u) ops).laugh = false → (perform (fresh u) ops).laughToggle = true) ∧
    ((perform (fresh u) ops).confused = false → (perform (fresh u) ops).confusedToggle = true) ∧
    ((perform (fresh u) ops).laugh = false → ∀ (now : Int) (rnd : Rng),
      (tick (anim_laugh (perform (fresh u) ops)) now rnd).1.vFlicker = true ∧
      (tick (anim_laugh (perform (fresh u) ops)) now rnd).1.vFlickerAmplitude = 5 ∧
      (tick (anim_laugh (perform (fresh u) ops)) now rnd).1.laughAnimationTimer = now ∧
      (tick (anim_laugh (perform (fresh u) ops)) now rnd).1.laughToggle = false ∧
      (tick (anim_laugh (perform (fresh u) ops)) now rnd).1.laugh = true) ∧
    ((perform (fresh u) ops).confused = false → ∀ (now : Int) (rnd : Rng),
      (tick (anim_confused (perform (fresh u) ops)) now rnd).1.hFlicker = true ∧
      (tick (anim_confused (perform (fresh u) ops)) now rnd).1.hFlickerAmplitude = 20 ∧
      (tick (anim_confused (perform (fresh u) ops)) now rnd).1.confusedAnimationTimer = now ∧
      (tick (anim_confused (perform (fresh u) ops)) now rnd).1.confusedToggle = false ∧
      (tick (anim_confused (perform (fresh u) ops)) now rnd).1.confused = true) := by
  have h0 : OneShotInv (fresh u) := ⟨fun _ => rfl, fun _ => rfl⟩
  obtain ⟨hl, hc⟩ := oneShotInv_perform (fresh u) ops h0
  refine ⟨hl, hc, ?_, ?_⟩
  · intro hf now rnd
    obtain ⟨a1, a2, a3, a4, a5, _⟩ := tick_laugh (anim_laugh (perform (fresh u) ops)) now rnd
    have e1 : (anim_laugh (perform (fresh u) ops)).laugh = true := rfl
    have e2 : (anim_laugh (perform (fresh u) ops)).laughToggle = true := hl hf
    rw [e1, e2] at a1 a2 a3 a4 a5
    exact ⟨a1, a2, a3, a4, a5⟩
  · intro hf now rnd
    obtain ⟨a1, a2, a3, a4, a5, _⟩ :=
      tick_confused (anim_confused (perform (fresh u) ops)) now rnd
    have e1 : (anim_confused (perform (fresh u) ops)).confused = true := rfl
    have e2 : (anim_confused (perform (fresh u) ops)).confusedToggle = true := hc hf
    rw [e1, e2] at a1 a2 a3 a4 a5
    exact ⟨a1, a2, a3, a4, a5⟩

set_option maxRecDepth 100000 in
/-- C31 on a session of the animator of `main.cpp`: after `begin`, `anim_laugh()` and the
frame at 20 the laugh runs with its toggle disarmed; after the frame at 520 and a
`setPosition` the laugh flag is clear and the toggle is armed again. -/
theorem C31_oneshot_invariant_witness :
    (∀ op ∈ demoSession, Op.Defined op) ∧
    ((perform (fresh zeroed) (demoSession.take 3)).laugh = true ∧
      (perform (fresh zeroed) (demoSession.take 3)).laughToggle = false) ∧
    (perform (fresh zeroed) demoSession).laugh = false ∧
    (perform (fresh zeroed) demoSession).laughToggle = true := by
  have hdef : ∀ op ∈ demoSession, Op.Defined op := by
    intro op h
    simp only [demoSession, List.mem_cons, List.mem_singleton, List.not_mem_nil, or_false] at h
    rcases h with rfl | rfl | rfl | rfl | rfl <;>
      first | exact trivial | exact (by decide : 0 < (100 : Fin 256).val)
  exact ⟨hdef, by decide, by decide,
    (C31_oneshot_invariant zeroed demoSession hdef).1 (by decide)⟩

/-! ## C32: a finished one-shot and the caller's flicker settings -/

theorem tick_laughDone (s : roboEyes) (now : Int) (rnd : Rng)
    (hl : s.laugh = true) (ht : s.laughToggle = false)
    (hn : now ≥ toULong (s.laughAnimationTimer + s.laughAnimationDuration)) :
    ((tick s now rnd).1.vFlicker = false ∧ (tick s now rnd).1.vFlickerAmplitude = 0 ∧
      (tick s now rnd).1.laugh = false ∧ (tick s now rnd).1.laughToggle = true) ∧
    ∀ (now2 : Int) (rnd2 : Rng),
      (tick (setVFlicker1 (tick s now rnd).1 true) now2 rnd2).1.vFlicker = true ∧
      (tick (setVFlicker1 (tick s now rnd).1 true) now2 rnd2).1.vFlickerAmplitude = 0 ∧
      (tick (setVFlicker1 (tick s now rnd).1 true) now2 rnd2).1.eyeLy =
        (interpolate (setVFlicker1 (tick s now rnd).1 true)).eyeLy ∧
      (tick (setVFlicker1 (tick s now rnd).1 true) now2 rnd2).1.eyeRy =
        (interpolate (setVFlicker1 (tick s now rnd).1 true)).eyeRy := by
  obtain ⟨a1, a2, _, a4, a5, _⟩ := tick_laugh s now rnd
  rw [hl, ht] at a1 a2 a4 a5
  simp only [if_true, Bool.false_eq_true, if_false, if_pos hn] at a1 a2 a4 a5
  refine ⟨⟨a1, a2, a5, a4⟩, ?_⟩
  intro now2 rnd2
  have e1 : (setVFlicker1 (tick s now rnd).1 true).laugh = false := a5
  have e2 : (setVFlicker1 (tick s now rnd).1 true).vFlicker = true := rfl
  have e3 : (setVFlicker1 (tick s now rnd).1 true).vFlickerAmplitude = 0 := a2
  obtain ⟨b1, b2, _, _, _, _⟩ := tick_laugh (setVFlicker1 (tick s now rnd).1 true) now2 rnd2
  rw [e1] at b1 b2
  simp only [Bool.false_eq_true, if_false] at b1 b2
  rw [e2] at b1
  rw [e3] at b2
  obtain ⟨y1, y2, _⟩ := tick_vFlicker (setVFlicker1 (tick s now rnd).1 true) now2 rnd2
  rw [b1, b2] at y1 y2
  refine ⟨b1, b2, ?_, ?_⟩
  · rw [y1]; split <;> simp
  · rw [y2]; split <;> simp

theorem tick_confusedDone (s : roboEyes) (now : Int) (rnd : Rng)
    (hc : s.confused = true) (ht : s.confusedToggle = false)
    (hn : now ≥ toULong (s.confusedAnimationTimer + s.confusedAnimationDuration)) :
    ((tick s now rnd).1.hFlicker = false ∧ (tick s now rnd).1.hFlickerAmplitude = 0 ∧
      (tick s now rnd).1.confused = false ∧ (tick s now rnd).1.confusedToggle = true) ∧
    ∀ (now2 : Int) (rnd2 : Rng),
      (tick (setHFlicker1 (tick s now rnd).1 true) now2 rnd2).1.hFlicker = true ∧
      (tick (setHFlicker1 (tick s now rnd).1 true) now2 rnd2).1.hFlickerAmplitude = 0 ∧
      (tick (setHFlicker1 (tick s now rnd).1 true) now2 rnd2).1.eyeLx =
        (interpolate (setHFlicker1 (tick s now rnd).1 true)).eyeLx ∧
      (tick (setHFlicker1 (tick s now rnd).1 true) now2 rnd2).1.eyeRx =
        (interpolate (setHFlicker1 (tick s now rnd).1 true)).eyeRx := by
  obtain ⟨a1, a2, _, a4, a5, _⟩ := tick_confused s now rnd
  rw [hc, ht] at a1 a2 a4 a5
  simp only [if_true, Bool.false_eq_true, if_false, if_pos hn] at a1 a2 a4 a5
  refine ⟨⟨a1, a2, a5, a4⟩, ?_⟩
  intro now2 rnd2
  have e1 : (setHFlicker1 (tick s now rnd).1 true).confused = false := a5
  have e2 : (setHFlicker1 (tick s now rnd).1 true).hFlicker = true := rfl
  have e3 : (setHFlicker1 (tick s now rnd).1 true).hFlickerAmplitude = 0 := a2
  obtain ⟨b1, b2, _, _, _, _⟩ := tick_confused (setHFlicker1 (tick s now rnd).1 true) now2 rnd2
  rw [e1] at b1 b2
  simp only [Bool.false_eq_true, if_false] at b1 b2
  rw [e2] at b1
  rw [e3] at b2
  obtain ⟨x1, x2, _⟩ := tick_hFlicker (setHFlicker1 (tick s now rnd).1 true) now2 rnd2
  rw [b1, b2] at x1 x2
  refine ⟨b1, b2, ?_, ?_⟩
  · rw [x1]; split <;> simp
  · rw [x2]; split <;> simp

/-- C32: the tick that completes a laugh (laugh set, `laughToggle` disarmed, the source's
comparison `millis() >= laughAnimationTimer + laughAnimationDuration` true) leaves `vFlicker`
false and `vFlickerAmplitude` 0, whatever they were; after a later `setVFlicker(true)`
without an amplitude the next tick has vertical flicker enabled with amplitude 0 and draws
both eyes at the averaged y, displaced by 0. In particular, whatever flag and amplitude the
caller configured with `setVFlicker` before `anim_laugh()` on an animator whose toggle is
armed, the activation tick at `now0` followed by a tick at or after `now0` plus the duration
(as the source compares them) ends with `vFlicker` false and amplitude 0. The same holds for
`anim_confused()` with `hFlicker`, `hFlickerAmplitude` and the x of both eyes. -/
theorem C32_finished_oneshot_overwrites (s : roboEyes) (now : Int) (rnd : Rng) :
    (s.laugh = true → s.laughToggle = false →
      now ≥ toULong (s.laughAnimationTimer + s.laughAnimationDuration) →
      ((tick s now rnd).1.vFlicker = false ∧ (tick s now rnd).1.vFlickerAmplitude = 0) ∧
      ∀ (now2 : Int) (rnd2 : Rng),
        (tick (setVFlicker1 (tick s now rnd).1 true) now2 rnd2).1.vFlicker = true ∧
        (tick (setVFlicker1 (tick s now rnd).1 true) now2 rnd2).1.vFlickerAmplitude = 0 ∧
        (tick (setVFlicker1 (tick s now rnd).1 true) now2 rnd2).1.eyeLy =
          (interpolate (setVFlicker1 (tick s now rnd).1 true)).eyeLy ∧
        (tick (setVFlicker1 (tick s now rnd).1 true) now2 rnd2).1.eyeRy =
          (interpolate (setVFlicker1 (tick s now rnd).1 true)).eyeRy) ∧
    (s.confused = true → s.confusedToggle = false →
      now ≥ toULong (s.confusedAnimationTimer + s.confusedAnimationDuration) →
      ((tick s now rnd).1.hFlicker = false ∧ (tick s now rnd).1.hFlickerAmplitude = 0) ∧
      ∀ (now2 : Int) (rnd2 : Rng),
        (tick (setHFlicker1 (tick s now rnd).1 true) now2 rnd2).1.hFlicker = true ∧
        (tick (setHFlicker1 (tick s now rnd).1 true) now2 rnd2).1.hFlickerAmplitude = 0 ∧
        (tick (setHFlicker1 (tick s now rnd).1 true) now2 rnd2).1.eyeLx =
          (interpolate (setHFlicker1 (tick s now rnd).1 true)).eyeLx ∧
        (tick (setHFlicker1 (tick s now rnd).1 true) now2 rnd2).1.eyeRx =
          (interpolate (setHFlicker1 (tick s now rnd).1 true)).eyeRx) ∧
    (∀ (flickerBit : Bool) (Amplitude : Fin 256) (now0 : Int) (rnd0 : Rng),
      s.laughToggle = true → now ≥ toULong (now0 + s.laughAnimationDuration) →
      (tick (tick (anim_laugh (setVFlicker s flickerBit Amplitude)) now0 rnd0).1 now rnd).1.vFlicker
          = false ∧
      (tick (tick (anim_laugh (setVFlicker s flickerBit Amplitude)) now0 rnd0).1 now
        rnd).1.vFlickerAmplitude = 0) ∧
    (∀ (flickerBit : Bool) (Amplitude : Fin 256) (now0 : Int) (rnd0 : Rng),
      s.confusedToggle = true → now ≥ toULong (now0 + s.confusedAnimationDuration) →
      (tick (tick (anim_confused (setHFlicker s flickerBit Amplitude)) now0 rnd0).1 now
        rnd).1.hFlicker = false ∧
      (tick (tick (anim_confused (setHFlicker s flickerBit Amplitude)) now0 rnd0).1 now
        rnd).1.hFlickerAmplitude = 0) := by
  refine ⟨?_, ?_, ?_, ?_⟩
  · intro hl ht hn
    obtain ⟨⟨a1, a2, _, _⟩, h2⟩ := tick_laughDone s now rnd hl ht hn
    exact ⟨⟨a1, a2⟩, h2⟩
  · intro hc ht hn
    obtain ⟨⟨a1, a2, _, _⟩, h2⟩ := tick_confusedDone s now rnd hc ht hn
    exact ⟨⟨a1, a2⟩, h2⟩
  · intro flickerBit Amplitude now0 rnd0 ht hn
    obtain ⟨_, _, a3, a4, a5, a6⟩ :=
      tick_laugh (anim_laugh (setVFlicker s flickerBit Amplitude)) now0 rnd0
    have e1 : (anim_laugh (setVFlicker s flickerBit Amplitude)).laugh = true := rfl
    have e2 : (anim_laugh (setVFlicker s flickerBit Amplitude)).laughToggle = true := ht
    have e3 : (anim_laugh (setVFlicker s flickerBit Amplitude)).laughAnimationDuration =
        s.laughAnimationDuration := rfl
    rw [e1, e2] at a3 a4 a5
    simp only [if_true] at a3 a4 a5
    rw [e3] at a6
    obtain ⟨⟨b1, b2, _, _⟩, _⟩ :=
      tick_laughDone (tick (anim_laugh (setVFlicker s flickerBit Amplitude)) now0 rnd0).1 now rnd
        a5 a4 (by rw [a3, a6]; exact hn)
    exact ⟨b1, b2⟩
  · intro flickerBit Amplitude now0 rnd0 ht hn
    obtain ⟨_, _, a3, a4, a5, a6⟩ :=
      tick_confused (anim_confused (setHFlicker s flickerBit Amplitude)) now0 rnd0
    have e1 : (anim_confused (setHFlicker s flickerBit Amplitude)).confused = true := rfl
    have e2 : (anim_confused (setHFlicker s flickerBit Amplitude)).confusedToggle = true := ht
    have e3 : (anim_confused (setHFlicker s flickerBit Amplitude)).confusedAnimationDuration =
        s.confusedAnimationDuration := rfl
    rw [e1, e2] at a3 a4 a5
    simp only [if_true] at a3 a4 a5
    rw [e3] at a6
    obtain ⟨⟨b1, b2, _, _⟩, _⟩ :=
      tick_confusedDone (tick (anim_confused (setHFlicker s flickerBit Amplitude)) now0 rnd0).1
        now rnd a5 a4 (by rw [a3, a6]; exact hn)
    exact ⟨b1, b2⟩

set_option maxRecDepth 100000 in
/-- C32 on the animator of `main.cpp` at rest: the caller configures `setVFlicker(true, 7)`
and calls `anim_laugh()`; the frame at 130 starts the laugh, the frame at 630 completes it
and leaves `vFlicker` false and the amplitude 0, not 7. -/
theorem C32_finished_oneshot_overwrites_witness :
    (restingEyes.laughToggle = true ∧
      (630 : Int) ≥ toULong (130 + restingEyes.laughAnimationDuration) ∧
      (setVFlicker restingEyes true 7).vFlicker = true ∧
      (setVFlicker restingEyes true 7).vFlickerAmplitude = 7) ∧
    ((tick (tick (anim_laugh (setVFlicker restingEyes true 7)) 130 zeroRng).1 630 zeroRng).1.vFlicker
        = false ∧
      (tick (tick (anim_laugh (setVFlicker restingEyes true 7)) 130 zeroRng).1 630
        zeroRng).1.vFlickerAmplitude = 0) :=
  ⟨by decide,
   (C32_finished_oneshot_overwrites restingEyes 630 zeroRng).2.2.1 true 7 130 zeroRng
     (by decide) (by decide)⟩
/-! ## C33: overlays of height 0 do not hide the eye -/

/-- C33: take a tick after which the three rendered eyelid values are 0, and let `t` be the
state it leaves. Every tired and angry triangle of the frame has all three vertices on the
row `y - 1` of its eye (with cyclops on: four triangles on row `eyeLy - 1`), and every happy
overlay rectangle starts at row `y + height + 1` of its eye. So no row from `y` to
`y + height - 1` of an eye is covered by an overlay of that eye: with cyclops off the first
call of each pair belongs to the left eye and the second to the right eye, with cyclops on
all overlays belong to the single eye. -/
theorem C33_overlays_clear_of_eye (s : roboEyes) (now : Int) (rnd : Rng)
    (h1 : (tick s now rnd).1.eyelidsTiredHeight = 0)
    (h2 : (tick s now rnd).1.eyelidsAngryHeight = 0)
    (h3 : (tick s now rnd).1.eyelidsHappyBottomOffset = 0) :
    let t := (tick s now rnd).1
    ((tick s now rnd).2 =
      [DrawCall.clearDisplay] ++ eyeBodies t ++ tiredLids t ++ angryLids t ++ happyLids t ++
        (if s.sweat then [DrawCall.sweatDrop 1, DrawCall.sweatDrop 2, DrawCall.sweatDrop 3]
         else []) ++ [DrawCall.display]) ∧
    (s.cyclops = false →
      (tiredLids t =
        [DrawCall.fillTriangle t.eyeLx (t.eyeLy - 1) (t.eyeLx + t.eyeLwidthCurrent) (t.eyeLy - 1)
           t.eyeLx (t.eyeLy - 1) t.BGCOLOR,
         DrawCall.fillTriangle t.eyeRx (t.eyeRy - 1) (t.eyeRx + t.eyeRwidthCurrent) (t.eyeRy - 1)
           (t.eyeRx + t.eyeRwidthCurrent) (t.eyeRy - 1) t.BGCOLOR] ∧
       angryLids t =
        [DrawCall.fillTriangle t.eyeLx (t.eyeLy - 1) (t.eyeLx + t.eyeLwidthCurrent) (t.eyeLy - 1)
           (t.eyeLx + t.eyeLwidthCurrent) (t.eyeLy - 1) t.BGCOLOR,
         DrawCall.fillTriangle t.eyeRx (t.eyeRy - 1) (t.eyeRx + t.eyeRwidthCurrent) (t.eyeRy - 1)
           t.eyeRx (t.eyeRy - 1) t.BGCOLOR] ∧
       happyLids t =
        [DrawCall.fillRoundRect (t.eyeLx - 1) (t.eyeLy + t.eyeLheightCurrent + 1)
           (t.eyeLwidthCurrent + 2) t.eyeLheightDefault t.eyeLborderRadiusCurrent t.BGCOLOR,
         DrawCall.fillRoundRect (t.eyeRx - 1) (t.eyeRy + t.eyeRheightCurrent + 1)
           (t.eyeRwidthCurrent + 2) t.eyeRheightDefault t.eyeRborderRadiusCurrent t.BGCOLOR]) ∧
      ∀ row : Int,
        (t.eyeLy ≤ row → row ≤ t.eyeLy + t.eyeLheightCurrent - 1 →
          ∀ c ∈ (tiredLids t).take 1 ++ (angryLids t).take 1 ++ (happyLids t).take 1,
            ¬ coversRow c row) ∧
        (t.eyeRy ≤ row → row ≤ t.eyeRy + t.eyeRheightCurrent - 1 →
          ∀ c ∈ (tiredLids t).drop 1 ++ (angryLids t).drop 1 ++ (happyLids t).drop 1,
            ¬ coversRow c row)) ∧
    (s.cyclops = true →
      (tiredLids t =
        [DrawCall.fillTriangle t.eyeLx (t.eyeLy - 1) (t.eyeLx + Int.tdiv t.eyeLwidthCurrent 2)
           (t.eyeLy - 1) t.eyeLx (t.eyeLy - 1) t.BGCOLOR,
         DrawCall.fillTriangle (t.eyeLx + Int.tdiv t.eyeLwidthCurrent 2) (t.eyeLy - 1)
           (t.eyeLx + t.eyeLwidthCurrent) (t.eyeLy - 1) (t.eyeLx + t.eyeLwidthCurrent)
           (t.eyeLy - 1) t.BGCOLOR] ∧
       angryLids t =
        [DrawCall.fillTriangle t.eyeLx (t.eyeLy - 1) (t.eyeLx + Int.tdiv t.eyeLwidthCurrent 2)
           (t.eyeLy - 1) (t.eyeLx + Int.tdiv t.eyeLwidthCurrent 2) (t.eyeLy - 1) t.BGCOLOR,
         DrawCall.fillTriangle (t.eyeLx + Int.tdiv t.eyeLwidthCurrent 2) (t.eyeLy - 1)
           (t.eyeLx + t.eyeLwidthCurrent) (t.eyeLy - 1) (t.eyeLx + Int.tdiv t.eyeLwidthCurrent 2)
           (t.eyeLy - 1) t.BGCOLOR] ∧
       happyLids t =
        [DrawCall.fillRoundRect (t.eyeLx - 1) (t.eyeLy + t.eyeLheightCurrent + 1)
           (t.eyeLwidthCurrent + 2) t.eyeLheightDefault t.eyeLborderRadiusCurrent t.BGCOLOR]) ∧
      ∀ row : Int, t.eyeLy ≤ row → row ≤ t.eyeLy + t.eyeLheightCurrent - 1 →
        ∀ c ∈ tiredLids t ++ angryLids t ++ happyLids t, ¬ coversRow c row) := by
  intro t
  have hcy : t.cyclops = s.cyclops := tick_cyclops s now rnd
  have k1 : t.eyelidsTiredHeight = 0 := h1
  have k2 : t.eyelidsAngryHeight = 0 := h2
  have k3 : t.eyelidsHappyBottomOffset = 0 := h3
  refine ⟨tick_snd s now rnd, ?_, ?_⟩
  · intro hc
    rw [hc] at hcy
    refine ⟨⟨?_, ?_, ?_⟩, ?_⟩
    · simp only [tiredLids, hcy, k1, Bool.not_false, if_true, add_zero]
    · simp only [angryLids, hcy, k2, Bool.not_false, if_true, add_zero]
    · simp only [happyLids, hcy, k3, Bool.not_false, if_true, sub_zero, List.singleton_append]
    intro row
    constructor
    · intro r0 r1 c hm
      simp only [tiredLids, angryLids, happyLids, hcy, k1, k2, k3, Bool.not_false, if_true,
        add_zero, sub_zero, List.singleton_append,
        List.take_succ_cons, List.take_zero, List.cons_append, List.nil_append,
        List.mem_cons, List.mem_singleton, List.not_mem_nil, or_false] at hm
      rcases hm with rfl | rfl | rfl <;> simp only [coversRow] <;> omega
    · intro r0 r1 c hm
      simp only [tiredLids, angryLids, happyLids, hcy, k1, k2, k3, Bool.not_false, if_true,
        add_zero, sub_zero, List.singleton_append,
        List.drop_succ_cons, List.drop_zero, List.cons_append, List.nil_append,
        List.mem_cons, List.mem_singleton, List.not_mem_nil, or_false] at hm
      rcases hm with rfl | rfl | rfl <;> simp only [coversRow] <;> omega
  · intro hc
    rw [hc] at hcy
    refine ⟨⟨?_, ?_, ?_⟩, ?_⟩
    · simp only [tiredLids, hcy, k1, Bool.not_true, Bool.false_eq_true, if_false, add_zero]
    · simp only [angryLids, hcy, k2, Bool.not_true, Bool.false_eq_true, if_false, add_zero]
    · simp only [happyLids, hcy, k3, Bool.not_true, Bool.false_eq_true, if_false, sub_zero,
        List.append_nil]
    intro row r0 r1 c hm
    simp only [tiredLids, angryLids, happyLids, hcy, k1, k2, k3, Bool.not_true,
      Bool.false_eq_true, if_false, add_zero, sub_zero, List.append_nil,
      List.cons_append, List.nil_append, List.mem_cons, List.mem_singleton,
      List.not_mem_nil, or_false] at hm
    rcases hm with rfl | rfl | rfl | rfl | rfl <;> simp only [coversRow] <;> omega

set_option maxRecDepth 100000 in
/-- C33 on the animator of `main.cpp` at rest in the default mood: the eyes cover the rows 14
to 48, the tired triangles lie on row 13 and the happy overlays start at row 50. -/
theorem C33_overlays_clear_of_eye_witness :
    ((tick restingEyes 130 zeroRng).1.eyelidsTiredHeight = 0 ∧
      (tick restingEyes 130 zeroRng).1.eyelidsAngryHeight = 0 ∧
      (tick restingEyes 130 zeroRng).1.eyelidsHappyBottomOffset = 0 ∧
      restingEyes.cyclops = false) ∧
    ((tick restingEyes 130 zeroRng).1.eyeLy = 14 ∧
      (tick restingEyes 130 zeroRng).1.eyeLheightCurrent = 35) ∧
    tiredLids (tick restingEyes 130 zeroRng).1 =
      [DrawCall.fillTriangle 23 13 59 13 23 13 0,
       DrawCall.fillTriangle 69 13 105 13 105 13 0] ∧
    happyLids (tick restingEyes 130 zeroRng).1 =
      [DrawCall.fillRoundRect 22 50 38 36 8 0, DrawCall.fillRoundRect 68 50 38 36 8 0] :=
  ⟨by decide, by decide,
   ((C33_overlays_clear_of_eye restingEyes 130 zeroRng (by decide) (by decide)
      (by decide)).2.1 (by decide)).1.1.trans (by decide),
   ((C33_overlays_clear_of_eye restingEyes 130 zeroRng (by decide) (by decide)
      (by decide)).2.1 (by decide)).1.2.2.trans (by decide)⟩

end roboEyes
